import Mathlib

/-!
# Session countdown of the code-review client

A shallow embedding of the countdown code of `frontend/src/App.jsx` (main view),
`frontend/src/CandidateView.jsx` (candidate view) and `frontend/src/TimerWidget.jsx`
(timer popup), of the callbacks `createSession` and `extendSession` of
`ReviewerDashboard.jsx` (reviewer dashboard), of the session loading, the comment form, the
line ranges and the job polling of the main view and the candidate view, and of `toggleMR`
of `frontend/src/MRSelector.jsx`, followed by theorems about them.

Conventions of the embedding.

* JavaScript strings are `String`; the two string tests the code uses are defined on the
  character list.
* `new Date(s).getTime()` belongs to the JavaScript runtime, not to the repository: it is the
  parameter `parseDate : String → Option Int`, milliseconds since the epoch, with `none` for
  `NaN` (an unparsable string).
* A JavaScript number that may be `NaN` is an `Option`; `none` is `NaN`.  Every comparison
  with `NaN` is false, and `Math.max(0, NaN)` is `NaN`.
* Remaining times are integers (milliseconds); the progress percent `(diff / total) * 100`
  is a rational.
* React state set by a tick is visible to the next tick: the effect that owns `updateTimer`
  re-runs when `sessionId` or `notificationShown` changes, so the closure always holds the
  current values.
* An `async` callback is one step: the state at the call, the response the request
  resolves to as an argument, the state after the continuation as the result.  The requests
  the dashboard sends are kept in a log.
-/

namespace Conversations

/-! ## Strings and numbers -/

/-- JavaScript `s.endsWith(t)`. -/
def endsWith (s t : String) : Bool := t.data.isSuffixOf s.data

/-- JavaScript `s.includes(c)` for a needle of one character. -/
def includes (s : String) (c : Char) : Bool := s.data.contains c

/-- The constant `expiresAtUTC` of every `updateTimer`:
`expiresAt.endsWith('Z') || expiresAt.includes('+') || expiresAt.includes('-')
   ? expiresAt : expiresAt + 'Z'`. -/
def expiresAtUTC (expiresAt : String) : String :=
  if endsWith expiresAt "Z" || includes expiresAt '+' || includes expiresAt '-' then expiresAt
  else expiresAt ++ "Z"

/-- The constant `diff`: `Math.max(0, end - now)`, where `end` may be `NaN`. -/
def diffOf (end_ : Option Int) (now : Int) : Option Int :=
  end_.map fun e => max 0 (e - now)

/-- The constant `total`: `2 * 60 * 60 * 1000`. -/
def total : Int := 2 * 60 * 60 * 1000

/-- The constant `percent`: `(diff / total) * 100`.  The code computes it in double
precision; for an integer `diff` the tests `percent < 15` and `percent < 40` have the same
outcome on the exact rational (the doubles at `diff = 1080000` and `diff = 2880000` are
exactly 15 and 40, and the neighbouring integers are far beyond the rounding error). -/
def percentOf (diff : Int) : ℚ := ((diff : ℚ) / (total : ℚ)) * 100

/-- The backgrounds of the progress bar: `#e74c3c`, `#f39c12`, `#27ae60`, and the gradient
of the markup, which no tick writes. -/
inductive Color
  | red
  | amber
  | green
  | gradient
  deriving DecidableEq, Repr

/-- The colour chain `if (percent < 15) … else if (percent < 40) … else …`; with `NaN`
both tests are false. -/
def colorOf (percent : Option ℚ) : Color :=
  match percent with
  | none => Color.green
  | some p => if p < 15 then Color.red else if p < 40 then Color.amber else Color.green

/-- A test `x < bound` on a number that may be `NaN`. -/
def ltNum (x : Option Int) (bound : Int) : Bool :=
  match x with
  | none => false
  | some v => decide (v < bound)

/-- A test `x > bound` on a number that may be `NaN`. -/
def gtNum (x : Option Int) (bound : Int) : Bool :=
  match x with
  | none => false
  | some v => decide (bound < v)

/-- The constant `hours`: `Math.floor(diff / (1000 * 60 * 60))`. -/
def hoursOf (diff : Int) : Int := diff / (1000 * 60 * 60)

/-- The constant `minutes`: `Math.floor((diff % (1000 * 60 * 60)) / (1000 * 60))`. -/
def minutesOf (diff : Int) : Int := (Int.tmod diff (1000 * 60 * 60)) / (1000 * 60)

/-- The constant `seconds`: `Math.floor((diff % (1000 * 60)) / 1000)`. -/
def secondsOf (diff : Int) : Int := (Int.tmod diff (1000 * 60)) / 1000

/-- The constant `totalMinutes` of the main view: `hours * 60 + minutes`. -/
def totalMinutesOf (diff : Int) : Int := hoursOf diff * 60 + minutesOf diff

/-- What a timer element shows. -/
inductive TimerText
  /-- the text `2:00:00` of the markup, before any tick wrote to the element -/
  | blank
  /-- the placeholder of an absent expiry -/
  | placeholder
  /-- the text of an expired session in the main view -/
  | timeUp
  /-- the text `hh:mm:ss` -/
  | clock (hours minutes seconds : Int)
  /-- the text `NaN:NaN:NaN` of an unparsable expiry -/
  | nan
  deriving DecidableEq, Repr

/-- The text written by `timerEl.textContent = …` for a remaining time that is not zero. -/
def clockText (diff : Option Int) : TimerText :=
  match diff with
  | none => TimerText.nan
  | some d => TimerText.clock (hoursOf d) (minutesOf d) (secondsOf d)

/-! ## The Local Expiry Cache -/

/-- The JSON object stored under `session_<id>`. -/
structure CacheEntry where
  expires_at : Option String
  created_at : Option String
  deriving DecidableEq, Repr

/-- The part of `localStorage` that holds the session entries, by session id. -/
abbrev Storage := Nat → Option CacheEntry

/-- The expression `JSON.parse(localStorage.getItem(key) || '{}')`. -/
def getEntry (ls : Storage) (id : Nat) : CacheEntry :=
  match ls id with
  | some e => e
  | none => { expires_at := none, created_at := none }

/-- The call `localStorage.setItem(key, JSON.stringify(entry))`. -/
def setItem (ls : Storage) (id : Nat) (e : CacheEntry) : Storage :=
  fun k => if k = id then some e else ls k

/-- The truthiness test on a string field: absent, `null` and `''` are falsy. -/
def truthyStr (v : Option String) : Option String :=
  match v with
  | none => none
  | some s => if s = "" then none else some s

/-! ## State shared by the views -/

/-- Calls a view makes to the outside; the log records that the call happened. -/
inductive Effect
  /-- a call of `showBrowserNotification(message)` -/
  | notification (message : String)
  /-- a call of `playTickSound()` -/
  | tickSound
  /-- a call of `handleExit()` -/
  | exit
  /-- a call of `alert(message)` -/
  | alert (message : String)
  deriving DecidableEq, Repr

/-- A review comment as the client holds it. -/
structure Comment where
  file : String
  line_range : String
  type : String
  severity : String
  text : String
  deriving DecidableEq, Repr

/-- The requests the main view and the candidate view send with `axios`. -/
inductive ApiCall
  /-- the request `POST …/comments` with the draft as its body -/
  | addComment (body : Comment)
  /-- the request `GET` of the session -/
  | session
  /-- the request `GET` of the diff -/
  | diff
  /-- the request `GET` of the report text -/
  | report
  /-- the request `GET /jobs/<jobId>` -/
  | job (jobId : String)
  deriving DecidableEq, Repr

/-- Which elements `document.getElementById` finds. -/
structure Page where
  timerEl : Bool
  progressEl : Bool
  timerContainer : Bool
  deriving DecidableEq, Repr

/-! ## The main view (`App.jsx`) -/

/-- State of the main view: React state, refs, the browser's storage and timers, and what
the timer elements show.  Timer handles are the positive integers the browser hands out, so
a handle stored in a ref is truthy. -/
structure App where
  sessionId : Option Nat
  candidateId : String
  diffContent : String
  comments : List Comment
  report : String
  status : String
  isBlinking : Bool
  notificationShown : Bool
  tickIntervalRef : Option Nat
  exitTimeoutRef : Option Nat
  localStorage : Storage
  /-- the handle the next `setTimeout` or `setInterval` returns -/
  nextTimerId : Nat
  /-- pending exit confirmations: handle and the session id the callback closed over -/
  timeouts : List (Nat × Nat)
  /-- live intervals: the repeating tick of the timer effect, the audio cue and the polling
  of a job -/
  intervals : List Nat
  timerText : TimerText
  /-- the number written to `progressEl.style.width`, `none` for `NaN%` -/
  progressWidth : Option ℚ
  progressColor : Color
  /-- whether `timerContainer.style.animation` is the blink animation -/
  blinkAnimation : Bool
  effects : List Effect
  isLoading : Bool
  isEvaluating : Bool
  selectedLine : Option Nat
  /-- the draft of the comment form -/
  newComment : Comment
  sessionCreatedAt : Option String
  /-- the log of the requests sent -/
  requests : List ApiCall

namespace App

/-- The state of a freshly mounted main view. -/
def init : App :=
  { sessionId := none, candidateId := "", diffContent := "", comments := [], report := "",
    status := "", isBlinking := false, notificationShown := false, tickIntervalRef := none,
    exitTimeoutRef := none, localStorage := fun _ => none, nextTimerId := 1, timeouts := [],
    intervals := [], timerText := TimerText.blank, progressWidth := some 100,
    progressColor := Color.gradient, blinkAnimation := false, effects := [],
    isLoading := false, isEvaluating := false, selectedLine := none,
    newComment :=
      { file := "main.py", line_range := "", type := "bug", severity := "medium", text := "" },
    sessionCreatedAt := none, requests := [] }

/-- The browser call `clearTimeout(h)`. -/
def clearTimeout (h : Nat) (a : App) : App :=
  { a with timeouts := a.timeouts.filter fun t => decide (t.1 ≠ h) }

/-- The browser call `clearInterval(h)`. -/
def clearInterval (h : Nat) (a : App) : App :=
  { a with intervals := a.intervals.filter fun t => decide (t ≠ h) }

/-- The callback `handleExit`. -/
def handleExit (a : App) : App :=
  let a1 := { a with
    sessionId := none, candidateId := "", comments := [], diffContent := "", report := "",
    status := "Вы вышли из сессии", notificationShown := false,
    effects := a.effects ++ [Effect.exit] }
  let a2 := match a1.tickIntervalRef with
    | some h => { clearInterval h a1 with tickIntervalRef := none }
    | none => a1
  match a2.exitTimeoutRef with
  | some h => { clearTimeout h a2 with exitTimeoutRef := none }
  | none => a2

/-- The callback given to `setTimeout(…, 1000)` by `updateTimer`, run at time `now`. -/
def exitConfirmation (parseDate : String → Option Int) (sessionId : Nat) (now : Int)
    (a : App) : App :=
  let recheckData := getEntry a.localStorage sessionId
  let a1 := match truthyStr recheckData.expires_at with
    | some recheckExpires =>
      let recheckEnd := parseDate (expiresAtUTC recheckExpires)
      let recheckDiff := diffOf recheckEnd now
      if recheckDiff = some 0 then handleExit a else a
    | none => handleExit a
  { a1 with exitTimeoutRef := none }

/-- The browser runs the timeout `h` at time `now`, if it is still pending. -/
def fireTimeout (parseDate : String → Option Int) (now : Int) (h : Nat) (a : App) : App :=
  match a.timeouts.find? fun t => decide (t.1 = h) with
  | none => a
  | some t => exitConfirmation parseDate t.2 now (clearTimeout h a)

/-- The function `updateTimer` of the session timer effect, for the `sessionId` the effect
closed over, run at time `now`. -/
def updateTimer (parseDate : String → Option Int) (sessionId : Nat) (now : Int) (page : Page)
    (a : App) : App :=
  if !page.timerEl || !page.progressEl then a
  else
    let lastSessionData := getEntry a.localStorage sessionId
    match truthyStr lastSessionData.expires_at with
    | none => { a with timerText := TimerText.placeholder }
    | some expiresAt =>
      let end_ := parseDate (expiresAtUTC expiresAt)
      let diff := diffOf end_ now
      if diff = some 0 then
        let a1 := { a with
          timerText := TimerText.timeUp, progressWidth := some 0, progressColor := Color.red }
        let a2 := match a1.exitTimeoutRef with
          | some h => clearTimeout h a1
          | none => a1
        { a2 with
          exitTimeoutRef := some a2.nextTimerId
          timeouts := (a2.nextTimerId, sessionId) :: a2.timeouts
          nextTimerId := a2.nextTimerId + 1 }
      else
        let a1 := match a.exitTimeoutRef with
          | some h => { clearTimeout h a with exitTimeoutRef := none }
          | none => a
        let totalMinutes := diff.map totalMinutesOf
        let percent := diff.map percentOf
        let a2 := { a1 with
          timerText := clockText diff, progressWidth := percent,
          progressColor := colorOf percent }
        let a3 :=
          if ltNum totalMinutes 5 then
            { a2 with
              isBlinking := true
              blinkAnimation := if page.timerContainer then true else a2.blinkAnimation }
          else
            { a2 with
              isBlinking := false
              blinkAnimation := if page.timerContainer then false else a2.blinkAnimation }
        let a4 :=
          if ltNum totalMinutes 1 then
            match a3.tickIntervalRef with
            | none =>
              { a3 with
                effects := a3.effects ++ [Effect.tickSound]
                tickIntervalRef := some a3.nextTimerId
                intervals := a3.nextTimerId :: a3.intervals
                nextTimerId := a3.nextTimerId + 1 }
            | some _ => a3
          else
            match a3.tickIntervalRef with
            | some h => { clearInterval h a3 with tickIntervalRef := none }
            | none => a3
        if ltNum totalMinutes 10 && !a.notificationShown then
          { a4 with
            effects := a4.effects ++
              [Effect.notification "Внимание! Осталось менее 10 минут до окончания сессии."]
            notificationShown := true }
        else a4

/-- One firing of the repeating tick: the timer effect runs `updateTimer` only while a
session is bound (`if (!sessionId) … return`). -/
def tick (parseDate : String → Option Int) (now : Int) (page : Page) (a : App) : App :=
  match a.sessionId with
  | none => a
  | some sessionId => if sessionId = 0 then a else updateTimer parseDate sessionId now page a

/-- What `axios.post` of the extend request resolves to. -/
inductive ExtendResponse
  /-- the request rejects -/
  | failed
  /-- the request resolves with `r.data.expires_at` -/
  | ok (expires_at : Option String)
  deriving DecidableEq, Repr

/-- The callback `extendSession`, for the `sessionId` it closed over, continued at time
`now` with the response `r`. -/
def extendSession (parseDate : String → Option Int) (sessionId : Option Nat) (now : Int)
    (page : Page) (r : ExtendResponse) (a : App) : App :=
  match sessionId with
  | none => a
  | some sessionId =>
    if sessionId = 0 then a
    else
      match r with
      | ExtendResponse.failed => { a with status := "Ошибка продления сессии" }
      | ExtendResponse.ok data =>
        match truthyStr data with
        | none => { a with status := "Ошибка: не получено новое время" }
        | some newExpires =>
          let a1 := { a with status := "Сессия продлена на 30 минут" }
          let lastSessionData := getEntry a1.localStorage sessionId
          let a2 := { a1 with
            localStorage := setItem a1.localStorage sessionId
              { lastSessionData with expires_at := some newExpires } }
          let a3 := { a2 with notificationShown := false }
          let a4 := match a3.exitTimeoutRef with
            | some h => { clearTimeout h a3 with exitTimeoutRef := none }
            | none => a3
          if page.timerEl && page.progressEl then
            let sessionData := getEntry a4.localStorage sessionId
            let expiresAt := match truthyStr sessionData.expires_at with
              | some e => e
              | none => newExpires
            let end_ := parseDate (expiresAtUTC expiresAt)
            let diff := diffOf end_ now
            if diff = some 0 then
              { a4 with
                timerText := TimerText.timeUp, progressWidth := some 0,
                progressColor := Color.red }
            else
              let percent := diff.map percentOf
              { a4 with
                timerText := clockText diff, progressWidth := percent,
                progressColor := colorOf percent }
          else a4

end App

/-! ## The candidate view (`CandidateView.jsx`) and the timer popup (`TimerWidget.jsx`) -/

/-- The session object of a session response, which a token-scoped view holds in its React
state; `comments` is `data.comments` with an absent list read as empty, `giteaEnabled` is
`data.gitea?.enabled`. -/
structure Session where
  session_id : Nat
  expires_at : Option String
  created_at : Option String
  comments : List Comment := []
  giteaEnabled : Bool := false
  candidate_ready_at : Option String := none
  deriving DecidableEq, Repr

/-- State of a token-scoped view; the candidate view and the timer popup declare the same
state, refs and timer elements.  The fields from `diffContent` on are those of the comment
form and of the session loading of the candidate view. -/
structure View where
  session : Option Session
  status : String
  isBlinking : Bool
  notificationShown : Bool
  tickIntervalRef : Option Nat
  exitTimeoutRef : Option Nat
  localStorage : Storage
  /-- the handle the next `setTimeout` or `setInterval` returns -/
  nextTimerId : Nat
  /-- pending expiry timeouts -/
  timeouts : List Nat
  /-- live intervals: the repeating tick of the timer effect -/
  intervals : List Nat
  timerText : TimerText
  /-- the number written to `progressEl.style.width`, `none` for `NaN%` -/
  progressWidth : Option ℚ
  progressColor : Color
  effects : List Effect
  diffContent : String
  comments : List Comment
  isLoading : Bool
  selectedLine : Option Nat
  /-- the draft of the comment form -/
  newComment : Comment
  /-- the log of the requests sent -/
  requests : List ApiCall

namespace View

/-- The state of a freshly mounted token-scoped view. -/
def init : View :=
  { session := none, status := "", isBlinking := false, notificationShown := false,
    tickIntervalRef := none, exitTimeoutRef := none, localStorage := fun _ => none,
    nextTimerId := 1, timeouts := [], intervals := [],
    timerText := TimerText.blank, progressWidth := some 100, progressColor := Color.gradient,
    effects := [], diffContent := "", comments := [], isLoading := true, selectedLine := none,
    newComment :=
      { file := "main.py", line_range := "", type := "bug", severity := "medium", text := "" },
    requests := [] }

/-- The browser call `clearTimeout(h)`. -/
def clearTimeout (h : Nat) (v : View) : View :=
  { v with timeouts := v.timeouts.filter fun t => decide (t ≠ h) }

/-- The function `updateTimer` of the session timer effect, for the `expiresAt` the effect
closed over, run at time `now`.  The two files differ only in the ids of the timer elements
and in the body of the callback handed to `setTimeout`. -/
def updateTimer (parseDate : String → Option Int) (expiresAt : String) (now : Int)
    (page : Page) (v : View) : View :=
  let end_ := parseDate (expiresAtUTC expiresAt)
  let diff := diffOf end_ now
  let v1 := if page.timerEl then { v with timerText := clockText diff } else v
  let v2 :=
    if page.progressEl then
      let percent := diff.map percentOf
      { v1 with
        progressWidth := percent.map fun p => max 0 p
        progressColor := colorOf percent }
    else v1
  let v3 := { v2 with isBlinking := ltNum diff (5 * 60000) && gtNum diff 0 }
  let v4 :=
    if ltNum diff 60000 && gtNum diff 0 && ltNum (diff.map fun d => Int.tmod d 1000) 100 then
      { v3 with effects := v3.effects ++ [Effect.tickSound] }
    else v3
  let v5 :=
    if ltNum diff (10 * 60000) && gtNum diff 0 && !v.notificationShown then
      { v4 with
        effects := v4.effects ++
          [Effect.notification "Осталось менее 10 минут до окончания сессии!"]
        notificationShown := true }
    else v4
  if diff = some 0 then
    let v6 := match v5.exitTimeoutRef with
      | some h => clearTimeout h v5
      | none => v5
    { v6 with
      exitTimeoutRef := some v6.nextTimerId
      timeouts := v6.nextTimerId :: v6.timeouts
      nextTimerId := v6.nextTimerId + 1 }
  else
    match v5.exitTimeoutRef with
    | some h => { clearTimeout h v5 with exitTimeoutRef := none }
    | none => v5

/-- One firing of the repeating tick: the timer effect runs `updateTimer` only while the
session in the React state has an expiry (`if (!session?.expires_at) return`). -/
def tick (parseDate : String → Option Int) (now : Int) (page : Page) (v : View) : View :=
  match v.session with
  | none => v
  | some session =>
    match truthyStr session.expires_at with
    | none => v
    | some expiresAt => updateTimer parseDate expiresAt now page v

end View

/-- The tick of the candidate view. -/
def CandidateView.tick (parseDate : String → Option Int) (now : Int) (page : Page)
    (v : View) : View :=
  View.tick parseDate now page v

/-- The tick of the timer popup. -/
def TimerWidget.tick (parseDate : String → Option Int) (now : Int) (page : Page)
    (v : View) : View :=
  View.tick parseDate now page v

/-! ### The stages of a main-view tick

The part of `App.updateTimer` after the test `diff === 0`, cut into the statements it is
made of; `App.updateTimer_stages` shows that the function is their composition. -/

/-- The statement `if (exitTimeoutRef.current) { clearTimeout(…); exitTimeoutRef.current = null }`. -/
def App.cancelExit (a : App) : App :=
  match a.exitTimeoutRef with
  | some h => { App.clearTimeout h a with exitTimeoutRef := none }
  | none => a

/-- The statements that write the clock, the width and the colour. -/
def App.render (diff : Option Int) (a : App) : App :=
  { a with
    timerText := clockText diff, progressWidth := diff.map percentOf,
    progressColor := colorOf (diff.map percentOf) }

/-- The statement `if (totalMinutes < 5) … else …`. -/
def App.blink (page : Page) (totalMinutes : Option Int) (a : App) : App :=
  if ltNum totalMinutes 5 then
    { a with
      isBlinking := true
      blinkAnimation := if page.timerContainer then true else a.blinkAnimation }
  else
    { a with
      isBlinking := false
      blinkAnimation := if page.timerContainer then false else a.blinkAnimation }

/-- The statement `if (totalMinutes < 1) … else …`. -/
def App.audio (totalMinutes : Option Int) (a : App) : App :=
  if ltNum totalMinutes 1 then
    match a.tickIntervalRef with
    | none =>
      { a with
        effects := a.effects ++ [Effect.tickSound]
        tickIntervalRef := some a.nextTimerId
        intervals := a.nextTimerId :: a.intervals
        nextTimerId := a.nextTimerId + 1 }
    | some _ => a
  else
    match a.tickIntervalRef with
    | some h => { App.clearInterval h a with tickIntervalRef := none }
    | none => a

/-- The statement `if (totalMinutes < 10 && !notificationShown) …`, for the value `shown`
of `notificationShown` the tick closed over. -/
def App.notify (totalMinutes : Option Int) (shown : Bool) (a : App) : App :=
  if ltNum totalMinutes 10 && !shown then
    { a with
      effects := a.effects ++
        [Effect.notification "Внимание! Осталось менее 10 минут до окончания сессии."]
      notificationShown := true }
  else a

/-! ### The stages of a tick of a token-scoped view

`View.updateTimer` cut into the statements it is made of; `View.updateTimer_composition` shows
that the function is their composition. -/

/-- The statements that write the clock, the width and the colour. -/
def View.render (page : Page) (diff : Option Int) (v : View) : View :=
  let v1 := if page.timerEl then { v with timerText := clockText diff } else v
  if page.progressEl then
    let percent := diff.map percentOf
    { v1 with
      progressWidth := percent.map fun p => max 0 p
      progressColor := colorOf percent }
  else v1

/-- The statement `if (diff < 5 * 60000 && diff > 0) … else …`. -/
def View.blink (diff : Option Int) (v : View) : View :=
  { v with isBlinking := ltNum diff (5 * 60000) && gtNum diff 0 }

/-- The statement `if (diff < 60000 && diff > 0 && diff % 1000 < 100) playTickSound()`. -/
def View.sound (diff : Option Int) (v : View) : View :=
  if ltNum diff 60000 && gtNum diff 0 && ltNum (diff.map fun d => Int.tmod d 1000) 100 then
    { v with effects := v.effects ++ [Effect.tickSound] }
  else v

/-- The statement `if (diff < 10 * 60000 && diff > 0 && !notificationShown) …`, for the
value `shown` of `notificationShown` the tick closed over. -/
def View.notify (diff : Option Int) (shown : Bool) (v : View) : View :=
  if ltNum diff (10 * 60000) && gtNum diff 0 && !shown then
    { v with
      effects := v.effects ++
        [Effect.notification "Осталось менее 10 минут до окончания сессии!"]
      notificationShown := true }
  else v

/-- The statement `if (diff === 0) … else …` on the expiry timeout. -/
def View.expiry (diff : Option Int) (v : View) : View :=
  if diff = some 0 then
    let v1 := match v.exitTimeoutRef with
      | some h => View.clearTimeout h v
      | none => v
    { v1 with
      exitTimeoutRef := some v1.nextTimerId
      timeouts := v1.nextTimerId :: v1.timeouts
      nextTimerId := v1.nextTimerId + 1 }
  else
    match v.exitTimeoutRef with
    | some h => { View.clearTimeout h v with exitTimeoutRef := none }
    | none => v

/-! ### The session timer effect -/

/-- The body of the session timer effect of the main view, run at time `now`: without a
bound session it stops the audio interval and registers no cleanup; otherwise it runs
`updateTimer` once and starts the repeating tick.  The second component is the handle
`interval` the cleanup closes over. -/
def App.timerEffect (parseDate : String → Option Int) (now : Int) (page : Page) (a : App) :
    App × Option Nat :=
  match (match a.sessionId with
    | none => none
    | some sessionId => if sessionId = 0 then none else some sessionId) with
  | none =>
    (match a.tickIntervalRef with
      | some h => { App.clearInterval h a with tickIntervalRef := none }
      | none => a,
     none)
  | some sessionId =>
    let a1 := App.updateTimer parseDate sessionId now page a
    ({ a1 with intervals := a1.nextTimerId :: a1.intervals, nextTimerId := a1.nextTimerId + 1 },
     some a1.nextTimerId)

/-- The cleanup the session timer effect of the main view returns:
`clearInterval(interval)`, then the audio interval of `tickIntervalRef` is cleared and the
ref nulled. -/
def App.timerCleanup (interval : Nat) (a : App) : App :=
  let a1 := App.clearInterval interval a
  match a1.tickIntervalRef with
  | some h => { App.clearInterval h a1 with tickIntervalRef := none }
  | none => a1

/-- The browser call `clearInterval(h)` in a token-scoped view. -/
def View.clearInterval (h : Nat) (v : View) : View :=
  { v with intervals := v.intervals.filter fun t => decide (t ≠ h) }

/-- The body of the session timer effect of the candidate view and of the timer popup, run
at time `now`: without an expiry in the session object it does nothing; otherwise it runs
`updateTimer` once, starts the repeating tick and stores its handle in `tickIntervalRef`. -/
def View.timerEffect (parseDate : String → Option Int) (now : Int) (page : Page) (v : View) :
    View × Option Nat :=
  match (match v.session with
    | none => none
    | some session => truthyStr session.expires_at) with
  | none => (v, none)
  | some expiresAt =>
    let v1 := View.updateTimer parseDate expiresAt now page v
    ({ v1 with
        intervals := v1.nextTimerId :: v1.intervals
        nextTimerId := v1.nextTimerId + 1
        tickIntervalRef := some v1.nextTimerId },
     some v1.nextTimerId)

/-- The cleanup the session timer effect of the candidate view and of the timer popup
returns: `clearInterval(interval)`, then the timeout of `exitTimeoutRef` is cleared (the ref
keeps the handle). -/
def View.timerCleanup (interval : Nat) (v : View) : View :=
  let v1 := View.clearInterval interval v
  match v1.exitTimeoutRef with
  | some h => View.clearTimeout h v1
  | none => v1

/-! ## The reviewer dashboard (`ReviewerDashboard.jsx`) -/

/-- The characters JavaScript `trim` strips: white space and line terminators. -/
def isWhiteSpace (c : Char) : Bool :=
  [0x09, 0x0A, 0x0B, 0x0C, 0x0D, 0x20, 0xA0, 0x1680, 0x2028, 0x2029, 0x202F, 0x205F, 0x3000,
    0xFEFF].contains c.toNat || (decide (0x2000 ≤ c.toNat) && decide (c.toNat ≤ 0x200A))

/-- JavaScript `s.trim()`. -/
def trim (s : String) : String :=
  String.mk ((s.data.dropWhile isWhiteSpace).reverse.dropWhile isWhiteSpace).reverse

/-- The form of the create dialog. -/
structure NewSession where
  candidate_name : String
  mr_package : String
  reviewer_name : String
  deriving DecidableEq, Repr

/-- The object shown by the modal of a created session. -/
structure CreatedSessionInfo where
  sessionId : Nat
  accessToken : String
  tokenUrl : String
  deriving DecidableEq, Repr

/-- The session object the dashboard holds in `selectedSession`. -/
structure ReviewerSession where
  id : Nat
  candidate_name : String
  expires_at : Option String
  created_at : Option String
  deriving DecidableEq, Repr

/-- The requests the dashboard sends with `axios`. -/
inductive Request
  /-- the request `POST /reviewer/sessions` with the form as its body -/
  | createSession (body : NewSession)
  /-- the request `GET /reviewer/sessions` of `loadSessions()` -/
  | loadSessions
  /-- the request `POST /reviewer/sessions/<id>/extend` -/
  | extendSession (id : Nat)
  deriving DecidableEq, Repr

/-- State of the reviewer dashboard: the React state `createSession` and `extendSession`
read or write, the browser's storage, and the log of the requests sent. -/
structure Dashboard where
  selectedSession : Option ReviewerSession
  isLoading : Bool
  showCreateForm : Bool
  newSession : NewSession
  createdSessionInfo : Option CreatedSessionInfo
  linkCopied : Bool
  localStorage : Storage
  requests : List Request

/-- The state of a freshly mounted dashboard. -/
def Dashboard.init : Dashboard :=
  { selectedSession := none, isLoading := false, showCreateForm := false,
    newSession :=
      { candidate_name := "", mr_package := "demo_package", reviewer_name := "Reviewer" },
    createdSessionInfo := none, linkCopied := false, localStorage := fun _ => none,
    requests := [] }

/-- What `axios.post` of the create request resolves to. -/
inductive CreateResponse
  /-- the request rejects -/
  | failed
  /-- the request resolves with `res.data.session_id` and `res.data.access_token` -/
  | ok (session_id : Nat) (access_token : String)
  deriving DecidableEq, Repr

/-- The callback `createSession` of the dashboard, continued with the response `res`;
`origin` is `window.location.origin`. -/
def ReviewerDashboard.createSession (origin : String) (res : CreateResponse)
    (d : Dashboard) : Dashboard :=
  if trim d.newSession.candidate_name = "" then d
  else
    let d1 := { d with
      isLoading := true
      requests := d.requests ++ [Request.createSession d.newSession] }
    let d2 := match res with
      | CreateResponse.ok session_id access_token =>
        let tokenUrl := origin ++ "/candidate/" ++ access_token
        { d1 with
          linkCopied := false
          createdSessionInfo := some
            { sessionId := session_id, accessToken := access_token, tokenUrl := tokenUrl }
          newSession :=
            { candidate_name := "", mr_package := "demo_package",
              reviewer_name := "Reviewer" }
          showCreateForm := false
          requests := d1.requests ++ [Request.loadSessions] }
      | CreateResponse.failed => d1
    { d2 with isLoading := false }

/-- The callback `extendSession(id)` of the dashboard, continued with the response `res`. -/
def ReviewerDashboard.extendSession (id : Nat) (res : App.ExtendResponse)
    (d : Dashboard) : Dashboard :=
  let d1 := { d with requests := d.requests ++ [Request.extendSession id] }
  match res with
  | App.ExtendResponse.failed => d1
  | App.ExtendResponse.ok expires_at =>
    let d2 := match d1.selectedSession with
      | some selected =>
        if selected.id = id then
          { d1 with
            selectedSession := some { selected with expires_at := expires_at }
            localStorage := setItem d1.localStorage id
              { expires_at := expires_at, created_at := selected.created_at } }
        else d1
      | none => d1
    { d2 with requests := d2.requests ++ [Request.loadSessions] }

/-- A dashboard that shows session `1` with the expiry `e`, stored in the cache as well. -/
def Dashboard.showing (e : String) : Dashboard :=
  { Dashboard.init with
    selectedSession := some
      { id := 1, candidate_name := "Ann", expires_at := some e, created_at := none }
    localStorage := setItem Dashboard.init.localStorage 1
      { expires_at := some e, created_at := none } }

/-! ## Loading a session and adding a comment -/

/-- Why a request rejects. -/
inductive Failure
  /-- the server answers with an error status, such as 404 -/
  | http (status : Nat)
  /-- no answer arrives -/
  | network
  deriving DecidableEq, Repr

/-- What the request of the session resolves to. -/
inductive SessionResponse
  /-- the request rejects -/
  | failed (reason : Failure)
  /-- the request resolves with the session object -/
  | ok (data : Session)
  deriving DecidableEq, Repr

/-- What the requests of `loadSession` resolve to; `none` is a request that rejects. -/
structure LoadResponses where
  session : SessionResponse
  diff : Option String
  report : Option String
  deriving DecidableEq, Repr

/-- What the request that posts a comment resolves to. -/
inductive CommentResponse
  /-- the request rejects -/
  | failed
  /-- the request resolves -/
  | ok
  deriving DecidableEq, Repr

/-- The callback `loadSession(id)` of the main view, continued with the responses `r`. -/
def App.loadSession (id : Nat) (r : LoadResponses) (a : App) : App :=
  let a1 := { a with
    isLoading := true
    requests := a.requests ++ [ApiCall.diff, ApiCall.session] }
  let a2 := match r.session with
    | SessionResponse.failed _ => { a1 with status := "Ошибка загрузки сессии" }
    | SessionResponse.ok data =>
      let a3 := { a1 with
        diffContent := r.diff.getD "# No diff available"
        comments := data.comments }
      let a4 := match truthyStr data.created_at with
        | some created => { a3 with sessionCreatedAt := some created }
        | none => a3
      let a5 := match truthyStr data.expires_at with
        | some _ =>
          { a4 with
            localStorage := setItem a4.localStorage id
              { expires_at := data.expires_at, created_at := data.created_at } }
        | none => a4
      let a6 := { a5 with requests := a5.requests ++ [ApiCall.report] }
      match r.report with
      | some text => { a6 with report := text }
      | none => a6
  { a2 with isLoading := false }

/-- The `onClick` handler of the add-comment button of the main view, for the `sessionId`
of the view, continued with the response `posted` of the comment request and the responses
`r` of the reload. -/
def App.addCommentClick (sessionId : Nat) (posted : CommentResponse) (r : LoadResponses)
    (a : App) : App :=
  let a1 := { a with requests := a.requests ++ [ApiCall.addComment a.newComment] }
  match posted with
  | CommentResponse.failed => { a1 with status := "Ошибка добавления" }
  | CommentResponse.ok =>
    let a2 := { a1 with
      selectedLine := none
      newComment := { a.newComment with text := "", line_range := "" } }
    let a3 := App.loadSession sessionId r a2
    { a3 with status := "Комментарий добавлен" }

/-- The callback `loadSession` of the candidate view, continued with the responses `r`. -/
def CandidateView.loadSession (r : LoadResponses) (v : View) : View :=
  let v1 := { v with isLoading := true, requests := v.requests ++ [ApiCall.session] }
  let v2 := match r.session with
    | SessionResponse.failed _ =>
      { v1 with status := "Ошибка загрузки сессии. Проверьте токен." }
    | SessionResponse.ok data =>
      let v3 := { v1 with session := some data }
      let v4 :=
        if !data.giteaEnabled then
          { v3 with
            requests := v3.requests ++ [ApiCall.diff]
            diffContent := r.diff.getD "# No diff available" }
        else v3
      let v5 := { v4 with comments := data.comments }
      match truthyStr data.expires_at with
      | some _ =>
        { v5 with
          localStorage := setItem v5.localStorage data.session_id
            { expires_at := data.expires_at, created_at := data.created_at } }
      | none => v5
  { v2 with isLoading := false }

/-- The callback `addComment` of the candidate view, continued with the response `posted`
of the comment request and the responses `r` of the reload. -/
def CandidateView.addComment (posted : CommentResponse) (r : LoadResponses) (v : View) :
    View :=
  if trim v.newComment.text = "" || v.newComment.line_range = "" then
    { v with status := "Заполните все поля" }
  else
    let v1 := { v with requests := v.requests ++ [ApiCall.addComment v.newComment] }
    match posted with
    | CommentResponse.failed => { v1 with status := "Ошибка добавления комментария" }
    | CommentResponse.ok =>
      let v2 := { v1 with
        selectedLine := none
        newComment := { v.newComment with text := "", line_range := "" } }
      let v3 := CandidateView.loadSession r v2
      { v3 with status := "Комментарий добавлен" }

/-- Whether a request posts a comment. -/
def ApiCall.isAddComment (x : ApiCall) : Bool :=
  match x with
  | ApiCall.addComment _ => true
  | _ => false

/-- How many comment requests a log holds. -/
def commentRequestCount (requests : List ApiCall) : Nat :=
  requests.countP ApiCall.isAddComment

/-- Whether the create button of the dashboard is disabled:
`disabled={isLoading || !newSession.candidate_name.trim()}`. -/
def ReviewerDashboard.createDisabled (d : Dashboard) : Bool :=
  d.isLoading || trim d.newSession.candidate_name = ""

/-! ## Polling an evaluation job -/

/-- What the request of a job resolves to. -/
inductive JobResponse
  /-- the request rejects -/
  | failed
  /-- the request resolves with `r.data.status` -/
  | ok (status : String)
  deriving DecidableEq, Repr

/-- One answer of the server to a poll: the job response and, should the report be fetched,
what that request resolves to (`none` is a request that rejects). -/
structure PollAnswer where
  job : JobResponse
  report : Option String
  deriving DecidableEq, Repr

/-- The function `pollJob`: it starts the polling interval; the second component is the
handle `iv` the interval callback closes over. -/
def App.pollJob (a : App) : App × Nat :=
  ({ a with intervals := a.nextTimerId :: a.intervals, nextTimerId := a.nextTimerId + 1 },
   a.nextTimerId)

/-- The callback of the polling interval `iv` for the job `jobId`, run by the browser if the
interval is still live and continued with the answer `r`. -/
def App.pollTick (jobId : String) (iv : Nat) (r : PollAnswer) (a : App) : App :=
  if iv ∈ a.intervals then
    let a1 := { a with requests := a.requests ++ [ApiCall.job jobId] }
    match r.job with
    | JobResponse.failed => a1
    | JobResponse.ok status =>
      if status = "finished" then
        let a2 := { App.clearInterval iv a1 with
          isEvaluating := false
          requests := a1.requests ++ [ApiCall.report] }
        match r.report with
        | some text => { a2 with report := text, status := "Оценка завершена" }
        | none => a2
      else a1
  else a

/-- Successive firings of the polling interval, one for each answer. -/
def App.polls (jobId : String) (iv : Nat) : List PollAnswer → App → App
  | [], a => a
  | r :: rest, a => App.polls jobId iv rest (App.pollTick jobId iv r a)

/-- The status `pollJob` treats as terminal: its only test is `status === 'finished'`. -/
def PollAnswer.isTerminal (r : PollAnswer) : Bool :=
  match r.job with
  | JobResponse.ok status => decide (status = "finished")
  | JobResponse.failed => false

/-! ## Line ranges -/

/-- The decimal digits of `n` with the fuel `fuel`. -/
def decimalAux : Nat → Nat → List Char
  | 0, _ => []
  | fuel + 1, n =>
    if n < 10 then [Nat.digitChar n]
    else decimalAux fuel (n / 10) ++ [Nat.digitChar (n % 10)]

/-- The text of a non-negative integer in a template literal: its decimal digits. -/
def decimal (n : Nat) : String := String.mk (decimalAux (n + 1) n)

/-- The template literal of the click handler: the line, a dash, the line. -/
def lineRangeOf (line : Nat) : String := decimal line ++ "-" ++ decimal line

/-- JavaScript `s.split('-')` on the list of characters. -/
def splitOnDash : List Char → List (List Char)
  | [] => [[]]
  | c :: cs =>
    if c = '-' then [] :: splitOnDash cs
    else
      match splitOnDash cs with
      | [] => [[c]]
      | part :: parts => (c :: part) :: parts

/-- JavaScript `Number(s)` on the strings a line range is made of: a string of decimal digits
is its value and the empty string is 0; every other string is taken as `NaN`. -/
def numberOf (s : List Char) : Option Nat :=
  if s.all Char.isDigit then some (s.foldl (fun n c => 10 * n + (c.toNat - 48)) 0) else none

/-- The expression `range.split('-').map(Number)`. -/
def splitNumbers (range : String) : List (Option Nat) :=
  (splitOnDash range.data).map numberOf

/-- The range of a decoration, `new monaco.Range(s, 1, e ?? s, 1)` with
`[s, e] = c.line_range.split('-').map(Number)`: start line, start column, end line, end
column; a line is `none` when it is `NaN`. -/
def decorationRange (line_range : String) : Option Nat × Nat × Option Nat × Nat :=
  match splitNumbers line_range with
  | [] => (none, 1, none, 1)
  | [s] => (s, 1, s, 1)
  | s :: e :: _ => (s, 1, e, 1)

/-- The line `jumpToLine(range)` reveals: `[s] = range.split('-').map(Number)`. -/
def jumpToLine (range : String) : Option Nat :=
  match splitNumbers range with
  | [] => none
  | s :: _ => s

/-- The mouse handler of the editor in the main view: on a click on the line numbers
(target type 2) the line is selected and written to the draft. -/
def App.clickLine (targetType : Nat) (line : Nat) (a : App) : App :=
  if targetType = 2 then
    { a with
      selectedLine := some line
      newComment := { a.newComment with line_range := lineRangeOf line } }
  else a

/-- The mouse handler of the editor in the candidate view: as in the main view, unless the
candidate is marked ready. -/
def CandidateView.clickLine (targetType : Nat) (line : Nat) (v : View) : View :=
  match (match v.session with
    | none => none
    | some session => truthyStr session.candidate_ready_at) with
  | some _ => v
  | none =>
    if targetType = 2 then
      { v with
        selectedLine := some line
        newComment := { v.newComment with line_range := lineRangeOf line } }
    else v

/-! ## Selecting merge requests (`MRSelector.jsx`) -/

/-- The selection `toggleMR(mrId)` hands to `onSelectionChange`. -/
def toggleMR {α : Type} [DecidableEq α] (selectedMRIds : List α) (mrId : α) : List α :=
  if selectedMRIds.contains mrId then selectedMRIds.filter fun id => decide (id ≠ mrId)
  else selectedMRIds ++ [mrId]

/-- Successive firings of the repeating tick of the main view at the times `nows`, with no
other event in between. -/
def App.ticks (parseDate : String → Option Int) (page : Page) : List Int → App → App
  | [], a => a
  | now :: rest, a => App.ticks parseDate page rest (App.tick parseDate now page a)

/-- Whether an effect is a call of `showBrowserNotification`. -/
def Effect.isNotification (x : Effect) : Bool :=
  match x with
  | Effect.notification _ => true
  | _ => false

/-- How many times `showBrowserNotification` was called. -/
def notificationCount (effects : List Effect) : Nat :=
  effects.countP Effect.isNotification

/-- Values of `new Date(s).getTime()` on the time stamps used in the examples. -/
def sampleDate (s : String) : Option Int :=
  if s = "2025-01-01T10:00:00Z" then some 1735725600000
  else if s = "2025-01-01T10:05:00Z" then some 1735725900000
  else if s = "2025-01-01T10:30:00Z" then some 1735727400000
  else if s = "2025-01-01T13:00:00Z" then some 1735736400000
  else none

/-- Values of `new Date(s).getTime()` in a browser whose time zone is UTC+3: a date-time
without an offset is read as local time, so `2025-01-01T10:00:00` is `07:00:00Z`. -/
def sampleDateUTC3 (s : String) : Option Int :=
  if s = "2025-01-01T10:00:00Z" then some 1735725600000
  else if s = "2025-01-01T10:00:00" then some 1735714800000
  else none

/-- A page on which every timer element is present. -/
def fullPage : Page := { timerEl := true, progressEl := true, timerContainer := true }

/-- A main view bound to session `1` whose cache entry holds the expiry `e`. -/
def App.bound (e : String) : App :=
  { App.init with
    sessionId := some 1
    localStorage := setItem App.init.localStorage 1 { expires_at := some e, created_at := none } }

/-- A token-scoped view whose session object holds the expiry `e`. -/
def View.bound (e : String) : View :=
  { View.init with session := some { session_id := 1, expires_at := some e, created_at := none } }

/-! ## Lemmas on the arithmetic of a tick -/

theorem diffOf_some (e now : Int) : diffOf (some e) now = some (max 0 (e - now)) := rfl

theorem diffOf_eq_zero_iff (e now : Int) : diffOf (some e) now = some 0 ↔ e ≤ now := by
  simp only [diffOf_some, Option.some.injEq]
  constructor
  · intro h
    have := le_max_right 0 (e - now)
    omega
  · intro h
    exact max_eq_left (by omega)

theorem totalMinutesOf_eq (d : Int) (hd : 0 ≤ d) : totalMinutesOf d = d / 60000 := by
  unfold totalMinutesOf hoursOf minutesOf
  rw [Int.tmod_eq_emod hd (by norm_num)]
  omega

theorem percentOf_nonneg (d : Int) (hd : 0 ≤ d) : 0 ≤ percentOf d := by
  unfold percentOf total
  have : (0 : ℚ) ≤ (d : ℚ) := by exact_mod_cast hd
  positivity

theorem percentOf_lt_iff (d k : Int) : percentOf d < (k : ℚ) ↔ d * 100 < k * 7200000 := by
  unfold percentOf total
  have h : ((d : ℚ) / ((2 * 60 * 60 * 1000 : Int) : ℚ)) * 100 < (k : ℚ) ↔
      (d : ℚ) * 100 < (k : ℚ) * 7200000 := by
    push_cast
    rw [div_mul_eq_mul_div, div_lt_iff₀ (by norm_num)]
  rw [h]
  exact_mod_cast Iff.rfl

theorem percentOf_le_iff (d k : Int) : (k : ℚ) ≤ percentOf d ↔ k * 7200000 ≤ d * 100 := by
  rw [← not_lt, percentOf_lt_iff, not_lt]

theorem percentOf_zero : percentOf 0 = 0 := by
  simp [percentOf]

theorem colorOf_red_iff (p : ℚ) : colorOf (some p) = Color.red ↔ p < 15 := by
  simp only [colorOf]
  split_ifs with h1 h2 <;> simp [h1]

theorem colorOf_amber_iff (p : ℚ) : colorOf (some p) = Color.amber ↔ 15 ≤ p ∧ p < 40 := by
  simp only [colorOf]
  split_ifs with h1 h2
  · simp; intro h; linarith
  · simp; exact ⟨not_lt.mp h1, h2⟩
  · simp; intro _; exact not_lt.mp h2

theorem colorOf_green_iff (p : ℚ) : colorOf (some p) = Color.green ↔ 40 ≤ p := by
  simp only [colorOf]
  split_ifs with h1 h2
  · simp; linarith
  · simp; exact h2
  · simp; exact not_lt.mp h2

/-! ## What a tick renders -/

theorem App.updateTimer_render (parseDate : String → Option Int) (sid : Nat) (now : Int)
    (page : Page) (a : App) (e : String)
    (ht : page.timerEl = true) (hp : page.progressEl = true)
    (hc : truthyStr (getEntry a.localStorage sid).expires_at = some e) :
    (App.updateTimer parseDate sid now page a).timerText =
        (if diffOf (parseDate (expiresAtUTC e)) now = some 0 then TimerText.timeUp
         else clockText (diffOf (parseDate (expiresAtUTC e)) now)) ∧
    (App.updateTimer parseDate sid now page a).progressWidth =
        (if diffOf (parseDate (expiresAtUTC e)) now = some 0 then some 0
         else (diffOf (parseDate (expiresAtUTC e)) now).map percentOf) ∧
    (App.updateTimer parseDate sid now page a).progressColor =
        (if diffOf (parseDate (expiresAtUTC e)) now = some 0 then Color.red
         else colorOf ((diffOf (parseDate (expiresAtUTC e)) now).map percentOf)) := by
  simp only [App.updateTimer, ht, hp, hc, Bool.not_true, Bool.or_self, Bool.false_eq_true,
    if_false]
  by_cases h0 : diffOf (parseDate (expiresAtUTC e)) now = some 0
  · simp only [h0, if_true]
    cases a.exitTimeoutRef <;> exact ⟨rfl, rfl, rfl⟩
  · simp only [h0, if_false]
    refine ⟨?_, ?_, ?_⟩ <;> (repeat' split) <;> rfl

theorem View.tick_render (parseDate : String → Option Int) (now : Int) (page : Page)
    (v : View) (sess : Session) (e : String)
    (ht : page.timerEl = true) (hp : page.progressEl = true)
    (hs : v.session = some sess) (hc : truthyStr sess.expires_at = some e) :
    (View.tick parseDate now page v).timerText =
        clockText (diffOf (parseDate (expiresAtUTC e)) now) ∧
    (View.tick parseDate now page v).progressWidth =
        ((diffOf (parseDate (expiresAtUTC e)) now).map percentOf).map (fun p => max 0 p) ∧
    (View.tick parseDate now page v).progressColor =
        colorOf ((diffOf (parseDate (expiresAtUTC e)) now).map percentOf) := by
  simp only [View.tick, hs, hc, View.updateTimer, ht, hp, if_true]
  refine ⟨?_, ?_, ?_⟩ <;> (repeat' split) <;> rfl

/-! ## Normalisation of the expiry string -/

/-- C1, the code at the failing input: the naive ISO time stamp `2025-01-01T10:00:00` holds
the character `-` in its date, so `expiresAtUTC` returns it unchanged and does not append
`Z`; the same holds for every string that holds a `-`.  `Z` is appended only to a string
without a trailing `Z`, without `+` and without any `-`.  In a browser at UTC+3 the tick of
`07:30:00Z` therefore shows the naive expiry as over while it shows `02:30:00` for the same
expiry written with `Z`. -/
theorem expiresAtUTC_naive_iso_unchanged :
    expiresAtUTC "2025-01-01T10:00:00" = "2025-01-01T10:00:00" ∧
    expiresAtUTC "2025-01-01T10:00:00" ≠ "2025-01-01T10:00:00Z" ∧
    (∀ s : String, includes s '-' = true → expiresAtUTC s = s) ∧
    (∀ s : String, endsWith s "Z" = false → includes s '+' = false →
      includes s '-' = false → expiresAtUTC s = s ++ "Z") ∧
    (App.updateTimer sampleDateUTC3 1 1735716600000 fullPage
      (App.bound "2025-01-01T10:00:00")).timerText = TimerText.timeUp ∧
    (App.updateTimer sampleDateUTC3 1 1735716600000 fullPage
      (App.bound "2025-01-01T10:00:00Z")).timerText = TimerText.clock 2 30 0 := by
  refine ⟨by decide, by decide, ?_, ?_, by decide, by decide⟩
  · intro s h
    simp [expiresAtUTC, h]
  · intro s h1 h2 h3
    simp [expiresAtUTC, h1, h2, h3]

/-! ## Remaining time, percent and colour -/

/-- C2: for a parsed expiry instant `end_` and every `now`, the constant `diff` of a tick
is `max 0 (end_ - now)`, which is never negative, and the clock each of the three views
writes is the clock of that value (the main view writes its expired text when it is 0). -/
theorem remaining_eq_max_zero (parseDate : String → Option Int) (e : String)
    (end_ now : Int) (sid : Nat) (page : Page) (a : App) (v : View) (sess : Session)
    (ht : page.timerEl = true) (hp : page.progressEl = true)
    (hparse : parseDate (expiresAtUTC e) = some end_)
    (hc : truthyStr (getEntry a.localStorage sid).expires_at = some e)
    (hs : v.session = some sess) (hv : truthyStr sess.expires_at = some e) :
    diffOf (parseDate (expiresAtUTC e)) now = some (max 0 (end_ - now)) ∧
    0 ≤ max 0 (end_ - now) ∧
    (App.updateTimer parseDate sid now page a).timerText =
      (if max 0 (end_ - now) = 0 then TimerText.timeUp
       else clockText (some (max 0 (end_ - now)))) ∧
    (CandidateView.tick parseDate now page v).timerText =
      clockText (some (max 0 (end_ - now))) ∧
    (TimerWidget.tick parseDate now page v).timerText =
      clockText (some (max 0 (end_ - now))) := by
  have hd : diffOf (parseDate (expiresAtUTC e)) now = some (max 0 (end_ - now)) := by
    rw [hparse, diffOf_some]
  refine ⟨hd, le_max_left _ _, ?_, ?_, ?_⟩
  · rw [(App.updateTimer_render parseDate sid now page a e ht hp hc).1, hd]
    simp only [Option.some.injEq]
  · rw [CandidateView.tick, (View.tick_render parseDate now page v sess e ht hp hs hv).1, hd]
  · rw [TimerWidget.tick, (View.tick_render parseDate now page v sess e ht hp hs hv).1, hd]

/-- Witness of C2: thirty minutes before the expiry `2025-01-01T10:30:00Z`. -/
theorem remaining_eq_max_zero_witness :
    diffOf (sampleDate (expiresAtUTC "2025-01-01T10:30:00Z")) 1735725600000 =
      some (max 0 (1735727400000 - 1735725600000)) ∧
    0 ≤ max (0 : Int) (1735727400000 - 1735725600000) ∧
    (App.updateTimer sampleDate 1 1735725600000 fullPage
        (App.bound "2025-01-01T10:30:00Z")).timerText =
      (if max (0 : Int) (1735727400000 - 1735725600000) = 0 then TimerText.timeUp
       else clockText (some (max 0 (1735727400000 - 1735725600000)))) ∧
    (CandidateView.tick sampleDate 1735725600000 fullPage
        (View.bound "2025-01-01T10:30:00Z")).timerText =
      clockText (some (max 0 (1735727400000 - 1735725600000))) ∧
    (TimerWidget.tick sampleDate 1735725600000 fullPage
        (View.bound "2025-01-01T10:30:00Z")).timerText =
      clockText (some (max 0 (1735727400000 - 1735725600000))) :=
  remaining_eq_max_zero sampleDate "2025-01-01T10:30:00Z" 1735727400000 1735725600000 1
    fullPage (App.bound "2025-01-01T10:30:00Z") (View.bound "2025-01-01T10:30:00Z")
    { session_id := 1, expires_at := some "2025-01-01T10:30:00Z", created_at := none }
    rfl rfl (by decide) (by decide) rfl (by decide)

/-- C4, counterexample: three hours before the expiry the main view, the candidate view and
the timer popup all write the width `150%`, which exceeds 100. -/
theorem percent_exceeds_100 :
    (App.updateTimer sampleDate 1 1735725600000 fullPage
        (App.bound "2025-01-01T13:00:00Z")).progressWidth = some 150 ∧
    (CandidateView.tick sampleDate 1735725600000 fullPage
        (View.bound "2025-01-01T13:00:00Z")).progressWidth = some 150 ∧
    (TimerWidget.tick sampleDate 1735725600000 fullPage
        (View.bound "2025-01-01T13:00:00Z")).progressWidth = some 150 ∧
    ¬ ((150 : ℚ) ≤ 100) := by
  have hp : sampleDate (expiresAtUTC "2025-01-01T13:00:00Z") = some 1735736400000 := by decide
  have hd : diffOf (sampleDate (expiresAtUTC "2025-01-01T13:00:00Z")) 1735725600000 =
      some 10800000 := by
    rw [hp, diffOf_some]; norm_num
  have h150 : percentOf 10800000 = 150 := by norm_num [percentOf, total]
  refine ⟨?_, ?_, ?_, by norm_num⟩
  · rw [(App.updateTimer_render sampleDate 1 1735725600000 fullPage
      (App.bound "2025-01-01T13:00:00Z") "2025-01-01T13:00:00Z" rfl rfl (by decide)).2.1, hd]
    simp [h150]
  · rw [CandidateView.tick, (View.tick_render sampleDate 1735725600000 fullPage
      (View.bound "2025-01-01T13:00:00Z") _ "2025-01-01T13:00:00Z" rfl rfl rfl
      (by decide)).2.1, hd]
    simp [h150]
  · rw [TimerWidget.tick, (View.tick_render sampleDate 1735725600000 fullPage
      (View.bound "2025-01-01T13:00:00Z") _ "2025-01-01T13:00:00Z" rfl rfl rfl
      (by decide)).2.1, hd]
    simp [h150]

/-- C4, amended: the width each view writes is `100 * remainingMs / 7200000` with
`remainingMs = max 0 (end_ - now)`; it is never negative, and it is at most 100 exactly when
at most two hours remain (there is no upper clamp). -/
theorem percent_lower_clamped_only (parseDate : String → Option Int) (e : String)
    (end_ now : Int) (sid : Nat) (page : Page) (a : App) (v : View) (sess : Session)
    (ht : page.timerEl = true) (hp : page.progressEl = true)
    (hparse : parseDate (expiresAtUTC e) = some end_)
    (hc : truthyStr (getEntry a.localStorage sid).expires_at = some e)
    (hs : v.session = some sess) (hv : truthyStr sess.expires_at = some e) :
    (App.updateTimer parseDate sid now page a).progressWidth =
      some (percentOf (max 0 (end_ - now))) ∧
    (CandidateView.tick parseDate now page v).progressWidth =
      some (percentOf (max 0 (end_ - now))) ∧
    (TimerWidget.tick parseDate now page v).progressWidth =
      some (percentOf (max 0 (end_ - now))) ∧
    percentOf (max 0 (end_ - now)) = 100 * ((max 0 (end_ - now) : Int) : ℚ) / 7200000 ∧
    0 ≤ percentOf (max 0 (end_ - now)) ∧
    (percentOf (max 0 (end_ - now)) ≤ 100 ↔ end_ - now ≤ 7200000) := by
  have hd : diffOf (parseDate (expiresAtUTC e)) now = some (max 0 (end_ - now)) := by
    rw [hparse, diffOf_some]
  have hnn : 0 ≤ percentOf (max 0 (end_ - now)) := percentOf_nonneg _ (le_max_left _ _)
  have hview : ((diffOf (parseDate (expiresAtUTC e)) now).map percentOf).map
      (fun p => max 0 p) = some (percentOf (max 0 (end_ - now))) := by
    rw [hd]
    simp only [Option.map_some']
    rw [max_eq_right hnn]
  refine ⟨?_, ?_, ?_, ?_, hnn, ?_⟩
  · rw [(App.updateTimer_render parseDate sid now page a e ht hp hc).2.1, hd]
    by_cases h0 : max 0 (end_ - now) = 0
    · simp [h0, percentOf_zero]
    · simp [h0]
  · rw [CandidateView.tick, (View.tick_render parseDate now page v sess e ht hp hs hv).2.1,
      hview]
  · rw [TimerWidget.tick, (View.tick_render parseDate now page v sess e ht hp hs hv).2.1,
      hview]
  · unfold percentOf total
    push_cast
    ring
  · have h4 : percentOf (max 0 (end_ - now)) ≤ 100 ↔
        (max 0 (end_ - now)) * 100 ≤ 100 * 7200000 := by
      unfold percentOf total
      have : ((max 0 (end_ - now) : Int) : ℚ) / ((2 * 60 * 60 * 1000 : Int) : ℚ) * 100 ≤ 100 ↔
          ((max 0 (end_ - now) : Int) : ℚ) * 100 ≤ 100 * 7200000 := by
        push_cast
        rw [div_mul_eq_mul_div, div_le_iff₀ (by norm_num)]
      rw [this]
      exact_mod_cast Iff.rfl
    rw [h4]
    constructor
    · intro hle
      have := le_max_right 0 (end_ - now)
      omega
    · intro hle
      rcases max_cases 0 (end_ - now) with ⟨hm, _⟩ | ⟨hm, _⟩ <;> rw [hm] <;> omega

/-- Witness of the amended C4: thirty minutes before the expiry `2025-01-01T10:30:00Z`. -/
theorem percent_lower_clamped_only_witness :
    (App.updateTimer sampleDate 1 1735725600000 fullPage
        (App.bound "2025-01-01T10:30:00Z")).progressWidth =
      some (percentOf (max 0 (1735727400000 - 1735725600000))) ∧
    (CandidateView.tick sampleDate 1735725600000 fullPage
        (View.bound "2025-01-01T10:30:00Z")).progressWidth =
      some (percentOf (max 0 (1735727400000 - 1735725600000))) ∧
    (TimerWidget.tick sampleDate 1735725600000 fullPage
        (View.bound "2025-01-01T10:30:00Z")).progressWidth =
      some (percentOf (max 0 (1735727400000 - 1735725600000))) ∧
    percentOf (max 0 (1735727400000 - 1735725600000)) =
      100 * ((max 0 (1735727400000 - 1735725600000) : Int) : ℚ) / 7200000 ∧
    0 ≤ percentOf (max 0 (1735727400000 - 1735725600000)) ∧
    (percentOf (max 0 (1735727400000 - 1735725600000)) ≤ 100 ↔
      (1735727400000 : Int) - 1735725600000 ≤ 7200000) :=
  percent_lower_clamped_only sampleDate "2025-01-01T10:30:00Z" 1735727400000 1735725600000 1
    fullPage (App.bound "2025-01-01T10:30:00Z") (View.bound "2025-01-01T10:30:00Z")
    { session_id := 1, expires_at := some "2025-01-01T10:30:00Z", created_at := none }
    rfl rfl (by decide) (by decide) rfl (by decide)

/-- C5: the colour a tick of the main view and of the candidate view writes is the band of
`percent = 100 * remainingMs / 7200000`: red exactly when `percent < 15`, amber exactly when
`15 ≤ percent < 40`, green exactly when `percent ≥ 40`; so red iff
`remainingMs < 1080000` and green iff `remainingMs ≥ 2880000`; 40 is green, 15 is amber. -/
theorem color_band_boundaries (parseDate : String → Option Int) (e : String)
    (end_ now : Int) (sid : Nat) (page : Page) (a : App) (v : View) (sess : Session)
    (ht : page.timerEl = true) (hp : page.progressEl = true)
    (hparse : parseDate (expiresAtUTC e) = some end_)
    (hc : truthyStr (getEntry a.localStorage sid).expires_at = some e)
    (hs : v.session = some sess) (hv : truthyStr sess.expires_at = some e) :
    (App.updateTimer parseDate sid now page a).progressColor =
      colorOf (some (percentOf (max 0 (end_ - now)))) ∧
    (CandidateView.tick parseDate now page v).progressColor =
      colorOf (some (percentOf (max 0 (end_ - now)))) ∧
    (∀ p : ℚ, colorOf (some p) = Color.red ↔ p < 15) ∧
    (∀ p : ℚ, colorOf (some p) = Color.amber ↔ 15 ≤ p ∧ p < 40) ∧
    (∀ p : ℚ, colorOf (some p) = Color.green ↔ 40 ≤ p) ∧
    (∀ d : Int, colorOf (some (percentOf d)) = Color.red ↔ d < 1080000) ∧
    (∀ d : Int, colorOf (some (percentOf d)) = Color.green ↔ 2880000 ≤ d) ∧
    colorOf (some 40) = Color.green ∧ colorOf (some 15) = Color.amber := by
  have hd : diffOf (parseDate (expiresAtUTC e)) now = some (max 0 (end_ - now)) := by
    rw [hparse, diffOf_some]
  refine ⟨?_, ?_, colorOf_red_iff, colorOf_amber_iff, colorOf_green_iff, ?_, ?_, ?_, ?_⟩
  · rw [(App.updateTimer_render parseDate sid now page a e ht hp hc).2.2, hd]
    by_cases h0 : max 0 (end_ - now) = 0
    · simp only [h0, if_true, percentOf_zero]
      exact ((colorOf_red_iff 0).mpr (by norm_num)).symm
    · simp [h0]
  · rw [CandidateView.tick, (View.tick_render parseDate now page v sess e ht hp hs hv).2.2,
      hd]
    rfl
  · intro d
    rw [colorOf_red_iff]
    have h := percentOf_lt_iff d 15
    have h15 : ((15 : Int) : ℚ) = 15 := by norm_num
    rw [h15] at h
    rw [h]
    omega
  · intro d
    rw [colorOf_green_iff]
    have h := percentOf_le_iff d 40
    have h40 : ((40 : Int) : ℚ) = 40 := by norm_num
    rw [h40] at h
    rw [h]
    omega
  · exact (colorOf_green_iff 40).mpr le_rfl
  · exact (colorOf_amber_iff 15).mpr ⟨le_rfl, by norm_num⟩

/-- Witness of C5: thirty minutes before the expiry `2025-01-01T10:30:00Z`. -/
theorem color_band_boundaries_witness :
    (App.updateTimer sampleDate 1 1735725600000 fullPage
        (App.bound "2025-01-01T10:30:00Z")).progressColor =
      colorOf (some (percentOf (max 0 (1735727400000 - 1735725600000)))) ∧
    (CandidateView.tick sampleDate 1735725600000 fullPage
        (View.bound "2025-01-01T10:30:00Z")).progressColor =
      colorOf (some (percentOf (max 0 (1735727400000 - 1735725600000)))) ∧
    (∀ p : ℚ, colorOf (some p) = Color.red ↔ p < 15) ∧
    (∀ p : ℚ, colorOf (some p) = Color.amber ↔ 15 ≤ p ∧ p < 40) ∧
    (∀ p : ℚ, colorOf (some p) = Color.green ↔ 40 ≤ p) ∧
    (∀ d : Int, colorOf (some (percentOf d)) = Color.red ↔ d < 1080000) ∧
    (∀ d : Int, colorOf (some (percentOf d)) = Color.green ↔ 2880000 ≤ d) ∧
    colorOf (some 40) = Color.green ∧ colorOf (some 15) = Color.amber :=
  color_band_boundaries sampleDate "2025-01-01T10:30:00Z" 1735727400000 1735725600000 1
    fullPage (App.bound "2025-01-01T10:30:00Z") (View.bound "2025-01-01T10:30:00Z")
    { session_id := 1, expires_at := some "2025-01-01T10:30:00Z", created_at := none }
    rfl rfl (by decide) (by decide) rfl (by decide)

/-! ## The delayed exit confirmation -/

/-- C3, counterexample: with a cache entry that has no `expires_at` there is no re-checked
remaining time, yet the confirmation calls `handleExit`. -/
theorem exit_fires_without_cached_expiry :
    truthyStr (getEntry ({ App.init with sessionId := some 1 }).localStorage 1).expires_at =
      none ∧
    (App.exitConfirmation sampleDate 1 1735725600000
      { App.init with sessionId := some 1 }).effects = [Effect.exit] ∧
    (App.exitConfirmation sampleDate 1 1735725600000
      { App.init with sessionId := some 1 }).sessionId = none := by
  refine ⟨by decide, by decide, by decide⟩

/-- C3, amended: the confirmation re-reads the cache entry of the session and calls
`handleExit` exactly when the entry has no `expires_at` or the re-checked remaining time is
0; otherwise it leaves the effects and the bound session as they were.  In particular, for
an entry whose `expires_at` parses to an instant strictly later than `now`, `handleExit` is
not called. -/
theorem exitConfirmation_exits_iff (parseDate : String → Option Int) (sid : Nat) (now : Int)
    (a : App) :
    ((App.exitConfirmation parseDate sid now a).effects = a.effects ++ [Effect.exit] ↔
      (truthyStr (getEntry a.localStorage sid).expires_at = none ∨
       ∃ e, truthyStr (getEntry a.localStorage sid).expires_at = some e ∧
         diffOf (parseDate (expiresAtUTC e)) now = some 0)) ∧
    ((App.exitConfirmation parseDate sid now a).effects ≠ a.effects ++ [Effect.exit] →
      (App.exitConfirmation parseDate sid now a).effects = a.effects ∧
      (App.exitConfirmation parseDate sid now a).sessionId = a.sessionId) ∧
    (∀ (e : String) (end_ : Int),
      truthyStr (getEntry a.localStorage sid).expires_at = some e →
      parseDate (expiresAtUTC e) = some end_ → now < end_ →
      (App.exitConfirmation parseDate sid now a).effects = a.effects ∧
      (App.exitConfirmation parseDate sid now a).sessionId = a.sessionId) := by
  have hexit : (App.handleExit a).effects = a.effects ++ [Effect.exit] := by
    cases h1 : a.tickIntervalRef <;> cases h2 : a.exitTimeoutRef <;>
      simp [App.handleExit, h1, h2, App.clearInterval, App.clearTimeout]
  have hne : a.effects ≠ a.effects ++ [Effect.exit] := by
    intro h
    have := congrArg List.length h
    simp at this
  have key : ∀ (e : String), truthyStr (getEntry a.localStorage sid).expires_at = some e →
      ¬ diffOf (parseDate (expiresAtUTC e)) now = some 0 →
      (App.exitConfirmation parseDate sid now a).effects = a.effects ∧
      (App.exitConfirmation parseDate sid now a).sessionId = a.sessionId := by
    intro e he h0
    simp only [App.exitConfirmation, he, h0, if_false]
    exact ⟨trivial, trivial⟩
  have keyExit : (truthyStr (getEntry a.localStorage sid).expires_at = none ∨
       ∃ e, truthyStr (getEntry a.localStorage sid).expires_at = some e ∧
         diffOf (parseDate (expiresAtUTC e)) now = some 0) →
      (App.exitConfirmation parseDate sid now a).effects = a.effects ++ [Effect.exit] := by
    rintro (hn | ⟨e, he, h0⟩)
    · simp only [App.exitConfirmation, hn]
      exact hexit
    · simp only [App.exitConfirmation, he, h0, if_true]
      exact hexit
  have dich : (truthyStr (getEntry a.localStorage sid).expires_at = none ∨
       ∃ e, truthyStr (getEntry a.localStorage sid).expires_at = some e ∧
         diffOf (parseDate (expiresAtUTC e)) now = some 0) ∨
      ∃ e, truthyStr (getEntry a.localStorage sid).expires_at = some e ∧
         ¬ diffOf (parseDate (expiresAtUTC e)) now = some 0 := by
    cases hq : truthyStr (getEntry a.localStorage sid).expires_at with
    | none => exact Or.inl (Or.inl rfl)
    | some e =>
      by_cases h0 : diffOf (parseDate (expiresAtUTC e)) now = some 0
      · exact Or.inl (Or.inr ⟨e, rfl, h0⟩)
      · exact Or.inr ⟨e, rfl, h0⟩
  refine ⟨⟨?_, keyExit⟩, ?_, ?_⟩
  · intro h
    rcases dich with hl | ⟨e, he, h0⟩
    · exact hl
    · exact absurd ((key e he h0).1 ▸ h) hne
  · intro h
    rcases dich with hl | ⟨e, he, h0⟩
    · exact absurd (keyExit hl) h
    · exact key e he h0
  · intro e end_ he hparse hlt
    apply key e he
    rw [hparse, diffOf_eq_zero_iff]
    omega

/-- Witness of the amended C3: the cache holds the expiry `2025-01-01T10:30:00Z` when the
confirmation runs at `2025-01-01T10:00:00Z`, and no exit happens. -/
theorem exitConfirmation_exits_iff_witness :
    (App.exitConfirmation sampleDate 1 1735725600000
      (App.bound "2025-01-01T10:30:00Z")).effects =
        (App.bound "2025-01-01T10:30:00Z").effects ∧
    (App.exitConfirmation sampleDate 1 1735725600000
      (App.bound "2025-01-01T10:30:00Z")).sessionId =
        (App.bound "2025-01-01T10:30:00Z").sessionId :=
  (exitConfirmation_exits_iff sampleDate 1 1735725600000
    (App.bound "2025-01-01T10:30:00Z")).2.2 "2025-01-01T10:30:00Z" 1735727400000
    (by decide) (by decide) (by decide)

/-! ## Extending a session -/

theorem getEntry_setItem (ls : Storage) (id : Nat) (entry : CacheEntry) :
    getEntry (setItem ls id entry) id = entry := by
  simp [getEntry, setItem]

theorem App.extendSession_ok (parseDate : String → Option Int) (sid : Nat) (now : Int)
    (page : Page) (data : Option String) (e : String) (a : App)
    (hsid : sid ≠ 0) (hd : truthyStr data = some e) :
    (App.extendSession parseDate (some sid) now page (ExtendResponse.ok data) a).localStorage =
      setItem a.localStorage sid { getEntry a.localStorage sid with expires_at := some e } ∧
    (App.extendSession parseDate (some sid) now page (ExtendResponse.ok data) a).sessionId =
      a.sessionId ∧
    (App.extendSession parseDate (some sid) now page
      (ExtendResponse.ok data) a).notificationShown = false ∧
    (App.extendSession parseDate (some sid) now page
      (ExtendResponse.ok data) a).exitTimeoutRef = none ∧
    (App.extendSession parseDate (some sid) now page (ExtendResponse.ok data) a).timeouts =
      (match a.exitTimeoutRef with
       | some h => a.timeouts.filter fun t => decide (t.1 ≠ h)
       | none => a.timeouts) := by
  cases hx : a.exitTimeoutRef <;> simp only [App.extendSession, hsid, if_false, hd, hx] <;>
    (refine ⟨?_, ?_, ?_, ?_, ?_⟩ <;> (repeat' split) <;> rfl)

theorem App.tick_after_extend_color (parseDate : String → Option Int) (sid : Nat)
    (now tickNow : Int) (page : Page) (data : Option String) (e : String) (a : App)
    (hsid : sid ≠ 0) (hbound : a.sessionId = some sid)
    (ht : page.timerEl = true) (hp : page.progressEl = true)
    (hd : truthyStr data = some e) :
    (App.tick parseDate tickNow page
      (App.extendSession parseDate (some sid) now page
        (ExtendResponse.ok data) a)).progressColor =
      (if diffOf (parseDate (expiresAtUTC e)) tickNow = some 0 then Color.red
       else colorOf ((diffOf (parseDate (expiresAtUTC e)) tickNow).map percentOf)) := by
  obtain ⟨hls, hsess, -, -, -⟩ := App.extendSession_ok parseDate sid now page data e a hsid hd
  have hcache : truthyStr (getEntry (App.extendSession parseDate (some sid) now page
      (ExtendResponse.ok data) a).localStorage sid).expires_at = some e := by
    rw [hls, getEntry_setItem]
    cases data with
    | none => simp [truthyStr] at hd
    | some s =>
      simp only [truthyStr] at hd ⊢
      split_ifs at hd with hs
      simp only [Option.some.injEq] at hd
      subst hd
      simp [hs]
  simp only [App.tick, hsess, hbound, hsid, if_false]
  exact (App.updateTimer_render parseDate sid tickNow page _ e ht hp hcache).2.2

/-- C6, counterexample: five minutes before the expiry `2025-01-01T10:05:00Z` an extend
stores the expiry `2025-01-01T10:30:00Z`, thirty minutes after `now`; the tick one second
later writes the amber colour, not the green one. -/
theorem extend_then_tick_is_amber :
    (App.tick sampleDate (1735725600000 + 1000) fullPage
      (App.extendSession sampleDate (some 1) 1735725600000 fullPage
        (App.ExtendResponse.ok (some "2025-01-01T10:30:00Z"))
        (App.bound "2025-01-01T10:05:00Z"))).progressColor = Color.amber ∧
    Color.amber ≠ Color.green := by
  refine ⟨?_, by decide⟩
  rw [App.tick_after_extend_color sampleDate 1 1735725600000 (1735725600000 + 1000) fullPage
    (some "2025-01-01T10:30:00Z") "2025-01-01T10:30:00Z" (App.bound "2025-01-01T10:05:00Z")
    (by decide) rfl rfl rfl (by decide)]
  have hp : sampleDate (expiresAtUTC "2025-01-01T10:30:00Z") = some 1735727400000 := by decide
  rw [hp, diffOf_some]
  norm_num [colorOf, percentOf, total]

/-- C6, amended: after an extend stores an expiry that parses to `now + 30 minutes`, the next
tick of the main view (at most one second later) shows the amber colour band (25% of the
fixed two-hour window), not the red one and not the green one. -/
theorem extend_to_30_minutes_shows_amber (parseDate : String → Option Int) (sid : Nat)
    (now tickNow : Int) (page : Page) (e : String) (a : App)
    (hsid : sid ≠ 0) (hbound : a.sessionId = some sid)
    (ht : page.timerEl = true) (hp : page.progressEl = true)
    (he : e ≠ "") (hparse : parseDate (expiresAtUTC e) = some (now + 1800000))
    (h1 : now ≤ tickNow) (h2 : tickNow ≤ now + 1000) :
    (App.tick parseDate tickNow page
      (App.extendSession parseDate (some sid) now page
        (App.ExtendResponse.ok (some e)) a)).progressColor = Color.amber := by
  have hd : truthyStr (some e) = some e := by simp [truthyStr, he]
  rw [App.tick_after_extend_color parseDate sid now tickNow page (some e) e a hsid hbound
    ht hp hd, hparse, diffOf_some]
  have hm : max 0 (now + 1800000 - tickNow) = now + 1800000 - tickNow :=
    max_eq_right (by omega)
  rw [hm]
  have hne : ¬ (some (now + 1800000 - tickNow) = some (0 : Int)) := by
    simp only [Option.some.injEq]
    omega
  rw [if_neg hne]
  simp only [Option.map_some']
  rw [colorOf_amber_iff]
  constructor
  · have h := percentOf_le_iff (now + 1800000 - tickNow) 15
    have h15 : ((15 : Int) : ℚ) = 15 := by norm_num
    rw [h15] at h
    rw [h]
    omega
  · have h := percentOf_lt_iff (now + 1800000 - tickNow) 40
    have h40 : ((40 : Int) : ℚ) = 40 := by norm_num
    rw [h40] at h
    rw [h]
    omega

/-- Witness of the amended C6: the extend at `2025-01-01T10:00:00Z`, five minutes before the
old expiry, stores `2025-01-01T10:30:00Z`; the tick comes one second later. -/
theorem extend_to_30_minutes_shows_amber_witness :
    (App.tick sampleDate 1735725601000 fullPage
      (App.extendSession sampleDate (some 1) 1735725600000 fullPage
        (App.ExtendResponse.ok (some "2025-01-01T10:30:00Z"))
        (App.bound "2025-01-01T10:05:00Z"))).progressColor = Color.amber :=
  extend_to_30_minutes_shows_amber sampleDate 1 1735725600000 1735725601000 fullPage
    "2025-01-01T10:30:00Z" (App.bound "2025-01-01T10:05:00Z")
    (by decide) rfl rfl rfl (by decide) (by decide) (by decide) (by decide)

/-! ## Which view reads the cache -/

/-- C7, counterexample: the cache entry of the session holds the later expiry
`2025-01-01T10:30:00Z` (written by an extend in another view) while the session object of a
candidate view and of a timer popup still holds `2025-01-01T10:05:00Z`; their tick at
`2025-01-01T10:00:00Z` shows `0:05:00`, not the `0:30:00` of the cached expiry. -/
theorem token_views_ignore_cache :
    (CandidateView.tick sampleDate 1735725600000 fullPage
      { View.bound "2025-01-01T10:05:00Z" with
        localStorage := setItem View.init.localStorage 1
          { expires_at := some "2025-01-01T10:30:00Z", created_at := none } }).timerText =
      TimerText.clock 0 5 0 ∧
    (TimerWidget.tick sampleDate 1735725600000 fullPage
      { View.bound "2025-01-01T10:05:00Z" with
        localStorage := setItem View.init.localStorage 1
          { expires_at := some "2025-01-01T10:30:00Z", created_at := none } }).timerText =
      TimerText.clock 0 5 0 ∧
    clockText (diffOf (sampleDate (expiresAtUTC "2025-01-01T10:30:00Z")) 1735725600000) =
      TimerText.clock 0 30 0 := by
  refine ⟨by decide, by decide, by decide⟩

/-- C7, amended: a tick of the main view computes the remaining time from the cache entry
of the session, so it renders the expiry `e` the cache holds at the tick; a tick of the
candidate view and of the timer popup computes it from the session object of the React
state, so it renders the expiry `e'` of that object whatever the cache holds. -/
theorem cache_read_by_main_view_only (parseDate : String → Option Int) (sid : Nat)
    (now : Int) (page : Page) (ls : Storage) (e e' : String) (a : App) (v : View)
    (sess : Session)
    (ht : page.timerEl = true) (hp : page.progressEl = true)
    (hc : truthyStr (getEntry ls sid).expires_at = some e)
    (hs : v.session = some sess) (hv : truthyStr sess.expires_at = some e') :
    (App.updateTimer parseDate sid now page { a with localStorage := ls }).timerText =
      (if diffOf (parseDate (expiresAtUTC e)) now = some 0 then TimerText.timeUp
       else clockText (diffOf (parseDate (expiresAtUTC e)) now)) ∧
    (CandidateView.tick parseDate now page { v with localStorage := ls }).timerText =
      clockText (diffOf (parseDate (expiresAtUTC e')) now) ∧
    (TimerWidget.tick parseDate now page { v with localStorage := ls }).timerText =
      clockText (diffOf (parseDate (expiresAtUTC e')) now) := by
  refine ⟨?_, ?_, ?_⟩
  · exact (App.updateTimer_render parseDate sid now page { a with localStorage := ls } e
      ht hp hc).1
  · exact (View.tick_render parseDate now page { v with localStorage := ls } sess e'
      ht hp hs hv).1
  · exact (View.tick_render parseDate now page { v with localStorage := ls } sess e'
      ht hp hs hv).1

/-- Witness of the amended C7: the cache holds `2025-01-01T10:30:00Z`, the session objects
hold `2025-01-01T10:05:00Z`. -/
theorem cache_read_by_main_view_only_witness :
    (App.updateTimer sampleDate 1 1735725600000 fullPage
      { App.bound "2025-01-01T10:05:00Z" with
        localStorage := (App.bound "2025-01-01T10:30:00Z").localStorage }).timerText =
      (if diffOf (sampleDate (expiresAtUTC "2025-01-01T10:30:00Z")) 1735725600000 = some 0
       then TimerText.timeUp
       else clockText (diffOf (sampleDate (expiresAtUTC "2025-01-01T10:30:00Z"))
         1735725600000)) ∧
    (CandidateView.tick sampleDate 1735725600000 fullPage
      { View.bound "2025-01-01T10:05:00Z" with
        localStorage := (App.bound "2025-01-01T10:30:00Z").localStorage }).timerText =
      clockText (diffOf (sampleDate (expiresAtUTC "2025-01-01T10:05:00Z")) 1735725600000) ∧
    (TimerWidget.tick sampleDate 1735725600000 fullPage
      { View.bound "2025-01-01T10:05:00Z" with
        localStorage := (App.bound "2025-01-01T10:30:00Z").localStorage }).timerText =
      clockText (diffOf (sampleDate (expiresAtUTC "2025-01-01T10:05:00Z")) 1735725600000) :=
  cache_read_by_main_view_only sampleDate 1 1735725600000 fullPage
    (App.bound "2025-01-01T10:30:00Z").localStorage "2025-01-01T10:30:00Z"
    "2025-01-01T10:05:00Z" (App.bound "2025-01-01T10:05:00Z")
    (View.bound "2025-01-01T10:05:00Z")
    { session_id := 1, expires_at := some "2025-01-01T10:05:00Z", created_at := none }
    rfl rfl (by decide) rfl (by decide)

/-- C9: a successful extend of the main view (a response carrying `expires_at`) leaves the
notified flag false and the pending-exit ref empty, whatever they were before, and the
timeout the ref held is no longer pending. -/
theorem extend_ack_resets_flag_and_exit_timer (parseDate : String → Option Int) (sid : Nat)
    (now : Int) (page : Page) (data : Option String) (e : String) (a : App)
    (hsid : sid ≠ 0) (hd : truthyStr data = some e) :
    (App.extendSession parseDate (some sid) now page
      (App.ExtendResponse.ok data) a).notificationShown = false ∧
    (App.extendSession parseDate (some sid) now page
      (App.ExtendResponse.ok data) a).exitTimeoutRef = none ∧
    (∀ h, a.exitTimeoutRef = some h →
      ∀ t ∈ (App.extendSession parseDate (some sid) now page
        (App.ExtendResponse.ok data) a).timeouts, t.1 ≠ h) := by
  obtain ⟨-, -, hflag, hrefn, htm⟩ :=
    App.extendSession_ok parseDate sid now page data e a hsid hd
  refine ⟨hflag, hrefn, ?_⟩
  intro h hh t hmem
  rw [htm, hh] at hmem
  simpa using (List.mem_filter.mp hmem).2

/-- Witness of C9: the flag is set and an exit confirmation is pending when the extend is
acknowledged. -/
theorem extend_ack_resets_flag_and_exit_timer_witness :
    (App.extendSession sampleDate (some 1) 1735725900000 fullPage
      (App.ExtendResponse.ok (some "2025-01-01T10:30:00Z"))
      { App.bound "2025-01-01T10:05:00Z" with
        notificationShown := true, exitTimeoutRef := some 7, timeouts := [(7, 1)],
        nextTimerId := 8 }).notificationShown = false ∧
    (App.extendSession sampleDate (some 1) 1735725900000 fullPage
      (App.ExtendResponse.ok (some "2025-01-01T10:30:00Z"))
      { App.bound "2025-01-01T10:05:00Z" with
        notificationShown := true, exitTimeoutRef := some 7, timeouts := [(7, 1)],
        nextTimerId := 8 }).exitTimeoutRef = none ∧
    (∀ h, ({ App.bound "2025-01-01T10:05:00Z" with
        notificationShown := true, exitTimeoutRef := some 7, timeouts := [(7, 1)],
        nextTimerId := 8 } : App).exitTimeoutRef = some h →
      ∀ t ∈ (App.extendSession sampleDate (some 1) 1735725900000 fullPage
        (App.ExtendResponse.ok (some "2025-01-01T10:30:00Z"))
        { App.bound "2025-01-01T10:05:00Z" with
          notificationShown := true, exitTimeoutRef := some 7, timeouts := [(7, 1)],
          nextTimerId := 8 }).timeouts, t.1 ≠ h) :=
  extend_ack_resets_flag_and_exit_timer sampleDate 1 1735725900000 fullPage
    (some "2025-01-01T10:30:00Z") "2025-01-01T10:30:00Z" _ (by decide) (by decide)

/-- C10: when the response of the extend request lacks `expires_at`, the main view sets the
error status message (not the message of a successful extend) and changes nothing else: the
cache, the notified flag, the pending-exit ref and the pending timeouts are as before. -/
theorem extend_without_expiry_fails_loudly (parseDate : String → Option Int) (sid : Nat)
    (now : Int) (page : Page) (data : Option String) (a : App)
    (hsid : sid ≠ 0) (hd : truthyStr data = none) :
    App.extendSession parseDate (some sid) now page (App.ExtendResponse.ok data) a =
      { a with status := "Ошибка: не получено новое время" } ∧
    (App.extendSession parseDate (some sid) now page
      (App.ExtendResponse.ok data) a).status ≠ "Сессия продлена на 30 минут" ∧
    (App.extendSession parseDate (some sid) now page
      (App.ExtendResponse.ok data) a).status = "Ошибка: не получено новое время" ∧
    (App.extendSession parseDate (some sid) now page
      (App.ExtendResponse.ok data) a).localStorage = a.localStorage ∧
    (App.extendSession parseDate (some sid) now page
      (App.ExtendResponse.ok data) a).notificationShown = a.notificationShown ∧
    (App.extendSession parseDate (some sid) now page
      (App.ExtendResponse.ok data) a).exitTimeoutRef = a.exitTimeoutRef ∧
    (App.extendSession parseDate (some sid) now page
      (App.ExtendResponse.ok data) a).timeouts = a.timeouts := by
  have h : App.extendSession parseDate (some sid) now page (App.ExtendResponse.ok data) a =
      { a with status := "Ошибка: не получено новое время" } := by
    simp only [App.extendSession, hsid, if_false, hd]
  rw [h]
  have hmsg : ("Ошибка: не получено новое время" : String) ≠ "Сессия продлена на 30 минут" := by
    decide
  exact ⟨rfl, hmsg, rfl, rfl, rfl, rfl, rfl⟩

/-- Witness of C10: a response without `expires_at` while an exit confirmation is pending. -/
theorem extend_without_expiry_fails_loudly_witness :
    App.extendSession sampleDate (some 1) 1735725900000 fullPage (App.ExtendResponse.ok none)
      { App.bound "2025-01-01T10:05:00Z" with
        notificationShown := true, exitTimeoutRef := some 7, timeouts := [(7, 1)],
        nextTimerId := 8 } =
      { ({ App.bound "2025-01-01T10:05:00Z" with
          notificationShown := true, exitTimeoutRef := some 7, timeouts := [(7, 1)],
          nextTimerId := 8 } : App) with status := "Ошибка: не получено новое время" } ∧
    (App.extendSession sampleDate (some 1) 1735725900000 fullPage (App.ExtendResponse.ok none)
      { App.bound "2025-01-01T10:05:00Z" with
        notificationShown := true, exitTimeoutRef := some 7, timeouts := [(7, 1)],
        nextTimerId := 8 }).status ≠ "Сессия продлена на 30 минут" ∧
    (App.extendSession sampleDate (some 1) 1735725900000 fullPage (App.ExtendResponse.ok none)
      { App.bound "2025-01-01T10:05:00Z" with
        notificationShown := true, exitTimeoutRef := some 7, timeouts := [(7, 1)],
        nextTimerId := 8 }).status = "Ошибка: не получено новое время" ∧
    (App.extendSession sampleDate (some 1) 1735725900000 fullPage (App.ExtendResponse.ok none)
      { App.bound "2025-01-01T10:05:00Z" with
        notificationShown := true, exitTimeoutRef := some 7, timeouts := [(7, 1)],
        nextTimerId := 8 }).localStorage = (App.bound "2025-01-01T10:05:00Z").localStorage ∧
    (App.extendSession sampleDate (some 1) 1735725900000 fullPage (App.ExtendResponse.ok none)
      { App.bound "2025-01-01T10:05:00Z" with
        notificationShown := true, exitTimeoutRef := some 7, timeouts := [(7, 1)],
        nextTimerId := 8 }).notificationShown = true ∧
    (App.extendSession sampleDate (some 1) 1735725900000 fullPage (App.ExtendResponse.ok none)
      { App.bound "2025-01-01T10:05:00Z" with
        notificationShown := true, exitTimeoutRef := some 7, timeouts := [(7, 1)],
        nextTimerId := 8 }).exitTimeoutRef = some 7 ∧
    (App.extendSession sampleDate (some 1) 1735725900000 fullPage (App.ExtendResponse.ok none)
      { App.bound "2025-01-01T10:05:00Z" with
        notificationShown := true, exitTimeoutRef := some 7, timeouts := [(7, 1)],
        nextTimerId := 8 }).timeouts = [(7, 1)] :=
  extend_without_expiry_fails_loudly sampleDate 1 1735725900000 fullPage none
    { App.bound "2025-01-01T10:05:00Z" with
      notificationShown := true, exitTimeoutRef := some 7, timeouts := [(7, 1)],
      nextTimerId := 8 } (by decide) (by decide)

/-! ## A main-view tick as a composition of its statements -/

theorem App.updateTimer_stages (parseDate : String → Option Int) (sid : Nat) (now : Int)
    (page : Page) (a : App) (e : String)
    (ht : page.timerEl = true) (hp : page.progressEl = true)
    (hc : truthyStr (getEntry a.localStorage sid).expires_at = some e)
    (h0 : diffOf (parseDate (expiresAtUTC e)) now ≠ some 0) :
    App.updateTimer parseDate sid now page a =
      App.notify ((diffOf (parseDate (expiresAtUTC e)) now).map totalMinutesOf)
        a.notificationShown
        (App.audio ((diffOf (parseDate (expiresAtUTC e)) now).map totalMinutesOf)
          (App.blink page ((diffOf (parseDate (expiresAtUTC e)) now).map totalMinutesOf)
            (App.render (diffOf (parseDate (expiresAtUTC e)) now) (App.cancelExit a)))) := by
  simp only [App.updateTimer, ht, hp, hc, Bool.not_true, Bool.or_self, Bool.false_eq_true,
    if_false, h0]
  rfl

theorem notificationCount_append_tickSound (l : List Effect) :
    notificationCount (l ++ [Effect.tickSound]) = notificationCount l := by
  simp [notificationCount, Effect.isNotification, List.countP_append]

theorem notificationCount_append_notification (l : List Effect) (m : String) :
    notificationCount (l ++ [Effect.notification m]) = notificationCount l + 1 := by
  simp [notificationCount, Effect.isNotification, List.countP_append]

theorem App.cancelExit_frame (a : App) :
    (App.cancelExit a).effects = a.effects ∧
    (App.cancelExit a).notificationShown = a.notificationShown ∧
    (App.cancelExit a).localStorage = a.localStorage ∧
    (App.cancelExit a).sessionId = a.sessionId ∧
    (App.cancelExit a).tickIntervalRef = a.tickIntervalRef := by
  unfold App.cancelExit
  split <;> exact ⟨rfl, rfl, rfl, rfl, rfl⟩

theorem App.blink_frame (page : Page) (tm : Option Int) (a : App) :
    (App.blink page tm a).effects = a.effects ∧
    (App.blink page tm a).notificationShown = a.notificationShown ∧
    (App.blink page tm a).localStorage = a.localStorage ∧
    (App.blink page tm a).sessionId = a.sessionId ∧
    (App.blink page tm a).tickIntervalRef = a.tickIntervalRef := by
  unfold App.blink
  split <;> exact ⟨rfl, rfl, rfl, rfl, rfl⟩

theorem App.audio_frame (tm : Option Int) (a : App) :
    notificationCount (App.audio tm a).effects = notificationCount a.effects ∧
    (App.audio tm a).notificationShown = a.notificationShown ∧
    (App.audio tm a).localStorage = a.localStorage ∧
    (App.audio tm a).sessionId = a.sessionId := by
  unfold App.audio
  split <;> split <;>
    first
    | exact ⟨rfl, rfl, rfl, rfl⟩
    | exact ⟨notificationCount_append_tickSound _, rfl, rfl, rfl⟩

theorem App.notify_frame (tm : Option Int) (shown : Bool) (a : App) :
    notificationCount (App.notify tm shown a).effects =
      notificationCount a.effects + (if ltNum tm 10 = true ∧ shown = false then 1 else 0) ∧
    (App.notify tm shown a).notificationShown =
      (if ltNum tm 10 = true ∧ shown = false then true else a.notificationShown) ∧
    (App.notify tm shown a).localStorage = a.localStorage ∧
    (App.notify tm shown a).sessionId = a.sessionId := by
  unfold App.notify
  cases ltNum tm 10 <;> cases shown <;>
    simp [notificationCount_append_notification]

theorem App.updateTimer_notify (parseDate : String → Option Int) (sid : Nat) (now : Int)
    (page : Page) (a : App) (e : String) (end_ : Int)
    (ht : page.timerEl = true) (hp : page.progressEl = true)
    (hc : truthyStr (getEntry a.localStorage sid).expires_at = some e)
    (hparse : parseDate (expiresAtUTC e) = some end_) :
    notificationCount (App.updateTimer parseDate sid now page a).effects =
      notificationCount a.effects +
        (if 0 < end_ - now ∧ end_ - now < 600000 ∧ a.notificationShown = false then 1
         else 0) ∧
    (App.updateTimer parseDate sid now page a).notificationShown =
      (if 0 < end_ - now ∧ end_ - now < 600000 ∧ a.notificationShown = false then true
       else a.notificationShown) ∧
    (App.updateTimer parseDate sid now page a).localStorage = a.localStorage ∧
    (App.updateTimer parseDate sid now page a).sessionId = a.sessionId := by
  by_cases h0 : diffOf (parseDate (expiresAtUTC e)) now = some 0
  · have hle : end_ ≤ now := by
      rw [hparse] at h0
      exact (diffOf_eq_zero_iff end_ now).mp h0
    have hnf : ¬ (0 < end_ - now ∧ end_ - now < 600000 ∧ a.notificationShown = false) := by
      intro h; omega
    simp only [App.updateTimer, ht, hp, hc, Bool.not_true, Bool.or_self, Bool.false_eq_true,
      if_false, h0, if_true, hnf, Nat.add_zero]
    cases a.exitTimeoutRef <;> exact ⟨rfl, rfl, rfl, rfl⟩
  · rw [App.updateTimer_stages parseDate sid now page a e ht hp hc h0]
    have hlt : now < end_ := by
      by_contra hcon
      apply h0
      rw [hparse]
      exact (diffOf_eq_zero_iff end_ now).mpr (by omega)
    have hm : max 0 (end_ - now) = end_ - now := max_eq_right (by omega)
    have h10 : ltNum (Option.map totalMinutesOf (diffOf (parseDate (expiresAtUTC e)) now))
        10 = true ↔ end_ - now < 600000 := by
      rw [hparse, diffOf_some, hm]
      simp only [Option.map_some', ltNum, decide_eq_true_eq]
      rw [totalMinutesOf_eq _ (by omega)]
      constructor <;> intro h <;> omega
    have hcond : (ltNum (Option.map totalMinutesOf (diffOf (parseDate (expiresAtUTC e)) now))
        10 = true ∧ a.notificationShown = false) ↔
        (0 < end_ - now ∧ end_ - now < 600000 ∧ a.notificationShown = false) := by
      rw [h10]
      constructor
      · intro h; exact ⟨by omega, h.1, h.2⟩
      · intro h; exact ⟨h.2.1, h.2.2⟩
    obtain ⟨n1, n2, n3, n4⟩ := App.notify_frame
      ((diffOf (parseDate (expiresAtUTC e)) now).map totalMinutesOf) a.notificationShown
      (App.audio ((diffOf (parseDate (expiresAtUTC e)) now).map totalMinutesOf)
        (App.blink page ((diffOf (parseDate (expiresAtUTC e)) now).map totalMinutesOf)
          (App.render (diffOf (parseDate (expiresAtUTC e)) now) (App.cancelExit a))))
    obtain ⟨u1, u2, u3, u4⟩ := App.audio_frame
      ((diffOf (parseDate (expiresAtUTC e)) now).map totalMinutesOf)
      (App.blink page ((diffOf (parseDate (expiresAtUTC e)) now).map totalMinutesOf)
        (App.render (diffOf (parseDate (expiresAtUTC e)) now) (App.cancelExit a)))
    obtain ⟨b1, b2, b3, b4, -⟩ := App.blink_frame page
      ((diffOf (parseDate (expiresAtUTC e)) now).map totalMinutesOf)
      (App.render (diffOf (parseDate (expiresAtUTC e)) now) (App.cancelExit a))
    obtain ⟨c1, c2, c3, c4, -⟩ := App.cancelExit_frame a
    have r1 : (App.render (diffOf (parseDate (expiresAtUTC e)) now)
        (App.cancelExit a)).effects = (App.cancelExit a).effects := rfl
    have r2 : (App.render (diffOf (parseDate (expiresAtUTC e)) now)
        (App.cancelExit a)).notificationShown = (App.cancelExit a).notificationShown := rfl
    have r3 : (App.render (diffOf (parseDate (expiresAtUTC e)) now)
        (App.cancelExit a)).localStorage = (App.cancelExit a).localStorage := rfl
    have r4 : (App.render (diffOf (parseDate (expiresAtUTC e)) now)
        (App.cancelExit a)).sessionId = (App.cancelExit a).sessionId := rfl
    refine ⟨?_, ?_, ?_, ?_⟩
    · rw [n1, u1, b1, r1, c1]
      simp only [hcond]
    · rw [n2, u2, b2, r2, c2]
      simp only [hcond]
    · rw [n3, u3, b3, r3, c3]
    · rw [n4, u4, b4, r4, c4]

theorem App.tick_notify (parseDate : String → Option Int) (sid : Nat) (now : Int)
    (page : Page) (a : App) (e : String) (end_ : Int)
    (hsid : sid ≠ 0) (hbound : a.sessionId = some sid)
    (ht : page.timerEl = true) (hp : page.progressEl = true)
    (hc : truthyStr (getEntry a.localStorage sid).expires_at = some e)
    (hparse : parseDate (expiresAtUTC e) = some end_) :
    notificationCount (App.tick parseDate now page a).effects =
      notificationCount a.effects +
        (if 0 < end_ - now ∧ end_ - now < 600000 ∧ a.notificationShown = false then 1
         else 0) ∧
    (App.tick parseDate now page a).notificationShown =
      (if 0 < end_ - now ∧ end_ - now < 600000 ∧ a.notificationShown = false then true
       else a.notificationShown) ∧
    (App.tick parseDate now page a).localStorage = a.localStorage ∧
    (App.tick parseDate now page a).sessionId = a.sessionId := by
  have h : App.tick parseDate now page a = App.updateTimer parseDate sid now page a := by
    simp only [App.tick, hbound, hsid, if_false]
  rw [h]
  exact App.updateTimer_notify parseDate sid now page a e end_ ht hp hc hparse

theorem App.ticks_append (parseDate : String → Option Int) (page : Page)
    (l1 l2 : List Int) (a : App) :
    App.ticks parseDate page (l1 ++ l2) a =
      App.ticks parseDate page l2 (App.ticks parseDate page l1 a) := by
  induction l1 generalizing a with
  | nil => rfl
  | cons t rest ih => exact ih (App.tick parseDate t page a)

theorem App.ticks_quiet (parseDate : String → Option Int) (sid : Nat) (page : Page)
    (e : String) (end_ : Int) (hsid : sid ≠ 0)
    (ht : page.timerEl = true) (hp : page.progressEl = true)
    (hparse : parseDate (expiresAtUTC e) = some end_) :
    ∀ (l : List Int) (a : App), a.sessionId = some sid →
      truthyStr (getEntry a.localStorage sid).expires_at = some e →
      (a.notificationShown = true ∨ ∀ t ∈ l, ¬ (0 < end_ - t ∧ end_ - t < 600000)) →
      notificationCount (App.ticks parseDate page l a).effects = notificationCount a.effects ∧
      (App.ticks parseDate page l a).notificationShown = a.notificationShown ∧
      (App.ticks parseDate page l a).localStorage = a.localStorage ∧
      (App.ticks parseDate page l a).sessionId = a.sessionId := by
  intro l
  induction l with
  | nil => intro a _ _ _; exact ⟨rfl, rfl, rfl, rfl⟩
  | cons t rest ih =>
    intro a hbound hc hq
    obtain ⟨s1, s2, s3, s4⟩ :=
      App.tick_notify parseDate sid t page a e end_ hsid hbound ht hp hc hparse
    have hnf : ¬ (0 < end_ - t ∧ end_ - t < 600000 ∧ a.notificationShown = false) := by
      rintro ⟨h1, h2, h3⟩
      rcases hq with hq | hq
      · rw [hq] at h3; exact absurd h3 (by decide)
      · exact hq t (List.mem_cons_self t rest) ⟨h1, h2⟩
    rw [if_neg hnf] at s1 s2
    have hq2 : (App.tick parseDate t page a).notificationShown = true ∨
        ∀ t2 ∈ rest, ¬ (0 < end_ - t2 ∧ end_ - t2 < 600000) := by
      rcases hq with hq | hq
      · exact Or.inl (s2.trans hq)
      · exact Or.inr fun t2 h2 => hq t2 (List.mem_cons_of_mem t h2)
    obtain ⟨i1, i2, i3, i4⟩ := ih (App.tick parseDate t page a) (s4.trans hbound)
      (by rw [s3]; exact hc) hq2
    exact ⟨i1.trans s1, i2.trans s2, i3.trans s3, i4.trans s4⟩

theorem App.ticks_at_most_one (parseDate : String → Option Int) (sid : Nat) (page : Page)
    (e : String) (end_ : Int) (hsid : sid ≠ 0)
    (ht : page.timerEl = true) (hp : page.progressEl = true)
    (hparse : parseDate (expiresAtUTC e) = some end_) :
    ∀ (l : List Int) (a : App), a.sessionId = some sid →
      truthyStr (getEntry a.localStorage sid).expires_at = some e →
      notificationCount (App.ticks parseDate page l a).effects ≤
        notificationCount a.effects + 1 := by
  intro l
  induction l with
  | nil => intro a _ _; exact Nat.le_succ _
  | cons t rest ih =>
    intro a hbound hc
    obtain ⟨s1, s2, s3, s4⟩ :=
      App.tick_notify parseDate sid t page a e end_ hsid hbound ht hp hc hparse
    have hc2 : truthyStr (getEntry (App.tick parseDate t page a).localStorage sid).expires_at =
        some e := by rw [s3]; exact hc
    by_cases hf : 0 < end_ - t ∧ end_ - t < 600000 ∧ a.notificationShown = false
    · rw [if_pos hf] at s1 s2
      obtain ⟨q1, -, -, -⟩ := App.ticks_quiet parseDate sid page e end_ hsid ht hp hparse rest
        (App.tick parseDate t page a) (s4.trans hbound) hc2 (Or.inl s2)
      show notificationCount (App.ticks parseDate page rest
        (App.tick parseDate t page a)).effects ≤ _
      rw [q1, s1]
    · rw [if_neg hf] at s1
      have := ih (App.tick parseDate t page a) (s4.trans hbound) hc2
      show notificationCount (App.ticks parseDate page rest
        (App.tick parseDate t page a)).effects ≤ _
      rw [s1] at this
      exact this

/-- C8: in a run of main-view ticks with nothing in between (no extend, no rebind), started
with the notified flag false, no notification is sent by the ticks `pre` that come before
the first tick `t` whose remaining time is positive and below 10 minutes; the tick `t`
sends one notification and sets the flag; no tick of `post` sends another one.  Whatever
the times of the ticks, a run sends at most one notification. -/
theorem notification_fires_once_per_crossing (parseDate : String → Option Int) (sid : Nat)
    (page : Page) (e : String) (end_ : Int) (pre post : List Int) (t : Int) (a : App)
    (hsid : sid ≠ 0) (hbound : a.sessionId = some sid)
    (ht : page.timerEl = true) (hp : page.progressEl = true)
    (hc : truthyStr (getEntry a.localStorage sid).expires_at = some e)
    (hparse : parseDate (expiresAtUTC e) = some end_)
    (hflag : a.notificationShown = false)
    (hpre : ∀ t' ∈ pre, ¬ (0 < end_ - t' ∧ end_ - t' < 600000))
    (hpos : 0 < end_ - t) (hlt : end_ - t < 600000) :
    notificationCount (App.ticks parseDate page pre a).effects = notificationCount a.effects ∧
    (App.ticks parseDate page pre a).notificationShown = false ∧
    notificationCount (App.ticks parseDate page (pre ++ [t]) a).effects =
      notificationCount a.effects + 1 ∧
    (App.ticks parseDate page (pre ++ [t]) a).notificationShown = true ∧
    notificationCount (App.ticks parseDate page (pre ++ t :: post) a).effects =
      notificationCount a.effects + 1 ∧
    (∀ nows : List Int, notificationCount (App.ticks parseDate page nows a).effects ≤
      notificationCount a.effects + 1) := by
  obtain ⟨p1, p2, p3, p4⟩ := App.ticks_quiet parseDate sid page e end_ hsid ht hp hparse pre a
    hbound hc (Or.inr hpre)
  have hb2 : (App.ticks parseDate page pre a).sessionId = some sid := p4.trans hbound
  have hc2 : truthyStr (getEntry (App.ticks parseDate page pre a).localStorage sid).expires_at =
      some e := by rw [p3]; exact hc
  obtain ⟨s1, s2, s3, s4⟩ := App.tick_notify parseDate sid t page
    (App.ticks parseDate page pre a) e end_ hsid hb2 ht hp hc2 hparse
  have hfire : 0 < end_ - t ∧ end_ - t < 600000 ∧
      (App.ticks parseDate page pre a).notificationShown = false :=
    ⟨hpos, hlt, p2.trans hflag⟩
  rw [if_pos hfire] at s1 s2
  have hstep : App.ticks parseDate page (pre ++ [t]) a =
      App.tick parseDate t page (App.ticks parseDate page pre a) := by
    rw [App.ticks_append]; rfl
  have hrun : App.ticks parseDate page (pre ++ t :: post) a =
      App.ticks parseDate page post
        (App.tick parseDate t page (App.ticks parseDate page pre a)) := by
    rw [App.ticks_append]; rfl
  obtain ⟨q1, -, -, -⟩ := App.ticks_quiet parseDate sid page e end_ hsid ht hp hparse post
    (App.tick parseDate t page (App.ticks parseDate page pre a)) (s4.trans hb2)
    (by rw [s3]; exact hc2) (Or.inl s2)
  refine ⟨p1, p2.trans hflag, ?_, ?_, ?_, ?_⟩
  · rw [hstep, s1, p1]
  · rw [hstep, s2]
  · rw [hrun, q1, s1, p1]
  · intro nows
    exact App.ticks_at_most_one parseDate sid page e end_ hsid ht hp hparse nows a hbound hc

/-- Witness of C8: the expiry is `2025-01-01T10:30:00Z`; the ticks `pre` come 700 s and
601 s before it, the tick `t` 599 s before it, the ticks `post` 598 s and 1 s before it and
5 ms after it. -/
theorem notification_fires_once_per_crossing_witness :
    notificationCount (App.ticks sampleDate fullPage [1735726700000, 1735726799000]
      (App.bound "2025-01-01T10:30:00Z")).effects =
      notificationCount (App.bound "2025-01-01T10:30:00Z").effects ∧
    (App.ticks sampleDate fullPage [1735726700000, 1735726799000]
      (App.bound "2025-01-01T10:30:00Z")).notificationShown = false ∧
    notificationCount (App.ticks sampleDate fullPage
      ([1735726700000, 1735726799000] ++ [1735726801000])
      (App.bound "2025-01-01T10:30:00Z")).effects =
      notificationCount (App.bound "2025-01-01T10:30:00Z").effects + 1 ∧
    (App.ticks sampleDate fullPage ([1735726700000, 1735726799000] ++ [1735726801000])
      (App.bound "2025-01-01T10:30:00Z")).notificationShown = true ∧
    notificationCount (App.ticks sampleDate fullPage
      ([1735726700000, 1735726799000] ++
        1735726801000 :: [1735726802000, 1735727399000, 1735727400005])
      (App.bound "2025-01-01T10:30:00Z")).effects =
      notificationCount (App.bound "2025-01-01T10:30:00Z").effects + 1 ∧
    (∀ nows : List Int, notificationCount (App.ticks sampleDate fullPage nows
      (App.bound "2025-01-01T10:30:00Z")).effects ≤
      notificationCount (App.bound "2025-01-01T10:30:00Z").effects + 1) :=
  notification_fires_once_per_crossing sampleDate 1 fullPage "2025-01-01T10:30:00Z"
    1735727400000 [1735726700000, 1735726799000]
    [1735726802000, 1735727399000, 1735727400005] 1735726801000
    (App.bound "2025-01-01T10:30:00Z") (by decide) rfl rfl rfl (by decide) (by decide) rfl
    (by decide) (by decide) (by decide)

/-! ## Extending a session: failure and write-through -/

/-- C11, the code at the failing input: the dashboard shows session 1 with the expiry
`2025-01-01T10:05:00Z`, also stored in the cache, and the extend request resolves without
`expires_at`.  `extendSession` has no test of the field: the selected session loses its
expiry and the cache entry is overwritten by one without `expires_at`, and no request
fails.  The same happens for every state whose selected session has the extended id. -/
theorem reviewer_extend_accepts_missing_expiry :
    (ReviewerDashboard.extendSession 1 (App.ExtendResponse.ok none)
      (Dashboard.showing "2025-01-01T10:05:00Z")).selectedSession =
      some { id := 1, candidate_name := "Ann", expires_at := none, created_at := none } ∧
    getEntry (ReviewerDashboard.extendSession 1 (App.ExtendResponse.ok none)
      (Dashboard.showing "2025-01-01T10:05:00Z")).localStorage 1 =
      { expires_at := none, created_at := none } ∧
    getEntry (Dashboard.showing "2025-01-01T10:05:00Z").localStorage 1 =
      { expires_at := some "2025-01-01T10:05:00Z", created_at := none } ∧
    (∀ (d : Dashboard) (selected : ReviewerSession), d.selectedSession = some selected →
      (ReviewerDashboard.extendSession selected.id (App.ExtendResponse.ok none)
        d).selectedSession = some { selected with expires_at := none } ∧
      getEntry (ReviewerDashboard.extendSession selected.id (App.ExtendResponse.ok none)
        d).localStorage selected.id =
        { expires_at := none, created_at := selected.created_at }) := by
  refine ⟨by decide, by decide, by decide, ?_⟩
  intro d selected hsel
  simp [ReviewerDashboard.extendSession, hsel, getEntry_setItem]

/-- C12: when the extend request of the main view rejects, only the status message changes:
the state is the one before the call with the error status, so the storage, and with it
the cache entry of every session, is exactly what it was. -/
theorem failed_extend_is_non_destructive (parseDate : String → Option Int) (sid : Nat)
    (now : Int) (page : Page) (a : App) (hsid : sid ≠ 0) :
    App.extendSession parseDate (some sid) now page App.ExtendResponse.failed a =
      { a with status := "Ошибка продления сессии" } ∧
    (App.extendSession parseDate (some sid) now page
      App.ExtendResponse.failed a).localStorage = a.localStorage ∧
    (∀ id, getEntry (App.extendSession parseDate (some sid) now page
      App.ExtendResponse.failed a).localStorage id = getEntry a.localStorage id) ∧
    (App.extendSession parseDate (some sid) now page
      App.ExtendResponse.failed a).status = "Ошибка продления сессии" := by
  have h : App.extendSession parseDate (some sid) now page App.ExtendResponse.failed a =
      { a with status := "Ошибка продления сессии" } := by
    simp only [App.extendSession, hsid, if_false]
  rw [h]
  exact ⟨rfl, rfl, fun _ => rfl, rfl⟩

/-- Witness of C12: the request rejects five minutes before the cached expiry. -/
theorem failed_extend_is_non_destructive_witness :
    App.extendSession sampleDate (some 1) 1735725600000 fullPage App.ExtendResponse.failed
        (App.bound "2025-01-01T10:05:00Z") =
      { App.bound "2025-01-01T10:05:00Z" with status := "Ошибка продления сессии" } ∧
    (App.extendSession sampleDate (some 1) 1735725600000 fullPage App.ExtendResponse.failed
      (App.bound "2025-01-01T10:05:00Z")).localStorage =
      (App.bound "2025-01-01T10:05:00Z").localStorage ∧
    (∀ id, getEntry (App.extendSession sampleDate (some 1) 1735725600000 fullPage
      App.ExtendResponse.failed (App.bound "2025-01-01T10:05:00Z")).localStorage id =
      getEntry (App.bound "2025-01-01T10:05:00Z").localStorage id) ∧
    (App.extendSession sampleDate (some 1) 1735725600000 fullPage App.ExtendResponse.failed
      (App.bound "2025-01-01T10:05:00Z")).status = "Ошибка продления сессии" :=
  failed_extend_is_non_destructive sampleDate 1 1735725600000 fullPage
    (App.bound "2025-01-01T10:05:00Z") (by decide)

/-- C13: after a successful extend of the main view whose response carries the expiry `e`,
the cache entry of the session holds `expires_at = e` and the `created_at` it held before;
the entries of the other sessions are untouched, and the test `updateTimer` makes on the
entry finds `e`. -/
theorem extend_writes_through (parseDate : String → Option Int) (sid : Nat) (now : Int)
    (page : Page) (data : Option String) (e : String) (a : App)
    (hsid : sid ≠ 0) (hd : truthyStr data = some e) :
    getEntry (App.extendSession parseDate (some sid) now page
      (App.ExtendResponse.ok data) a).localStorage sid =
      { expires_at := some e, created_at := (getEntry a.localStorage sid).created_at } ∧
    (∀ k, k ≠ sid → (App.extendSession parseDate (some sid) now page
      (App.ExtendResponse.ok data) a).localStorage k = a.localStorage k) ∧
    truthyStr (getEntry (App.extendSession parseDate (some sid) now page
      (App.ExtendResponse.ok data) a).localStorage sid).expires_at = some e := by
  obtain ⟨hls, -, -, -, -⟩ := App.extendSession_ok parseDate sid now page data e a hsid hd
  have hte : truthyStr (some e) = some e := by
    cases data with
    | none => simp [truthyStr] at hd
    | some s =>
      simp only [truthyStr] at hd ⊢
      split_ifs at hd with hs
      simp only [Option.some.injEq] at hd
      subst hd
      simp [hs]
  rw [hls, getEntry_setItem]
  refine ⟨rfl, ?_, hte⟩
  intro k hk
  simp [setItem, hk]

/-- Witness of C13: the entry holds `2025-01-01T10:05:00Z` and the response carries
`2025-01-01T10:30:00Z`. -/
theorem extend_writes_through_witness :
    getEntry (App.extendSession sampleDate (some 1) 1735725600000 fullPage
      (App.ExtendResponse.ok (some "2025-01-01T10:30:00Z"))
      (App.bound "2025-01-01T10:05:00Z")).localStorage 1 =
      { expires_at := some "2025-01-01T10:30:00Z",
        created_at := (getEntry (App.bound "2025-01-01T10:05:00Z").localStorage 1).created_at } ∧
    (∀ k, k ≠ 1 → (App.extendSession sampleDate (some 1) 1735725600000 fullPage
      (App.ExtendResponse.ok (some "2025-01-01T10:30:00Z"))
      (App.bound "2025-01-01T10:05:00Z")).localStorage k =
      (App.bound "2025-01-01T10:05:00Z").localStorage k) ∧
    truthyStr (getEntry (App.extendSession sampleDate (some 1) 1735725600000 fullPage
      (App.ExtendResponse.ok (some "2025-01-01T10:30:00Z"))
      (App.bound "2025-01-01T10:05:00Z")).localStorage 1).expires_at =
      some "2025-01-01T10:30:00Z" :=
  extend_writes_through sampleDate 1 1735725600000 fullPage (some "2025-01-01T10:30:00Z")
    "2025-01-01T10:30:00Z" (App.bound "2025-01-01T10:05:00Z") (by decide) (by decide)

/-! ## Absent and expired expiry, monotonicity -/

/-- C16: when the cache entry of the session has no `expires_at`, a tick of the main view
writes the placeholder text and does nothing else: the state is the one before the tick
with that text, so no notification is sent, no audio interval is started, no exit timeout
is set and the notified flag is unchanged. -/
theorem absent_expiry_renders_placeholder (parseDate : String → Option Int) (sid : Nat)
    (now : Int) (page : Page) (a : App)
    (ht : page.timerEl = true) (hp : page.progressEl = true)
    (hc : truthyStr (getEntry a.localStorage sid).expires_at = none) :
    App.updateTimer parseDate sid now page a = { a with timerText := TimerText.placeholder } ∧
    (App.updateTimer parseDate sid now page a).timerText = TimerText.placeholder ∧
    (App.updateTimer parseDate sid now page a).effects = a.effects ∧
    (App.updateTimer parseDate sid now page a).tickIntervalRef = a.tickIntervalRef ∧
    (App.updateTimer parseDate sid now page a).intervals = a.intervals ∧
    (App.updateTimer parseDate sid now page a).exitTimeoutRef = a.exitTimeoutRef ∧
    (App.updateTimer parseDate sid now page a).timeouts = a.timeouts ∧
    (App.updateTimer parseDate sid now page a).notificationShown = a.notificationShown := by
  have h : App.updateTimer parseDate sid now page a =
      { a with timerText := TimerText.placeholder } := by
    simp only [App.updateTimer, ht, hp, hc, Bool.not_true, Bool.or_self, Bool.false_eq_true,
      if_false]
  rw [h]
  exact ⟨rfl, rfl, rfl, rfl, rfl, rfl, rfl, rfl⟩

/-- Witness of C16: a bound main view whose storage has no entry for the session. -/
theorem absent_expiry_renders_placeholder_witness :
    App.updateTimer sampleDate 1 1735725600000 fullPage { App.init with sessionId := some 1 } =
      { ({ App.init with sessionId := some 1 } : App) with
        timerText := TimerText.placeholder } ∧
    (App.updateTimer sampleDate 1 1735725600000 fullPage
      { App.init with sessionId := some 1 }).timerText = TimerText.placeholder ∧
    (App.updateTimer sampleDate 1 1735725600000 fullPage
      { App.init with sessionId := some 1 }).effects =
      ({ App.init with sessionId := some 1 } : App).effects ∧
    (App.updateTimer sampleDate 1 1735725600000 fullPage
      { App.init with sessionId := some 1 }).tickIntervalRef =
      ({ App.init with sessionId := some 1 } : App).tickIntervalRef ∧
    (App.updateTimer sampleDate 1 1735725600000 fullPage
      { App.init with sessionId := some 1 }).intervals =
      ({ App.init with sessionId := some 1 } : App).intervals ∧
    (App.updateTimer sampleDate 1 1735725600000 fullPage
      { App.init with sessionId := some 1 }).exitTimeoutRef =
      ({ App.init with sessionId := some 1 } : App).exitTimeoutRef ∧
    (App.updateTimer sampleDate 1 1735725600000 fullPage
      { App.init with sessionId := some 1 }).timeouts =
      ({ App.init with sessionId := some 1 } : App).timeouts ∧
    (App.updateTimer sampleDate 1 1735725600000 fullPage
      { App.init with sessionId := some 1 }).notificationShown =
      ({ App.init with sessionId := some 1 } : App).notificationShown :=
  absent_expiry_renders_placeholder sampleDate 1 1735725600000 fullPage
    { App.init with sessionId := some 1 } rfl rfl (by decide)

/-- C17: for every `now` at or after the parsed expiry `end_`, a tick computes the
remaining time 0 and writes the width `0%` and the red colour, in the main view, the
candidate view and the timer popup. -/
theorem expired_renders_zero_red (parseDate : String → Option Int) (e : String)
    (end_ now : Int) (sid : Nat) (page : Page) (a : App) (v : View) (sess : Session)
    (ht : page.timerEl = true) (hp : page.progressEl = true)
    (hparse : parseDate (expiresAtUTC e) = some end_)
    (hc : truthyStr (getEntry a.localStorage sid).expires_at = some e)
    (hs : v.session = some sess) (hv : truthyStr sess.expires_at = some e)
    (hle : end_ ≤ now) :
    diffOf (parseDate (expiresAtUTC e)) now = some 0 ∧
    (App.updateTimer parseDate sid now page a).progressWidth = some 0 ∧
    (App.updateTimer parseDate sid now page a).progressColor = Color.red ∧
    (CandidateView.tick parseDate now page v).progressWidth = some 0 ∧
    (CandidateView.tick parseDate now page v).progressColor = Color.red ∧
    (TimerWidget.tick parseDate now page v).progressWidth = some 0 ∧
    (TimerWidget.tick parseDate now page v).progressColor = Color.red := by
  have hd : diffOf (parseDate (expiresAtUTC e)) now = some 0 := by
    rw [hparse]
    exact (diffOf_eq_zero_iff end_ now).mpr hle
  obtain ⟨-, m2, m3⟩ := App.updateTimer_render parseDate sid now page a e ht hp hc
  obtain ⟨-, v2, v3⟩ := View.tick_render parseDate now page v sess e ht hp hs hv
  rw [hd] at m2 m3 v2 v3
  have hw : (Option.map (fun p : ℚ => max 0 p) (Option.map percentOf (some (0 : Int)))) =
      some 0 := by
    simp [percentOf_zero]
  have hcol : colorOf (Option.map percentOf (some (0 : Int))) = Color.red := by
    simp only [Option.map_some', percentOf_zero]
    exact (colorOf_red_iff 0).mpr (by norm_num)
  refine ⟨hd, ?_, ?_, ?_, ?_, ?_, ?_⟩
  · rw [m2]; rfl
  · rw [m3]; rfl
  · rw [CandidateView.tick, v2, hw]
  · rw [CandidateView.tick, v3, hcol]
  · rw [TimerWidget.tick, v2, hw]
  · rw [TimerWidget.tick, v3, hcol]

/-- Witness of C17: five seconds after the expiry `2025-01-01T10:30:00Z`. -/
theorem expired_renders_zero_red_witness :
    diffOf (sampleDate (expiresAtUTC "2025-01-01T10:30:00Z")) 1735727405000 = some 0 ∧
    (App.updateTimer sampleDate 1 1735727405000 fullPage
      (App.bound "2025-01-01T10:30:00Z")).progressWidth = some 0 ∧
    (App.updateTimer sampleDate 1 1735727405000 fullPage
      (App.bound "2025-01-01T10:30:00Z")).progressColor = Color.red ∧
    (CandidateView.tick sampleDate 1735727405000 fullPage
      (View.bound "2025-01-01T10:30:00Z")).progressWidth = some 0 ∧
    (CandidateView.tick sampleDate 1735727405000 fullPage
      (View.bound "2025-01-01T10:30:00Z")).progressColor = Color.red ∧
    (TimerWidget.tick sampleDate 1735727405000 fullPage
      (View.bound "2025-01-01T10:30:00Z")).progressWidth = some 0 ∧
    (TimerWidget.tick sampleDate 1735727405000 fullPage
      (View.bound "2025-01-01T10:30:00Z")).progressColor = Color.red :=
  expired_renders_zero_red sampleDate "2025-01-01T10:30:00Z" 1735727400000 1735727405000 1
    fullPage (App.bound "2025-01-01T10:30:00Z") (View.bound "2025-01-01T10:30:00Z")
    { session_id := 1, expires_at := some "2025-01-01T10:30:00Z", created_at := none }
    rfl rfl (by decide) (by decide) rfl (by decide) (by decide)

/-- C18: with the expiry `end_` fixed, the remaining time a tick computes at `now2` is at
most the one it computes at `now1` whenever `now1 ≤ now2`, and so is the percent. -/
theorem remaining_monotone (end_ now1 now2 : Int) (h : now1 ≤ now2) :
    ∃ d1 d2 : Int, diffOf (some end_) now1 = some d1 ∧ diffOf (some end_) now2 = some d2 ∧
      d2 ≤ d1 ∧ percentOf d2 ≤ percentOf d1 := by
  refine ⟨max 0 (end_ - now1), max 0 (end_ - now2), diffOf_some _ _, diffOf_some _ _, ?_, ?_⟩
  · exact max_le_max le_rfl (by omega)
  · have hd : max 0 (end_ - now2) ≤ max 0 (end_ - now1) := max_le_max le_rfl (by omega)
    have hq : ((max 0 (end_ - now2) : Int) : ℚ) ≤ ((max 0 (end_ - now1) : Int) : ℚ) := by
      exact_mod_cast hd
    unfold percentOf total
    have hpos : (0 : ℚ) < ((2 * 60 * 60 * 1000 : Int) : ℚ) := by norm_num
    exact mul_le_mul_of_nonneg_right (div_le_div_of_nonneg_right hq hpos.le) (by norm_num)

/-- Witness of C18: the expiry `2025-01-01T10:30:00Z` seen at `10:00:00Z` and at
`10:05:00Z`. -/
theorem remaining_monotone_witness :
    ∃ d1 d2 : Int, diffOf (some 1735727400000) 1735725600000 = some d1 ∧
      diffOf (some 1735727400000) 1735725900000 = some d2 ∧
      d2 ≤ d1 ∧ percentOf d2 ≤ percentOf d1 :=
  remaining_monotone 1735727400000 1735725600000 1735725900000 (by decide)

/-! ## Creating a session in the reviewer dashboard -/

theorem trim_eq_empty_iff (s : String) :
    trim s = "" ↔ ∀ c ∈ s.data, isWhiteSpace c = true := by
  unfold trim
  constructor
  · intro h
    have h1 : ((s.data.dropWhile isWhiteSpace).reverse.dropWhile isWhiteSpace).reverse = [] := by
      have := congrArg String.data h
      simpa using this
    have h2 : (s.data.dropWhile isWhiteSpace).reverse.dropWhile isWhiteSpace = [] :=
      List.reverse_eq_nil_iff.mp h1
    intro c hc
    by_contra hne
    have hmem : c ∈ s.data.dropWhile isWhiteSpace := by
      have hsplit := List.takeWhile_append_dropWhile isWhiteSpace s.data
      rw [← hsplit] at hc
      rcases List.mem_append.mp hc with ht | hd
      · exact absurd (List.mem_takeWhile_imp ht) hne
      · exact hd
    have hlast : ∀ x ∈ (s.data.dropWhile isWhiteSpace).reverse, isWhiteSpace x = true :=
      List.dropWhile_eq_nil_iff.mp h2
    have hhead : s.data.dropWhile isWhiteSpace ≠ [] := List.ne_nil_of_mem hmem
    have hfirst := List.head_dropWhile_not isWhiteSpace s.data hhead
    have hin : (s.data.dropWhile isWhiteSpace).head hhead ∈
        (s.data.dropWhile isWhiteSpace).reverse :=
      List.mem_reverse.mpr (List.head_mem hhead)
    rw [hlast _ hin] at hfirst
    exact absurd hfirst (by decide)
  · intro h
    have h1 : s.data.dropWhile isWhiteSpace = [] := List.dropWhile_eq_nil_iff.mpr h
    rw [h1]
    rfl

/-- C20: with a blank candidate name (empty, or white space only), `createSession` of the
dashboard returns at once: the state, with its form fields, created-session info and loading
flag, is the one before the call, and no request is added to the log. -/
theorem blank_name_creates_nothing (origin : String) (res : CreateResponse) (d : Dashboard)
    (hblank : ∀ c ∈ d.newSession.candidate_name.data, isWhiteSpace c = true) :
    ReviewerDashboard.createSession origin res d = d ∧
    (ReviewerDashboard.createSession origin res d).requests = d.requests ∧
    (ReviewerDashboard.createSession origin res d).newSession = d.newSession ∧
    (ReviewerDashboard.createSession origin res d).createdSessionInfo = d.createdSessionInfo ∧
    (ReviewerDashboard.createSession origin res d).isLoading = d.isLoading := by
  have h : ReviewerDashboard.createSession origin res d = d := by
    unfold ReviewerDashboard.createSession
    rw [if_pos ((trim_eq_empty_iff _).mpr hblank)]
  rw [h]
  exact ⟨rfl, rfl, rfl, rfl, rfl⟩

/-- Witness of C20: the name is a space followed by a tab, and the server would have
answered. -/
theorem blank_name_creates_nothing_witness :
    ReviewerDashboard.createSession "http://localhost" (CreateResponse.ok 5 "tok")
        { Dashboard.init with
          newSession := { Dashboard.init.newSession with candidate_name := " \t" } } =
      { Dashboard.init with
        newSession := { Dashboard.init.newSession with candidate_name := " \t" } } ∧
    (ReviewerDashboard.createSession "http://localhost" (CreateResponse.ok 5 "tok")
      { Dashboard.init with
        newSession := { Dashboard.init.newSession with candidate_name := " \t" } }).requests =
      ({ Dashboard.init with
        newSession := { Dashboard.init.newSession with candidate_name := " \t" } }
        : Dashboard).requests ∧
    (ReviewerDashboard.createSession "http://localhost" (CreateResponse.ok 5 "tok")
      { Dashboard.init with
        newSession := { Dashboard.init.newSession with candidate_name := " \t" } }).newSession =
      ({ Dashboard.init with
        newSession := { Dashboard.init.newSession with candidate_name := " \t" } }
        : Dashboard).newSession ∧
    (ReviewerDashboard.createSession "http://localhost" (CreateResponse.ok 5 "tok")
      { Dashboard.init with
        newSession := { Dashboard.init.newSession with candidate_name := " \t" }
      }).createdSessionInfo =
      ({ Dashboard.init with
        newSession := { Dashboard.init.newSession with candidate_name := " \t" } }
        : Dashboard).createdSessionInfo ∧
    (ReviewerDashboard.createSession "http://localhost" (CreateResponse.ok 5 "tok")
      { Dashboard.init with
        newSession := { Dashboard.init.newSession with candidate_name := " \t" } }).isLoading =
      ({ Dashboard.init with
        newSession := { Dashboard.init.newSession with candidate_name := " \t" } }
        : Dashboard).isLoading :=
  blank_name_creates_nothing "http://localhost" (CreateResponse.ok 5 "tok")
    { Dashboard.init with
      newSession := { Dashboard.init.newSession with candidate_name := " \t" } }
    (by decide)

/-! ## The audio cue -/

theorem App.cancelExit_audio_frame (a : App) :
    (App.cancelExit a).tickIntervalRef = a.tickIntervalRef ∧
    (App.cancelExit a).intervals = a.intervals ∧
    (App.cancelExit a).nextTimerId = a.nextTimerId := by
  unfold App.cancelExit
  split <;> exact ⟨rfl, rfl, rfl⟩

theorem App.blink_audio_frame (page : Page) (tm : Option Int) (a : App) :
    (App.blink page tm a).tickIntervalRef = a.tickIntervalRef ∧
    (App.blink page tm a).intervals = a.intervals ∧
    (App.blink page tm a).nextTimerId = a.nextTimerId := by
  unfold App.blink
  split <;> exact ⟨rfl, rfl, rfl⟩

theorem App.notify_audio_frame (tm : Option Int) (shown : Bool) (a : App) :
    (App.notify tm shown a).tickIntervalRef = a.tickIntervalRef ∧
    (App.notify tm shown a).intervals = a.intervals ∧
    (App.notify tm shown a).nextTimerId = a.nextTimerId := by
  unfold App.notify
  split <;> exact ⟨rfl, rfl, rfl⟩

theorem App.audio_start (tm : Option Int) (a : App) (h1 : ltNum tm 1 = true)
    (hr : a.tickIntervalRef = none) :
    (App.audio tm a).tickIntervalRef = some a.nextTimerId ∧
    (App.audio tm a).intervals = a.nextTimerId :: a.intervals := by
  simp only [App.audio, h1, if_true, hr]
  exact ⟨trivial, trivial⟩

theorem App.audio_keep (tm : Option Int) (a : App) (h : Nat) (h1 : ltNum tm 1 = true)
    (hr : a.tickIntervalRef = some h) :
    App.audio tm a = a := by
  simp only [App.audio, h1, if_true, hr]

theorem App.audio_stop (tm : Option Int) (a : App) (h1 : ltNum tm 1 = false) :
    (App.audio tm a).tickIntervalRef = none ∧
    (∀ h, a.tickIntervalRef = some h → h ∉ (App.audio tm a).intervals) := by
  cases hr : a.tickIntervalRef with
  | none =>
    simp only [App.audio, h1, Bool.false_eq_true, if_false, hr]
    exact ⟨trivial, fun h hh => absurd hh (by simp)⟩
  | some h0 =>
    simp only [App.audio, h1, Bool.false_eq_true, if_false, hr]
    refine ⟨trivial, ?_⟩
    intro h hh hmem
    simp only [Option.some.injEq] at hh
    subst hh
    simp [App.clearInterval] at hmem

/-- C19: after a tick of the main view with a positive remaining time, `tickIntervalRef`
holds an audio interval exactly when less than one minute (60000 ms) remains.  Under one
minute a tick that finds no interval starts one, and a tick that finds one leaves the ref
and the live intervals as they are (it is not started twice); at one minute or more the
ref is emptied and the interval it held is cleared. -/
theorem audio_interval_iff_under_one_minute (parseDate : String → Option Int) (sid : Nat)
    (now : Int) (page : Page) (a : App) (e : String) (end_ : Int)
    (ht : page.timerEl = true) (hp : page.progressEl = true)
    (hc : truthyStr (getEntry a.localStorage sid).expires_at = some e)
    (hparse : parseDate (expiresAtUTC e) = some end_) (hpos : now < end_) :
    ((App.updateTimer parseDate sid now page a).tickIntervalRef.isSome = true ↔
      end_ - now < 60000) ∧
    (end_ - now < 60000 → a.tickIntervalRef = none →
      (App.updateTimer parseDate sid now page a).tickIntervalRef = some a.nextTimerId ∧
      (App.updateTimer parseDate sid now page a).intervals = a.nextTimerId :: a.intervals) ∧
    (end_ - now < 60000 → ∀ h, a.tickIntervalRef = some h →
      (App.updateTimer parseDate sid now page a).tickIntervalRef = some h ∧
      (App.updateTimer parseDate sid now page a).intervals = a.intervals) ∧
    (60000 ≤ end_ - now →
      (App.updateTimer parseDate sid now page a).tickIntervalRef = none ∧
      ∀ h, a.tickIntervalRef = some h →
        h ∉ (App.updateTimer parseDate sid now page a).intervals) := by
  have hm : max 0 (end_ - now) = end_ - now := max_eq_right (by omega)
  have hd : diffOf (parseDate (expiresAtUTC e)) now = some (end_ - now) := by
    rw [hparse, diffOf_some, hm]
  have h0 : diffOf (parseDate (expiresAtUTC e)) now ≠ some 0 := by
    rw [hd]
    simp only [ne_eq, Option.some.injEq]
    omega
  have h1 : ltNum (Option.map totalMinutesOf (diffOf (parseDate (expiresAtUTC e)) now)) 1 =
      true ↔ end_ - now < 60000 := by
    rw [hd]
    simp only [Option.map_some', ltNum, decide_eq_true_eq]
    rw [totalMinutesOf_eq _ (by omega)]
    constructor <;> intro h <;> omega
  rw [App.updateTimer_stages parseDate sid now page a e ht hp hc h0]
  generalize Option.map totalMinutesOf (diffOf (parseDate (expiresAtUTC e)) now) = tm at h1
  obtain ⟨n1, n2, -⟩ := App.notify_audio_frame tm a.notificationShown
    (App.audio tm (App.blink page tm
      (App.render (diffOf (parseDate (expiresAtUTC e)) now) (App.cancelExit a))))
  obtain ⟨b1, b2, b3⟩ := App.blink_audio_frame page tm
    (App.render (diffOf (parseDate (expiresAtUTC e)) now) (App.cancelExit a))
  obtain ⟨c1, c2, c3⟩ := App.cancelExit_audio_frame a
  have r1 : (App.blink page tm (App.render (diffOf (parseDate (expiresAtUTC e)) now)
      (App.cancelExit a))).tickIntervalRef = a.tickIntervalRef := b1.trans c1
  have r2 : (App.blink page tm (App.render (diffOf (parseDate (expiresAtUTC e)) now)
      (App.cancelExit a))).intervals = a.intervals := b2.trans c2
  have r3 : (App.blink page tm (App.render (diffOf (parseDate (expiresAtUTC e)) now)
      (App.cancelExit a))).nextTimerId = a.nextTimerId := b3.trans c3
  rw [n1, n2]
  have hstart : end_ - now < 60000 → a.tickIntervalRef = none →
      (App.audio tm (App.blink page tm (App.render (diffOf (parseDate (expiresAtUTC e)) now)
        (App.cancelExit a)))).tickIntervalRef = some a.nextTimerId ∧
      (App.audio tm (App.blink page tm (App.render (diffOf (parseDate (expiresAtUTC e)) now)
        (App.cancelExit a)))).intervals = a.nextTimerId :: a.intervals := by
    intro hu hr
    have := App.audio_start tm _ (h1.mpr hu) (r1.trans hr)
    rw [r2, r3] at this
    exact this
  have hkeep : end_ - now < 60000 → ∀ h, a.tickIntervalRef = some h →
      (App.audio tm (App.blink page tm (App.render (diffOf (parseDate (expiresAtUTC e)) now)
        (App.cancelExit a)))).tickIntervalRef = some h ∧
      (App.audio tm (App.blink page tm (App.render (diffOf (parseDate (expiresAtUTC e)) now)
        (App.cancelExit a)))).intervals = a.intervals := by
    intro hu h hr
    rw [App.audio_keep tm _ h (h1.mpr hu) (r1.trans hr)]
    exact ⟨r1.trans hr, r2⟩
  have hstop : 60000 ≤ end_ - now →
      (App.audio tm (App.blink page tm (App.render (diffOf (parseDate (expiresAtUTC e)) now)
        (App.cancelExit a)))).tickIntervalRef = none ∧
      ∀ h, a.tickIntervalRef = some h →
        h ∉ (App.audio tm (App.blink page tm
          (App.render (diffOf (parseDate (expiresAtUTC e)) now)
            (App.cancelExit a)))).intervals := by
    intro hge
    have hf : ltNum tm 1 = false := by
      cases hb : ltNum tm 1 with
      | false => rfl
      | true => exact absurd (h1.mp hb) (by omega)
    obtain ⟨s1, s2⟩ := App.audio_stop tm (App.blink page tm
      (App.render (diffOf (parseDate (expiresAtUTC e)) now) (App.cancelExit a))) hf
    exact ⟨s1, fun h hh => s2 h (r1.trans hh)⟩
  refine ⟨?_, hstart, hkeep, hstop⟩
  constructor
  · intro hsome
    by_contra hge
    rw [(hstop (by omega)).1] at hsome
    exact absurd hsome (by decide)
  · intro hu
    cases hr : a.tickIntervalRef with
    | none => rw [(hstart hu hr).1]; rfl
    | some h => rw [(hkeep hu h hr).1]; rfl

/-- Witness of C19: thirty seconds before the expiry `2025-01-01T10:30:00Z`, with no audio
interval running. -/
theorem audio_interval_iff_under_one_minute_witness :
    ((App.updateTimer sampleDate 1 1735727370000 fullPage
      (App.bound "2025-01-01T10:30:00Z")).tickIntervalRef.isSome = true ↔
      (1735727400000 : Int) - 1735727370000 < 60000) ∧
    ((1735727400000 : Int) - 1735727370000 < 60000 →
      (App.bound "2025-01-01T10:30:00Z").tickIntervalRef = none →
      (App.updateTimer sampleDate 1 1735727370000 fullPage
        (App.bound "2025-01-01T10:30:00Z")).tickIntervalRef =
        some (App.bound "2025-01-01T10:30:00Z").nextTimerId ∧
      (App.updateTimer sampleDate 1 1735727370000 fullPage
        (App.bound "2025-01-01T10:30:00Z")).intervals =
        (App.bound "2025-01-01T10:30:00Z").nextTimerId ::
          (App.bound "2025-01-01T10:30:00Z").intervals) ∧
    ((1735727400000 : Int) - 1735727370000 < 60000 →
      ∀ h, (App.bound "2025-01-01T10:30:00Z").tickIntervalRef = some h →
      (App.updateTimer sampleDate 1 1735727370000 fullPage
        (App.bound "2025-01-01T10:30:00Z")).tickIntervalRef = some h ∧
      (App.updateTimer sampleDate 1 1735727370000 fullPage
        (App.bound "2025-01-01T10:30:00Z")).intervals =
        (App.bound "2025-01-01T10:30:00Z").intervals) ∧
    (60000 ≤ (1735727400000 : Int) - 1735727370000 →
      (App.updateTimer sampleDate 1 1735727370000 fullPage
        (App.bound "2025-01-01T10:30:00Z")).tickIntervalRef = none ∧
      ∀ h, (App.bound "2025-01-01T10:30:00Z").tickIntervalRef = some h →
        h ∉ (App.updateTimer sampleDate 1 1735727370000 fullPage
          (App.bound "2025-01-01T10:30:00Z")).intervals) :=
  audio_interval_iff_under_one_minute sampleDate 1 1735727370000 fullPage
    (App.bound "2025-01-01T10:30:00Z") "2025-01-01T10:30:00Z" 1735727400000
    rfl rfl (by decide) (by decide) (by decide)

/-! ## The exit timeout of an expired tick -/

theorem App.updateTimer_expired (parseDate : String → Option Int) (sid : Nat) (now : Int)
    (page : Page) (a : App) (e : String)
    (ht : page.timerEl = true) (hp : page.progressEl = true)
    (hc : truthyStr (getEntry a.localStorage sid).expires_at = some e)
    (h0 : diffOf (parseDate (expiresAtUTC e)) now = some 0) :
    (App.updateTimer parseDate sid now page a).exitTimeoutRef = some a.nextTimerId ∧
    (App.updateTimer parseDate sid now page a).timeouts =
      (a.nextTimerId, sid) ::
        (match a.exitTimeoutRef with
         | some h => a.timeouts.filter fun t => decide (t.1 ≠ h)
         | none => a.timeouts) ∧
    (App.updateTimer parseDate sid now page a).nextTimerId = a.nextTimerId + 1 := by
  simp only [App.updateTimer, ht, hp, hc, Bool.not_true, Bool.or_self, Bool.false_eq_true,
    if_false, h0, if_true]
  cases a.exitTimeoutRef <;> exact ⟨rfl, rfl, rfl⟩

theorem View.tick_expired (parseDate : String → Option Int) (now : Int) (page : Page)
    (v : View) (sess : Session) (e : String)
    (hs : v.session = some sess) (hc : truthyStr sess.expires_at = some e)
    (h0 : diffOf (parseDate (expiresAtUTC e)) now = some 0) :
    (View.tick parseDate now page v).exitTimeoutRef = some v.nextTimerId ∧
    (View.tick parseDate now page v).timeouts =
      v.nextTimerId ::
        (match v.exitTimeoutRef with
         | some h => v.timeouts.filter fun t => decide (t ≠ h)
         | none => v.timeouts) ∧
    (View.tick parseDate now page v).nextTimerId = v.nextTimerId + 1 := by
  have hg : gtNum (some (0 : Int)) 0 = false := rfl
  cases hx : v.exitTimeoutRef <;> cases ht : page.timerEl <;> cases hp : page.progressEl <;>
    simp [View.tick, hs, hc, View.updateTimer, h0, hg, hx, ht, hp, View.clearTimeout]

/-- C14, counterexample: the exit timeout 7 is pending when a tick five seconds after the
expiry runs; the tick cancels it and starts the timeout 8 in its place, in the main view
and in the candidate view. -/
theorem expired_tick_restarts_exit_timer :
    (App.updateTimer sampleDate 1 1735727405000 fullPage
      { App.bound "2025-01-01T10:30:00Z" with
        exitTimeoutRef := some 7, timeouts := [(7, 1)], nextTimerId := 8 }).exitTimeoutRef =
      some 8 ∧
    (App.updateTimer sampleDate 1 1735727405000 fullPage
      { App.bound "2025-01-01T10:30:00Z" with
        exitTimeoutRef := some 7, timeouts := [(7, 1)], nextTimerId := 8 }).timeouts =
      [(8, 1)] ∧
    (CandidateView.tick sampleDate 1735727405000 fullPage
      { View.bound "2025-01-01T10:30:00Z" with
        exitTimeoutRef := some 7, timeouts := [7], nextTimerId := 8 }).exitTimeoutRef =
      some 8 ∧
    (CandidateView.tick sampleDate 1735727405000 fullPage
      { View.bound "2025-01-01T10:30:00Z" with
        exitTimeoutRef := some 7, timeouts := [7], nextTimerId := 8 }).timeouts = [8] := by
  refine ⟨by decide, by decide, by decide, by decide⟩

/-- C14, amended: a tick that observes the remaining time 0 always starts a delayed exit
confirmation, whose handle it stores in `exitTimeoutRef`; a timeout the ref held before is
cancelled first, so it is restarted rather than left in place.  When the pending timeouts
are those of the ref, exactly one confirmation is pending after the tick.  The same holds
in the candidate view. -/
theorem expired_tick_replaces_exit_timer (parseDate : String → Option Int) (e : String)
    (end_ now : Int) (sid : Nat) (page : Page) (a : App) (v : View) (sess : Session)
    (ht : page.timerEl = true) (hp : page.progressEl = true)
    (hparse : parseDate (expiresAtUTC e) = some end_)
    (hc : truthyStr (getEntry a.localStorage sid).expires_at = some e)
    (hs : v.session = some sess) (hv : truthyStr sess.expires_at = some e)
    (hle : end_ ≤ now) :
    (App.updateTimer parseDate sid now page a).exitTimeoutRef = some a.nextTimerId ∧
    (App.updateTimer parseDate sid now page a).nextTimerId = a.nextTimerId + 1 ∧
    (a.nextTimerId, sid) ∈ (App.updateTimer parseDate sid now page a).timeouts ∧
    (∀ h, a.exitTimeoutRef = some h → h < a.nextTimerId →
      ∀ t ∈ (App.updateTimer parseDate sid now page a).timeouts, t.1 ≠ h) ∧
    ((∀ t ∈ a.timeouts, a.exitTimeoutRef = some t.1) →
      (App.updateTimer parseDate sid now page a).timeouts = [(a.nextTimerId, sid)]) ∧
    (CandidateView.tick parseDate now page v).exitTimeoutRef = some v.nextTimerId ∧
    (∀ h, v.exitTimeoutRef = some h → h < v.nextTimerId →
      h ∉ (CandidateView.tick parseDate now page v).timeouts) ∧
    ((∀ t ∈ v.timeouts, v.exitTimeoutRef = some t) →
      (CandidateView.tick parseDate now page v).timeouts = [v.nextTimerId]) := by
  have h0 : diffOf (parseDate (expiresAtUTC e)) now = some 0 := by
    rw [hparse]
    exact (diffOf_eq_zero_iff end_ now).mpr hle
  obtain ⟨m1, m2, m3⟩ := App.updateTimer_expired parseDate sid now page a e ht hp hc h0
  obtain ⟨c1, c2, -⟩ := View.tick_expired parseDate now page v sess e hs hv h0
  refine ⟨m1, m3, ?_, ?_, ?_, c1, ?_, ?_⟩
  · rw [m2]
    exact List.mem_cons_self _ _
  · intro h hh hlt t hmem
    rw [m2, hh] at hmem
    rcases List.mem_cons.mp hmem with rfl | hmem
    · exact Nat.ne_of_gt hlt
    · simpa using (List.mem_filter.mp hmem).2
  · intro hinv
    rw [m2]
    cases hx : a.exitTimeoutRef with
    | none =>
      have hnil : a.timeouts = [] := by
        apply List.eq_nil_iff_forall_not_mem.mpr
        intro t hmem
        have := hinv t hmem
        rw [hx] at this
        exact absurd this (by simp)
      simp [hnil]
    | some h =>
      have hnil : (a.timeouts.filter fun t => decide (t.1 ≠ h)) = [] := by
        apply List.filter_eq_nil_iff.mpr
        intro t hmem
        have := hinv t hmem
        rw [hx] at this
        simp only [Option.some.injEq] at this
        simp [this]
      show (a.nextTimerId, sid) :: (a.timeouts.filter fun t => decide (t.1 ≠ h)) = _
      rw [hnil]
  · intro h hh hlt hmem
    rw [CandidateView.tick, c2, hh] at hmem
    rcases List.mem_cons.mp hmem with heq | hmem
    · omega
    · simpa using (List.mem_filter.mp hmem).2
  · intro hinv
    rw [CandidateView.tick, c2]
    cases hx : v.exitTimeoutRef with
    | none =>
      have hnil : v.timeouts = [] := by
        apply List.eq_nil_iff_forall_not_mem.mpr
        intro t hmem
        have := hinv t hmem
        rw [hx] at this
        exact absurd this (by simp)
      simp [hnil]
    | some h =>
      have hnil : (v.timeouts.filter fun t => decide (t ≠ h)) = [] := by
        apply List.filter_eq_nil_iff.mpr
        intro t hmem
        have := hinv t hmem
        rw [hx] at this
        simp only [Option.some.injEq] at this
        simp [this]
      show v.nextTimerId :: (v.timeouts.filter fun t => decide (t ≠ h)) = _
      rw [hnil]

/-- Witness of the amended C14: five seconds after the expiry `2025-01-01T10:30:00Z`, with
the exit timeout 7 pending in both views. -/
theorem expired_tick_replaces_exit_timer_witness :
    (App.updateTimer sampleDate 1 1735727405000 fullPage
      { App.bound "2025-01-01T10:30:00Z" with
        exitTimeoutRef := some 7, timeouts := [(7, 1)], nextTimerId := 8 }).timeouts =
      [(8, 1)] ∧
    (CandidateView.tick sampleDate 1735727405000 fullPage
      { View.bound "2025-01-01T10:30:00Z" with
        exitTimeoutRef := some 7, timeouts := [7], nextTimerId := 8 }).timeouts = [8] :=
  ⟨(expired_tick_replaces_exit_timer sampleDate "2025-01-01T10:30:00Z" 1735727400000
      1735727405000 1 fullPage
      { App.bound "2025-01-01T10:30:00Z" with
        exitTimeoutRef := some 7, timeouts := [(7, 1)], nextTimerId := 8 }
      { View.bound "2025-01-01T10:30:00Z" with
        exitTimeoutRef := some 7, timeouts := [7], nextTimerId := 8 }
      { session_id := 1, expires_at := some "2025-01-01T10:30:00Z", created_at := none }
      rfl rfl (by decide) (by decide) rfl (by decide) (by decide)).2.2.2.2.1 (by decide),
   (expired_tick_replaces_exit_timer sampleDate "2025-01-01T10:30:00Z" 1735727400000
      1735727405000 1 fullPage
      { App.bound "2025-01-01T10:30:00Z" with
        exitTimeoutRef := some 7, timeouts := [(7, 1)], nextTimerId := 8 }
      { View.bound "2025-01-01T10:30:00Z" with
        exitTimeoutRef := some 7, timeouts := [7], nextTimerId := 8 }
      { session_id := 1, expires_at := some "2025-01-01T10:30:00Z", created_at := none }
      rfl rfl (by decide) (by decide) rfl (by decide) (by decide)).2.2.2.2.2.2.2
      (by decide)⟩

/-! ## The cleanup of the session timer effect -/

/-- C15, the code at the failing input: a main view is bound five seconds after the expiry
`2025-01-01T10:30:00Z`; the effect's first tick sets the exit timeout 1 and the effect starts
the repeating tick 2.  The cleanup clears the repeating tick and the audio interval but not
the exit timeout: it is still pending, and when the browser runs it one second later it
calls `handleExit`.  The cleanup of the candidate view does clear its timeout.  For every
state the cleanup of the main view leaves `timeouts` and `exitTimeoutRef` as they are. -/
theorem main_cleanup_keeps_exit_timeout :
    (App.timerEffect sampleDate 1735727405000 fullPage
      (App.bound "2025-01-01T10:30:00Z")).2 = some 2 ∧
    (App.timerEffect sampleDate 1735727405000 fullPage
      (App.bound "2025-01-01T10:30:00Z")).1.timeouts = [(1, 1)] ∧
    (App.timerEffect sampleDate 1735727405000 fullPage
      (App.bound "2025-01-01T10:30:00Z")).1.intervals = [2] ∧
    (App.timerCleanup 2 (App.timerEffect sampleDate 1735727405000 fullPage
      (App.bound "2025-01-01T10:30:00Z")).1).intervals = [] ∧
    (App.timerCleanup 2 (App.timerEffect sampleDate 1735727405000 fullPage
      (App.bound "2025-01-01T10:30:00Z")).1).timeouts = [(1, 1)] ∧
    (App.fireTimeout sampleDate 1735727406000 1
      (App.timerCleanup 2 (App.timerEffect sampleDate 1735727405000 fullPage
        (App.bound "2025-01-01T10:30:00Z")).1)).effects = [Effect.exit] ∧
    (View.timerEffect sampleDate 1735727405000 fullPage
      (View.bound "2025-01-01T10:30:00Z")).1.timeouts = [1] ∧
    (View.timerCleanup 2 (View.timerEffect sampleDate 1735727405000 fullPage
      (View.bound "2025-01-01T10:30:00Z")).1).timeouts = [] ∧
    (∀ (interval : Nat) (a : App),
      (App.timerCleanup interval a).timeouts = a.timeouts ∧
      (App.timerCleanup interval a).exitTimeoutRef = a.exitTimeoutRef ∧
      (App.timerCleanup interval a).tickIntervalRef = none ∧
      interval ∉ (App.timerCleanup interval a).intervals) := by
  refine ⟨by decide, by decide, by decide, by decide, by decide, by decide, by decide,
    by decide, ?_⟩
  intro interval a
  cases hr : a.tickIntervalRef with
  | none =>
    have h : App.timerCleanup interval a = App.clearInterval interval a := by
      simp only [App.timerCleanup, App.clearInterval, hr]
    rw [h]
    refine ⟨rfl, rfl, hr, ?_⟩
    simp [App.clearInterval]
  | some h0 =>
    have h : App.timerCleanup interval a =
        { App.clearInterval h0 (App.clearInterval interval a) with tickIntervalRef := none } := by
      simp only [App.timerCleanup, App.clearInterval, hr]
    rw [h]
    refine ⟨rfl, rfl, rfl, ?_⟩
    simp [App.clearInterval]

/-! ## The clock and the thresholds -/

/-- C27: for every remaining time `d ≥ 0` in milliseconds, the hours, minutes and seconds
the views display satisfy `hours * 3600 + minutes * 60 + seconds = floor(d / 1000)`, with
minutes and seconds in `0 … 59`; they are the three numbers of the clock text. -/
theorem clock_decomposition_exact (d : Int) (hd : 0 ≤ d) :
    hoursOf d * 3600 + minutesOf d * 60 + secondsOf d = d / 1000 ∧
    0 ≤ hoursOf d ∧
    0 ≤ minutesOf d ∧ minutesOf d < 60 ∧
    0 ≤ secondsOf d ∧ secondsOf d < 60 ∧
    clockText (some d) = TimerText.clock (hoursOf d) (minutesOf d) (secondsOf d) := by
  have h1 : Int.tmod d (1000 * 60 * 60) = d % (1000 * 60 * 60) :=
    Int.tmod_eq_emod hd (by norm_num)
  have h2 : Int.tmod d (1000 * 60) = d % (1000 * 60) := Int.tmod_eq_emod hd (by norm_num)
  refine ⟨?_, ?_, ?_, ?_, ?_, ?_, rfl⟩ <;>
    simp only [hoursOf, minutesOf, secondsOf, h1, h2] <;> omega

/-- Witness of C27: 1 h 2 min 3 s and 456 ms remain. -/
theorem clock_decomposition_exact_witness :
    hoursOf 3723456 * 3600 + minutesOf 3723456 * 60 + secondsOf 3723456 = 3723456 / 1000 ∧
    0 ≤ hoursOf 3723456 ∧
    0 ≤ minutesOf 3723456 ∧ minutesOf 3723456 < 60 ∧
    0 ≤ secondsOf 3723456 ∧ secondsOf 3723456 < 60 ∧
    clockText (some 3723456) =
      TimerText.clock (hoursOf 3723456) (minutesOf 3723456) (secondsOf 3723456) :=
  clock_decomposition_exact 3723456 (by decide)

/-! ## Selecting merge requests -/

/-- C30: for a selection without duplicates, `toggleMR` flips the membership of the id and
of no other: the new selection holds the id exactly when the old one did not, every other
id keeps its membership and the other ids keep their order, the new selection has no
duplicates, and toggling twice gives a selection with the ids of the original. -/
theorem toggleMR_flips_one {α : Type} [DecidableEq α] (selected : List α) (mrId : α)
    (hnd : selected.Nodup) :
    (mrId ∈ toggleMR selected mrId ↔ mrId ∉ selected) ∧
    (∀ x, x ≠ mrId → (x ∈ toggleMR selected mrId ↔ x ∈ selected)) ∧
    ((toggleMR selected mrId).filter fun x => decide (x ≠ mrId)) =
      (selected.filter fun x => decide (x ≠ mrId)) ∧
    (toggleMR selected mrId).Nodup ∧
    (∀ x, x ∈ toggleMR (toggleMR selected mrId) mrId ↔ x ∈ selected) := by
  by_cases hin : mrId ∈ selected
  · have hc : selected.contains mrId = true := by simpa using hin
    have ht : toggleMR selected mrId = selected.filter fun x => decide (x ≠ mrId) := by
      simp only [toggleMR, hc, if_true]
    have hout : mrId ∉ selected.filter fun x => decide (x ≠ mrId) := by
      simp [List.mem_filter]
    have hc2 : (selected.filter fun x => decide (x ≠ mrId)).contains mrId = false := by
      simp
    have ht2 : toggleMR (toggleMR selected mrId) mrId =
        (selected.filter fun x => decide (x ≠ mrId)) ++ [mrId] := by
      rw [ht]
      simp only [toggleMR, hc2, Bool.false_eq_true, if_false]
    refine ⟨?_, ?_, ?_, ?_, ?_⟩
    · rw [ht]
      exact ⟨fun h => absurd h hout, fun h => absurd hin h⟩
    · intro x hx
      rw [ht]
      simp [List.mem_filter, hx]
    · rw [ht, List.filter_filter]
      simp
    · rw [ht]
      exact hnd.filter _
    · intro x
      rw [ht2]
      by_cases hx : x = mrId
      · subst hx
        simp [hin]
      · simp [List.mem_filter, hx]
  · have hc : selected.contains mrId = false := by simpa using hin
    have ht : toggleMR selected mrId = selected ++ [mrId] := by
      simp only [toggleMR, hc, Bool.false_eq_true, if_false]
    have hc2 : (selected ++ [mrId]).contains mrId = true := by simp
    have ht2 : toggleMR (toggleMR selected mrId) mrId =
        (selected ++ [mrId]).filter fun x => decide (x ≠ mrId) := by
      rw [ht]
      simp only [toggleMR, hc2, if_true]
    refine ⟨?_, ?_, ?_, ?_, ?_⟩
    · rw [ht]
      simp [hin]
    · intro x hx
      rw [ht]
      simp [hx]
    · rw [ht]
      simp [List.filter_append]
    · rw [ht]
      exact List.Nodup.append hnd (List.nodup_singleton _) (by simpa using hin)
    · intro x
      rw [ht2]
      by_cases hx : x = mrId
      · subst hx
        simp [hin]
      · simp [List.mem_filter, hx]

/-- Witness of C30: the selection `[4, 7, 9]` and the id `7`. -/
theorem toggleMR_flips_one_witness :
    toggleMR [4, 7, 9] 7 = [4, 9] ∧ toggleMR (toggleMR [4, 7, 9] 7) 7 = [4, 9, 7] ∧
    ((7 : Nat) ∈ toggleMR [4, 7, 9] 7 ↔ (7 : Nat) ∉ [4, 7, 9]) :=
  ⟨by decide, by decide, (toggleMR_flips_one [4, 7, 9] 7 (by decide)).1⟩

/-! ## Line ranges -/

theorem digitChar_spec (d : Nat) (h : d < 10) :
    (Nat.digitChar d).isDigit = true ∧ (Nat.digitChar d).toNat - 48 = d := by
  interval_cases d <;> exact ⟨by decide, by decide⟩

theorem decimalAux_spec (fuel : Nat) :
    ∀ n, n < fuel →
      (decimalAux fuel n).all Char.isDigit = true ∧
      (decimalAux fuel n).foldl (fun k c => 10 * k + (c.toNat - 48)) 0 = n := by
  induction fuel with
  | zero => intro n h; omega
  | succ fuel ih =>
    intro n h
    by_cases h10 : n < 10
    · obtain ⟨d1, d2⟩ := digitChar_spec n h10
      simp only [decimalAux, h10, if_true, List.all_cons, List.all_nil, Bool.and_true,
        List.foldl_cons, List.foldl_nil, Nat.mul_zero, Nat.zero_add]
      exact ⟨d1, d2⟩
    · obtain ⟨i1, i2⟩ := ih (n / 10) (by omega)
      obtain ⟨d1, d2⟩ := digitChar_spec (n % 10) (Nat.mod_lt n (by norm_num))
      simp only [decimalAux, h10, if_false, List.all_append, List.all_cons, List.all_nil,
        Bool.and_true, List.foldl_append, List.foldl_cons, List.foldl_nil, i1, i2, d1, d2]
      exact ⟨trivial, by omega⟩

theorem numberOf_decimal (n : Nat) : numberOf (decimal n).data = some n := by
  obtain ⟨h1, h2⟩ := decimalAux_spec (n + 1) n (Nat.lt_succ_self n)
  simp only [numberOf, decimal, h1, if_true, h2]

theorem dash_not_mem_decimal (n : Nat) : '-' ∉ (decimal n).data := by
  obtain ⟨h1, -⟩ := decimalAux_spec (n + 1) n (Nat.lt_succ_self n)
  intro hmem
  have := List.all_eq_true.mp h1 _ hmem
  exact absurd this (by decide)

theorem splitOnDash_of_not_mem (l : List Char) (h : '-' ∉ l) : splitOnDash l = [l] := by
  induction l with
  | nil => rfl
  | cons c cs ih =>
    have hc : c ≠ '-' := fun hc => h (by simp [hc])
    have hcs : '-' ∉ cs := fun hm => h (List.mem_cons_of_mem c hm)
    simp only [splitOnDash, hc, if_false, ih hcs]

theorem splitOnDash_append_dash (l r : List Char) (h : '-' ∉ l) :
    splitOnDash (l ++ '-' :: r) = l :: splitOnDash r := by
  induction l with
  | nil => simp [splitOnDash]
  | cons c cs ih =>
    have hc : c ≠ '-' := fun hc => h (by simp [hc])
    have hcs : '-' ∉ cs := fun hm => h (List.mem_cons_of_mem c hm)
    have ih2 := ih hcs
    show splitOnDash (c :: (cs ++ '-' :: r)) = (c :: cs) :: splitOnDash r
    simp only [splitOnDash, hc, if_false, ih2]

theorem splitNumbers_lineRangeOf (n : Nat) : splitNumbers (lineRangeOf n) = [some n, some n] := by
  have hd : (lineRangeOf n).data = (decimal n).data ++ '-' :: (decimal n).data := by
    simp [lineRangeOf]
  simp only [splitNumbers, hd, splitOnDash_append_dash _ _ (dash_not_mem_decimal n),
    splitOnDash_of_not_mem _ (dash_not_mem_decimal n), List.map_cons, List.map_nil,
    numberOf_decimal]

theorem splitNumbers_decimal (n : Nat) : splitNumbers (decimal n) = [some n] := by
  simp only [splitNumbers, splitOnDash_of_not_mem _ (dash_not_mem_decimal n), List.map_cons,
    List.map_nil, numberOf_decimal]

/-- C29: clicking line `n` writes the range `n-n` to the draft; splitting it on the dash and
converting to numbers gives start `n` and end `n`, so the decoration covers line `n` and
`jumpToLine` reveals line `n`; a range `n` without a dash gives start `n` and no end, and
the end of the decoration defaults to `n`. -/
theorem line_range_round_trip (n : Nat) (a : App) (v : View) (sess : Session)
    (hs : v.session = some sess) (hr : truthyStr sess.candidate_ready_at = none) :
    (App.clickLine 2 n a).newComment.line_range = decimal n ++ "-" ++ decimal n ∧
    (App.clickLine 2 n a).selectedLine = some n ∧
    (CandidateView.clickLine 2 n v).newComment.line_range = decimal n ++ "-" ++ decimal n ∧
    splitNumbers (App.clickLine 2 n a).newComment.line_range = [some n, some n] ∧
    decorationRange (App.clickLine 2 n a).newComment.line_range = (some n, 1, some n, 1) ∧
    jumpToLine (App.clickLine 2 n a).newComment.line_range = some n ∧
    splitNumbers (decimal n) = [some n] ∧
    decorationRange (decimal n) = (some n, 1, some n, 1) ∧
    jumpToLine (decimal n) = some n := by
  have hclick : (App.clickLine 2 n a).newComment.line_range = lineRangeOf n := by
    simp [App.clickLine]
  have hcand : (CandidateView.clickLine 2 n v).newComment.line_range = lineRangeOf n := by
    simp [CandidateView.clickLine, hs, hr]
  rw [hclick, hcand]
  refine ⟨rfl, by simp [App.clickLine], rfl, splitNumbers_lineRangeOf n, ?_, ?_,
    splitNumbers_decimal n, ?_, ?_⟩
  · simp only [decorationRange, splitNumbers_lineRangeOf]
  · simp only [jumpToLine, splitNumbers_lineRangeOf]
  · simp only [decorationRange, splitNumbers_decimal]
  · simp only [jumpToLine, splitNumbers_decimal]

/-- Witness of C29: line 120, in views that show a session not marked ready. -/
theorem line_range_round_trip_witness :
    (App.clickLine 2 120 (App.bound "2025-01-01T10:30:00Z")).newComment.line_range =
      "120-120" ∧
    decorationRange (App.clickLine 2 120
      (App.bound "2025-01-01T10:30:00Z")).newComment.line_range = (some 120, 1, some 120, 1) ∧
    decorationRange (decimal 120) = (some 120, 1, some 120, 1) :=
  ⟨(line_range_round_trip 120 (App.bound "2025-01-01T10:30:00Z")
      (View.bound "2025-01-01T10:30:00Z")
      { session_id := 1, expires_at := some "2025-01-01T10:30:00Z", created_at := none }
      rfl (by decide)).1.trans (by decide),
   (line_range_round_trip 120 (App.bound "2025-01-01T10:30:00Z")
      (View.bound "2025-01-01T10:30:00Z")
      { session_id := 1, expires_at := some "2025-01-01T10:30:00Z", created_at := none }
      rfl (by decide)).2.2.2.2.1,
   (line_range_round_trip 120 (App.bound "2025-01-01T10:30:00Z")
      (View.bound "2025-01-01T10:30:00Z")
      { session_id := 1, expires_at := some "2025-01-01T10:30:00Z", created_at := none }
      rfl (by decide)).2.2.2.2.2.2.2.1⟩

/-! ## Validation and failures of the data callbacks -/

/-- C21, counterexample: with the name of a space and a tab, the state `createSession`
leaves is the state before the call: nothing in it indicates an error. -/
theorem blank_name_shows_no_error :
    ReviewerDashboard.createSession "http://localhost" (CreateResponse.ok 5 "tok")
        { Dashboard.init with
          showCreateForm := true
          newSession := { Dashboard.init.newSession with candidate_name := " \t" } } =
      { Dashboard.init with
        showCreateForm := true
        newSession := { Dashboard.init.newSession with candidate_name := " \t" } } := by
  have hb : trim " \t" = "" := by decide
  simp only [ReviewerDashboard.createSession, hb, if_true]

/-- C21, amended: with a blank candidate name `createSession` of the dashboard returns
silently: the view state after the call is the state before it, with no error indication;
what the user sees is the create button, disabled for such a name before and after the
call. -/
theorem blank_name_is_silent (origin : String) (res : CreateResponse) (d : Dashboard)
    (hblank : ∀ c ∈ d.newSession.candidate_name.data, isWhiteSpace c = true) :
    ReviewerDashboard.createSession origin res d = d ∧
    ReviewerDashboard.createDisabled d = true ∧
    ReviewerDashboard.createDisabled (ReviewerDashboard.createSession origin res d) = true := by
  have hb : trim d.newSession.candidate_name = "" := (trim_eq_empty_iff _).mpr hblank
  have h : ReviewerDashboard.createSession origin res d = d := by
    simp only [ReviewerDashboard.createSession, hb, if_true]
  have hdis : ReviewerDashboard.createDisabled d = true := by
    simp [ReviewerDashboard.createDisabled, hb]
  rw [h]
  exact ⟨rfl, hdis, hdis⟩

/-- Witness of the amended C21: the open create form with a name of a space and a tab. -/
theorem blank_name_is_silent_witness :
    ReviewerDashboard.createSession "http://localhost" CreateResponse.failed
        { Dashboard.init with
          showCreateForm := true
          newSession := { Dashboard.init.newSession with candidate_name := " \t" } } =
      { Dashboard.init with
        showCreateForm := true
        newSession := { Dashboard.init.newSession with candidate_name := " \t" } } ∧
    ReviewerDashboard.createDisabled
      { Dashboard.init with
        showCreateForm := true
        newSession := { Dashboard.init.newSession with candidate_name := " \t" } } = true ∧
    ReviewerDashboard.createDisabled
      (ReviewerDashboard.createSession "http://localhost" CreateResponse.failed
        { Dashboard.init with
          showCreateForm := true
          newSession := { Dashboard.init.newSession with candidate_name := " \t" } }) =
      true :=
  blank_name_is_silent "http://localhost" CreateResponse.failed
    { Dashboard.init with
      showCreateForm := true
      newSession := { Dashboard.init.newSession with candidate_name := " \t" } }
    (by decide)

/-- C25, counterexample: in the candidate view and in the main view, the state after a
session request that fails with HTTP 404 is the state after one that fails without any
answer. -/
theorem not_found_same_as_network_failure :
    CandidateView.loadSession
        { session := SessionResponse.failed (Failure.http 404), diff := none, report := none }
        View.init =
      CandidateView.loadSession
        { session := SessionResponse.failed Failure.network, diff := none, report := none }
        View.init ∧
    App.loadSession 1
        { session := SessionResponse.failed (Failure.http 404), diff := none, report := none }
        { App.init with sessionId := some 1 } =
      App.loadSession 1
        { session := SessionResponse.failed Failure.network, diff := none, report := none }
        { App.init with sessionId := some 1 } :=
  ⟨rfl, rfl⟩

/-- C25, amended: `loadSession` does not look at the reason of a failure: whatever it is,
HTTP 404 or another, the candidate view ends with the same state, the one before the call
with the request logged, the error status message set and the loading flag reset; the same
holds in the main view. -/
theorem loadSession_ignores_failure_reason (f1 f2 : Failure) (diff report : Option String)
    (id : Nat) (v : View) (a : App) :
    CandidateView.loadSession
        { session := SessionResponse.failed f1, diff := diff, report := report } v =
      CandidateView.loadSession
        { session := SessionResponse.failed f2, diff := diff, report := report } v ∧
    CandidateView.loadSession
        { session := SessionResponse.failed f1, diff := diff, report := report } v =
      { v with
        isLoading := false
        requests := v.requests ++ [ApiCall.session]
        status := "Ошибка загрузки сессии. Проверьте токен." } ∧
    App.loadSession id
        { session := SessionResponse.failed f1, diff := diff, report := report } a =
      App.loadSession id
        { session := SessionResponse.failed f2, diff := diff, report := report } a ∧
    App.loadSession id
        { session := SessionResponse.failed f1, diff := diff, report := report } a =
      { a with
        isLoading := false
        requests := a.requests ++ [ApiCall.diff, ApiCall.session]
        status := "Ошибка загрузки сессии" } :=
  ⟨rfl, rfl, rfl, rfl⟩

/-! ## Adding a comment -/

theorem commentRequestCount_append (l1 l2 : List ApiCall) :
    commentRequestCount (l1 ++ l2) = commentRequestCount l1 + commentRequestCount l2 := by
  simp [commentRequestCount, List.countP_append]

theorem CandidateView.loadSession_keeps_draft (r : LoadResponses) (v : View) :
    (CandidateView.loadSession r v).newComment = v.newComment ∧
    (CandidateView.loadSession r v).selectedLine = v.selectedLine ∧
    commentRequestCount (CandidateView.loadSession r v).requests =
      commentRequestCount v.requests ∧
    v.requests <+: (CandidateView.loadSession r v).requests := by
  cases hsess : r.session with
  | failed f =>
    simp [CandidateView.loadSession, hsess, commentRequestCount, ApiCall.isAddComment,
      List.countP_append]
  | ok data =>
    cases hg : data.giteaEnabled <;> cases he : truthyStr data.expires_at <;>
      simp [CandidateView.loadSession, hsess, hg, he, commentRequestCount,
        ApiCall.isAddComment, List.countP_append]

theorem App.loadSession_frame (id : Nat) (r : LoadResponses) (a : App) :
    (App.loadSession id r a).newComment = a.newComment ∧
    (App.loadSession id r a).selectedLine = a.selectedLine ∧
    commentRequestCount (App.loadSession id r a).requests = commentRequestCount a.requests ∧
    a.requests <+: (App.loadSession id r a).requests := by
  cases hsess : r.session with
  | failed f =>
    simp [App.loadSession, hsess, commentRequestCount, ApiCall.isAddComment,
      List.countP_append]
  | ok data =>
    cases hc : truthyStr data.created_at <;> cases he : truthyStr data.expires_at <;>
      cases hrep : r.report <;>
      simp [App.loadSession, hsess, hc, he, hrep, commentRequestCount,
        ApiCall.isAddComment, List.countP_append]

theorem commentRequestCount_addComment (l : List ApiCall) (c : Comment) :
    commentRequestCount (l ++ [ApiCall.addComment c]) = commentRequestCount l + 1 := by
  simp [commentRequestCount, ApiCall.isAddComment, List.countP_append]

theorem CandidateView.addComment_valid (posted : CommentResponse) (r : LoadResponses)
    (v : View) (hvalid : ¬ (trim v.newComment.text = "" ∨ v.newComment.line_range = "")) :
    commentRequestCount (CandidateView.addComment posted r v).requests =
      commentRequestCount v.requests + 1 ∧
    (v.requests ++ [ApiCall.addComment v.newComment]) <+:
      (CandidateView.addComment posted r v).requests ∧
    (CandidateView.addComment posted r v).newComment =
      (match posted with
       | CommentResponse.failed => v.newComment
       | CommentResponse.ok => { v.newComment with text := "", line_range := "" }) ∧
    (CandidateView.addComment posted r v).selectedLine =
      (match posted with
       | CommentResponse.failed => v.selectedLine
       | CommentResponse.ok => none) := by
  have hcond : (decide (trim v.newComment.text = "") || decide (v.newComment.line_range = "")) =
      false := by
    simp only [not_or] at hvalid
    simp [hvalid.1, hvalid.2]
  cases posted with
  | failed =>
    simp [CandidateView.addComment, hcond, commentRequestCount_addComment]
  | ok =>
    simp only [CandidateView.addComment, hcond, Bool.false_eq_true, if_false]
    obtain ⟨f1, f2, f3, f4⟩ := CandidateView.loadSession_keeps_draft r
      { v with
        requests := v.requests ++ [ApiCall.addComment v.newComment]
        selectedLine := none
        newComment := { v.newComment with text := "", line_range := "" } }
    refine ⟨?_, f4, f1, f2⟩
    exact f3.trans (commentRequestCount_addComment _ _)

theorem App.addCommentClick_spec (sid : Nat) (posted : CommentResponse) (r : LoadResponses)
    (a : App) :
    commentRequestCount (App.addCommentClick sid posted r a).requests =
      commentRequestCount a.requests + 1 ∧
    (a.requests ++ [ApiCall.addComment a.newComment]) <+:
      (App.addCommentClick sid posted r a).requests ∧
    (App.addCommentClick sid posted r a).newComment =
      (match posted with
       | CommentResponse.failed => a.newComment
       | CommentResponse.ok => { a.newComment with text := "", line_range := "" }) ∧
    (App.addCommentClick sid posted r a).selectedLine =
      (match posted with
       | CommentResponse.failed => a.selectedLine
       | CommentResponse.ok => none) := by
  cases posted with
  | failed =>
    simp [App.addCommentClick, commentRequestCount_addComment]
  | ok =>
    simp only [App.addCommentClick]
    obtain ⟨f1, f2, f3, f4⟩ := App.loadSession_frame sid r
      { a with
        requests := a.requests ++ [ApiCall.addComment a.newComment]
        selectedLine := none
        newComment := { a.newComment with text := "", line_range := "" } }
    refine ⟨?_, f4, f1, f2⟩
    exact f3.trans (commentRequestCount_addComment _ _)

/-- C22: `addComment` of the candidate view rejects the draft exactly when its text is blank
after trimming or its `line_range` is empty.  A rejected draft sends no request: the state is
the one before the call with the status message set, so the draft and the selected line are
unchanged.  Any other draft sends exactly one comment request, which carries the draft. -/
theorem candidate_addComment_rejects_iff (posted : CommentResponse) (r : LoadResponses)
    (v : View) :
    ((trim v.newComment.text = "" ∨ v.newComment.line_range = "") →
      CandidateView.addComment posted r v = { v with status := "Заполните все поля" } ∧
      (CandidateView.addComment posted r v).requests = v.requests ∧
      (CandidateView.addComment posted r v).newComment = v.newComment ∧
      (CandidateView.addComment posted r v).selectedLine = v.selectedLine ∧
      (CandidateView.addComment posted r v).status = "Заполните все поля") ∧
    (¬ (trim v.newComment.text = "" ∨ v.newComment.line_range = "") →
      commentRequestCount (CandidateView.addComment posted r v).requests =
        commentRequestCount v.requests + 1 ∧
      (v.requests ++ [ApiCall.addComment v.newComment]) <+:
        (CandidateView.addComment posted r v).requests) ∧
    (commentRequestCount (CandidateView.addComment posted r v).requests =
        commentRequestCount v.requests ↔
      (trim v.newComment.text = "" ∨ v.newComment.line_range = "")) := by
  have hrej : (trim v.newComment.text = "" ∨ v.newComment.line_range = "") →
      CandidateView.addComment posted r v = { v with status := "Заполните все поля" } := by
    intro h
    have hcond : (decide (trim v.newComment.text = "") ||
        decide (v.newComment.line_range = "")) = true := by
      rcases h with h | h <;> simp [h]
    simp only [CandidateView.addComment, hcond, if_true]
  refine ⟨?_, ?_, ?_⟩
  · intro h
    rw [hrej h]
    exact ⟨rfl, rfl, rfl, rfl, rfl⟩
  · intro h
    obtain ⟨c1, c2, -, -⟩ := CandidateView.addComment_valid posted r v h
    exact ⟨c1, c2⟩
  · constructor
    · intro heq
      by_contra h
      obtain ⟨c1, -, -, -⟩ := CandidateView.addComment_valid posted r v h
      omega
    · intro h
      rw [hrej h]

/-- Witness of C22: a draft for line 5 with a text of two spaces is rejected, and the same
draft with a text is sent once. -/
theorem candidate_addComment_rejects_iff_witness :
    (CandidateView.addComment CommentResponse.ok
      { session := SessionResponse.failed Failure.network, diff := none, report := none }
      { View.bound "2025-01-01T10:30:00Z" with
        selectedLine := some 5
        newComment := { View.init.newComment with line_range := "5-5", text := "  " }
      }).requests = [] ∧
    commentRequestCount (CandidateView.addComment CommentResponse.ok
      { session := SessionResponse.failed Failure.network, diff := none, report := none }
      { View.bound "2025-01-01T10:30:00Z" with
        selectedLine := some 5
        newComment := { View.init.newComment with line_range := "5-5", text := "off by one" }
      }).requests = 0 + 1 :=
  ⟨((candidate_addComment_rejects_iff CommentResponse.ok
      { session := SessionResponse.failed Failure.network, diff := none, report := none }
      { View.bound "2025-01-01T10:30:00Z" with
        selectedLine := some 5
        newComment := { View.init.newComment with line_range := "5-5", text := "  " }
      }).1 (Or.inl (by decide))).2.1,
   ((candidate_addComment_rejects_iff CommentResponse.ok
      { session := SessionResponse.failed Failure.network, diff := none, report := none }
      { View.bound "2025-01-01T10:30:00Z" with
        selectedLine := some 5
        newComment := { View.init.newComment with line_range := "5-5", text := "off by one" }
      }).2.1 (by decide)).1⟩

/-- C23, the code at the failing input: in the main view a click on line 5 opens the form
with the range `5-5` and an empty text; the handler of the add button sends the comment
request with that draft.  The handler has no test of the draft: every call sends one comment
request.  `addComment` of the candidate view rejects the same draft. -/
theorem main_view_posts_blank_comment :
    (App.clickLine 2 5 (App.bound "2025-01-01T10:30:00Z")).newComment =
      { file := "main.py", line_range := "5-5", type := "bug", severity := "medium",
        text := "" } ∧
    (App.addCommentClick 1 CommentResponse.ok
      { session := SessionResponse.failed Failure.network, diff := none, report := none }
      (App.clickLine 2 5 (App.bound "2025-01-01T10:30:00Z"))).requests =
      [ApiCall.addComment
          { file := "main.py", line_range := "5-5", type := "bug", severity := "medium",
            text := "" },
        ApiCall.diff, ApiCall.session] ∧
    (CandidateView.addComment CommentResponse.ok
      { session := SessionResponse.failed Failure.network, diff := none, report := none }
      (CandidateView.clickLine 2 5 (View.bound "2025-01-01T10:30:00Z"))).requests = [] ∧
    (∀ (sid : Nat) (posted : CommentResponse) (r : LoadResponses) (a : App),
      commentRequestCount (App.addCommentClick sid posted r a).requests =
        commentRequestCount a.requests + 1) := by
  refine ⟨by decide, by decide, by decide, ?_⟩
  intro sid posted r a
  exact (App.addCommentClick_spec sid posted r a).1

/-- C24: when the comment request fails, the draft (file, line range, type, severity, text)
and the selected line are what they were before the call, in the candidate view and in the
main view; when it succeeds, the text and the line range of the draft are reset to empty,
its file, type and severity are kept, and the selected line is cleared. -/
theorem failed_comment_keeps_draft (sid : Nat) (r : LoadResponses) (a : App) (v : View)
    (hvalid : ¬ (trim v.newComment.text = "" ∨ v.newComment.line_range = "")) :
    (CandidateView.addComment CommentResponse.failed r v).newComment = v.newComment ∧
    (CandidateView.addComment CommentResponse.failed r v).selectedLine = v.selectedLine ∧
    (CandidateView.addComment CommentResponse.ok r v).newComment =
      { file := v.newComment.file, line_range := "", type := v.newComment.type,
        severity := v.newComment.severity, text := "" } ∧
    (CandidateView.addComment CommentResponse.ok r v).selectedLine = none ∧
    (App.addCommentClick sid CommentResponse.failed r a).newComment = a.newComment ∧
    (App.addCommentClick sid CommentResponse.failed r a).selectedLine = a.selectedLine ∧
    (App.addCommentClick sid CommentResponse.ok r a).newComment =
      { file := a.newComment.file, line_range := "", type := a.newComment.type,
        severity := a.newComment.severity, text := "" } ∧
    (App.addCommentClick sid CommentResponse.ok r a).selectedLine = none := by
  obtain ⟨-, -, cf1, cf2⟩ := CandidateView.addComment_valid CommentResponse.failed r v hvalid
  obtain ⟨-, -, co1, co2⟩ := CandidateView.addComment_valid CommentResponse.ok r v hvalid
  obtain ⟨-, -, af1, af2⟩ := App.addCommentClick_spec sid CommentResponse.failed r a
  obtain ⟨-, -, ao1, ao2⟩ := App.addCommentClick_spec sid CommentResponse.ok r a
  exact ⟨cf1, cf2, co1, co2, af1, af2, ao1, ao2⟩

/-- Witness of C24: a draft for line 5 with a text, in both views. -/
theorem failed_comment_keeps_draft_witness :
    (CandidateView.addComment CommentResponse.failed
      { session := SessionResponse.failed Failure.network, diff := none, report := none }
      { View.bound "2025-01-01T10:30:00Z" with
        selectedLine := some 5
        newComment := { View.init.newComment with line_range := "5-5", text := "off by one" }
      }).newComment =
      { View.init.newComment with line_range := "5-5", text := "off by one" } ∧
    (CandidateView.addComment CommentResponse.failed
      { session := SessionResponse.failed Failure.network, diff := none, report := none }
      { View.bound "2025-01-01T10:30:00Z" with
        selectedLine := some 5
        newComment := { View.init.newComment with line_range := "5-5", text := "off by one" }
      }).selectedLine = some 5 :=
  ⟨(failed_comment_keeps_draft 1
      { session := SessionResponse.failed Failure.network, diff := none, report := none }
      (App.bound "2025-01-01T10:30:00Z")
      { View.bound "2025-01-01T10:30:00Z" with
        selectedLine := some 5
        newComment := { View.init.newComment with line_range := "5-5", text := "off by one" }
      } (by decide)).1,
   (failed_comment_keeps_draft 1
      { session := SessionResponse.failed Failure.network, diff := none, report := none }
      (App.bound "2025-01-01T10:30:00Z")
      { View.bound "2025-01-01T10:30:00Z" with
        selectedLine := some 5
        newComment := { View.init.newComment with line_range := "5-5", text := "off by one" }
      } (by decide)).2.1⟩

/-! ## Polling an evaluation job -/

theorem App.pollTick_dead (jobId : String) (iv : Nat) (r : PollAnswer) (a : App)
    (h : iv ∉ a.intervals) : App.pollTick jobId iv r a = a := by
  simp only [App.pollTick, h, if_false]

theorem App.polls_dead (jobId : String) (iv : Nat) (rs : List PollAnswer) (a : App)
    (h : iv ∉ a.intervals) : App.polls jobId iv rs a = a := by
  induction rs with
  | nil => rfl
  | cons r rest ih =>
    simp only [App.polls, App.pollTick_dead jobId iv r a h]
    exact ih

theorem App.pollTick_continue (jobId : String) (iv : Nat) (r : PollAnswer) (a : App)
    (h : iv ∈ a.intervals) (hr : r.isTerminal = false) :
    App.pollTick jobId iv r a = { a with requests := a.requests ++ [ApiCall.job jobId] } := by
  cases hj : r.job with
  | failed => simp only [App.pollTick, h, if_true, hj]
  | ok status =>
    have hs : ¬ status = "finished" := by
      simpa [PollAnswer.isTerminal, hj] using hr
    simp only [App.pollTick, h, if_true, hj, hs, if_false]

theorem App.pollTick_stop (jobId : String) (iv : Nat) (r : PollAnswer) (a : App)
    (h : iv ∈ a.intervals) (hr : r.isTerminal = true) :
    iv ∉ (App.pollTick jobId iv r a).intervals ∧
    (App.pollTick jobId iv r a).isEvaluating = false ∧
    (App.pollTick jobId iv r a).requests =
      a.requests ++ [ApiCall.job jobId] ++ [ApiCall.report] := by
  cases hj : r.job with
  | failed => simp [PollAnswer.isTerminal, hj] at hr
  | ok status =>
    have hs : status = "finished" := by
      simpa [PollAnswer.isTerminal, hj] using hr
    cases hrep : r.report <;>
      simp [App.pollTick, h, hj, hs, hrep, App.clearInterval]

theorem App.polls_append (jobId : String) (iv : Nat) (l1 l2 : List PollAnswer) (a : App) :
    App.polls jobId iv (l1 ++ l2) a = App.polls jobId iv l2 (App.polls jobId iv l1 a) := by
  induction l1 generalizing a with
  | nil => rfl
  | cons r rest ih => exact ih (App.pollTick jobId iv r a)

theorem App.polls_continue (jobId : String) (iv : Nat) (rs : List PollAnswer) :
    ∀ (a : App), iv ∈ a.intervals → (∀ x ∈ rs, x.isTerminal = false) →
      iv ∈ (App.polls jobId iv rs a).intervals ∧
      (App.polls jobId iv rs a).isEvaluating = a.isEvaluating ∧
      (App.polls jobId iv rs a).requests =
        a.requests ++ List.replicate rs.length (ApiCall.job jobId) := by
  induction rs with
  | nil => intro a h _; exact ⟨h, rfl, by simp [App.polls]⟩
  | cons r rest ih =>
    intro a h hall
    have hstep := App.pollTick_continue jobId iv r a h (hall r (List.mem_cons_self r rest))
    obtain ⟨i1, i2, i3⟩ := ih (App.pollTick jobId iv r a) (by rw [hstep]; exact h)
      (fun x hx => hall x (List.mem_cons_of_mem r hx))
    refine ⟨i1, ?_, ?_⟩
    · show (App.polls jobId iv rest (App.pollTick jobId iv r a)).isEvaluating = _
      rw [i2, hstep]
    · show (App.polls jobId iv rest (App.pollTick jobId iv r a)).requests = _
      rw [i3, hstep]
      simp [List.replicate_succ]

/-- C26: the polling of a job stops at the first answer whose status is the terminal one,
`finished`: while the answers are failed requests or carry another status, the interval stays
live, every firing sends one job request and the evaluating flag is untouched; the first
terminal answer clears the interval and resets the flag; after it no firing happens, whatever
the later answers are. -/
theorem pollJob_stops_at_first_terminal (jobId : String) (iv : Nat)
    (pre post : List PollAnswer) (r : PollAnswer) (a : App)
    (hlive : iv ∈ a.intervals) (hpre : ∀ x ∈ pre, x.isTerminal = false)
    (hr : r.isTerminal = true) :
    iv ∈ (App.polls jobId iv pre a).intervals ∧
    (App.polls jobId iv pre a).isEvaluating = a.isEvaluating ∧
    (App.polls jobId iv pre a).requests =
      a.requests ++ List.replicate pre.length (ApiCall.job jobId) ∧
    iv ∉ (App.polls jobId iv (pre ++ [r]) a).intervals ∧
    (App.polls jobId iv (pre ++ [r]) a).isEvaluating = false ∧
    App.polls jobId iv (pre ++ r :: post) a = App.polls jobId iv (pre ++ [r]) a := by
  obtain ⟨p1, p2, p3⟩ := App.polls_continue jobId iv pre a hlive hpre
  obtain ⟨s1, s2, -⟩ := App.pollTick_stop jobId iv r (App.polls jobId iv pre a) p1 hr
  have hstep : App.polls jobId iv (pre ++ [r]) a =
      App.pollTick jobId iv r (App.polls jobId iv pre a) := by
    rw [App.polls_append]; rfl
  refine ⟨p1, p2, p3, ?_, ?_, ?_⟩
  · rw [hstep]; exact s1
  · rw [hstep]; exact s2
  · have : App.polls jobId iv (pre ++ r :: post) a =
        App.polls jobId iv post (App.pollTick jobId iv r (App.polls jobId iv pre a)) := by
      rw [App.polls_append]; rfl
    rw [this, hstep]
    exact App.polls_dead jobId iv post _ s1

/-- Witness of C26: `pollJob` starts the interval; a failed request and a `queued` answer
come first, then `finished`, then two more answers. -/
theorem pollJob_stops_at_first_terminal_witness :
    (App.pollJob (App.bound "2025-01-01T10:30:00Z")).2 ∉
      (App.polls "job-1" (App.pollJob (App.bound "2025-01-01T10:30:00Z")).2
        ([{ job := JobResponse.failed, report := none },
          { job := JobResponse.ok "queued", report := none }] ++
         [{ job := JobResponse.ok "finished", report := some "ok" }])
        (App.pollJob (App.bound "2025-01-01T10:30:00Z")).1).intervals ∧
    App.polls "job-1" (App.pollJob (App.bound "2025-01-01T10:30:00Z")).2
        ([{ job := JobResponse.failed, report := none },
          { job := JobResponse.ok "queued", report := none }] ++
         { job := JobResponse.ok "finished", report := some "ok" } ::
          [{ job := JobResponse.ok "finished", report := some "late" },
           { job := JobResponse.ok "queued", report := none }])
        (App.pollJob (App.bound "2025-01-01T10:30:00Z")).1 =
      App.polls "job-1" (App.pollJob (App.bound "2025-01-01T10:30:00Z")).2
        ([{ job := JobResponse.failed, report := none },
          { job := JobResponse.ok "queued", report := none }] ++
         [{ job := JobResponse.ok "finished", report := some "ok" }])
        (App.pollJob (App.bound "2025-01-01T10:30:00Z")).1 :=
  ⟨(pollJob_stops_at_first_terminal "job-1" (App.pollJob (App.bound "2025-01-01T10:30:00Z")).2
      [{ job := JobResponse.failed, report := none },
       { job := JobResponse.ok "queued", report := none }]
      [{ job := JobResponse.ok "finished", report := some "late" },
       { job := JobResponse.ok "queued", report := none }]
      { job := JobResponse.ok "finished", report := some "ok" }
      (App.pollJob (App.bound "2025-01-01T10:30:00Z")).1
      (by decide) (by decide) (by decide)).2.2.2.1,
   (pollJob_stops_at_first_terminal "job-1" (App.pollJob (App.bound "2025-01-01T10:30:00Z")).2
      [{ job := JobResponse.failed, report := none },
       { job := JobResponse.ok "queued", report := none }]
      [{ job := JobResponse.ok "finished", report := some "late" },
       { job := JobResponse.ok "queued", report := none }]
      { job := JobResponse.ok "finished", report := some "ok" }
      (App.pollJob (App.bound "2025-01-01T10:30:00Z")).1
      (by decide) (by decide) (by decide)).2.2.2.2.2⟩

/-! ## The thresholds of the two views -/

theorem View.updateTimer_composition (parseDate : String → Option Int) (expiresAt : String)
    (now : Int) (page : Page) (v : View) :
    View.updateTimer parseDate expiresAt now page v =
      View.expiry (diffOf (parseDate (expiresAtUTC expiresAt)) now)
        (View.notify (diffOf (parseDate (expiresAtUTC expiresAt)) now) v.notificationShown
          (View.sound (diffOf (parseDate (expiresAtUTC expiresAt)) now)
            (View.blink (diffOf (parseDate (expiresAtUTC expiresAt)) now)
              (View.render page (diffOf (parseDate (expiresAtUTC expiresAt)) now) v)))) := by
  unfold View.updateTimer View.expiry View.notify View.sound View.blink View.render
  cases page.timerEl <;> cases page.progressEl <;> rfl

theorem View.render_frame (page : Page) (diff : Option Int) (v : View) :
    (View.render page diff v).isBlinking = v.isBlinking ∧
    (View.render page diff v).notificationShown = v.notificationShown ∧
    (View.render page diff v).effects = v.effects := by
  unfold View.render
  cases page.timerEl <;> cases page.progressEl <;> exact ⟨rfl, rfl, rfl⟩

theorem View.sound_frame (diff : Option Int) (v : View) :
    (View.sound diff v).isBlinking = v.isBlinking ∧
    (View.sound diff v).notificationShown = v.notificationShown ∧
    notificationCount (View.sound diff v).effects = notificationCount v.effects := by
  unfold View.sound
  split
  · exact ⟨rfl, rfl, notificationCount_append_tickSound _⟩
  · exact ⟨rfl, rfl, rfl⟩

theorem View.notify_thresholds (diff : Option Int) (shown : Bool) (v : View) :
    (View.notify diff shown v).isBlinking = v.isBlinking ∧
    (View.notify diff shown v).notificationShown =
      (if (ltNum diff (10 * 60000) && gtNum diff 0) = true ∧ shown = false then true
       else v.notificationShown) ∧
    notificationCount (View.notify diff shown v).effects =
      notificationCount v.effects +
        (if (ltNum diff (10 * 60000) && gtNum diff 0) = true ∧ shown = false then 1
         else 0) := by
  unfold View.notify
  cases (ltNum diff (10 * 60000) && gtNum diff 0) <;> cases shown <;>
    simp [notificationCount_append_notification]

theorem View.expiry_frame (diff : Option Int) (v : View) :
    (View.expiry diff v).isBlinking = v.isBlinking ∧
    (View.expiry diff v).notificationShown = v.notificationShown ∧
    (View.expiry diff v).effects = v.effects := by
  unfold View.expiry
  split <;> split <;> exact ⟨rfl, rfl, rfl⟩

theorem View.tick_thresholds (parseDate : String → Option Int) (now : Int) (page : Page)
    (v : View) (sess : Session) (e : String) (d : Int)
    (hs : v.session = some sess) (hc : truthyStr sess.expires_at = some e)
    (hd : diffOf (parseDate (expiresAtUTC e)) now = some d) (hpos : 0 < d) :
    (View.tick parseDate now page v).isBlinking = decide (d < 300000) ∧
    (View.tick parseDate now page v).notificationShown =
      (if d < 600000 ∧ v.notificationShown = false then true else v.notificationShown) ∧
    notificationCount (View.tick parseDate now page v).effects =
      notificationCount v.effects +
        (if d < 600000 ∧ v.notificationShown = false then 1 else 0) := by
  have htick : View.tick parseDate now page v = View.updateTimer parseDate e now page v := by
    simp only [View.tick, hs, hc]
  rw [htick, View.updateTimer_composition, hd]
  have hg : gtNum (some d) 0 = true := by simp [gtNum, hpos]
  have h5 : (ltNum (some d) (5 * 60000) && gtNum (some d) 0) = decide (d < 300000) := by
    rw [hg]; simp [ltNum]
  have h10 : ((ltNum (some d) (10 * 60000) && gtNum (some d) 0) = true ∧
      v.notificationShown = false) ↔ (d < 600000 ∧ v.notificationShown = false) := by
    rw [hg]; simp [ltNum]
  obtain ⟨x1, x2, x3⟩ := View.expiry_frame (some d)
    (View.notify (some d) v.notificationShown
      (View.sound (some d) (View.blink (some d) (View.render page (some d) v))))
  obtain ⟨n1, n2, n3⟩ := View.notify_thresholds (some d) v.notificationShown
    (View.sound (some d) (View.blink (some d) (View.render page (some d) v)))
  obtain ⟨s1, s2, s3⟩ := View.sound_frame (some d)
    (View.blink (some d) (View.render page (some d) v))
  obtain ⟨r1, r2, r3⟩ := View.render_frame page (some d) v
  have b1 : (View.blink (some d) (View.render page (some d) v)).isBlinking =
      (ltNum (some d) (5 * 60000) && gtNum (some d) 0) := rfl
  have b2 : (View.blink (some d) (View.render page (some d) v)).notificationShown =
      (View.render page (some d) v).notificationShown := rfl
  have b3 : (View.blink (some d) (View.render page (some d) v)).effects =
      (View.render page (some d) v).effects := rfl
  refine ⟨?_, ?_, ?_⟩
  · rw [x1, n1, s1, b1, h5]
  · rw [x2, n2, s2, b2, r2]
    simp only [h10]
  · rw [x3, n3, s3, b3, r3]
    simp only [h10]

theorem App.updateTimer_isBlinking (parseDate : String → Option Int) (sid : Nat) (now : Int)
    (page : Page) (a : App) (e : String)
    (ht : page.timerEl = true) (hp : page.progressEl = true)
    (hc : truthyStr (getEntry a.localStorage sid).expires_at = some e)
    (h0 : diffOf (parseDate (expiresAtUTC e)) now ≠ some 0) :
    (App.updateTimer parseDate sid now page a).isBlinking =
      ltNum ((diffOf (parseDate (expiresAtUTC e)) now).map totalMinutesOf) 5 := by
  rw [App.updateTimer_stages parseDate sid now page a e ht hp hc h0]
  have hn : ∀ (tm : Option Int) (shown : Bool) (b : App),
      (App.notify tm shown b).isBlinking = b.isBlinking := by
    intro tm shown b
    unfold App.notify
    split <;> rfl
  have ha : ∀ (tm : Option Int) (b : App), (App.audio tm b).isBlinking = b.isBlinking := by
    intro tm b
    unfold App.audio
    split <;> split <;> rfl
  have hb : ∀ (tm : Option Int) (b : App), (App.blink page tm b).isBlinking = ltNum tm 5 := by
    intro tm b
    unfold App.blink
    cases hlt : ltNum tm 5 <;> simp
  rw [hn, ha, hb]

/-- C28: for every remaining time `d > 0` the `totalMinutes` of the main view is
`floor(d / 60000)`, so `totalMinutes < 10`, `< 5` and `< 1` hold exactly when `d < 600000`,
`d < 300000` and `d < 60000`.  Hence a tick of the main view and a tick of the candidate
view on the same expiry and with the same notified flag leave the same blinking flag and the
same notified flag, and send the notification on the same remaining times. -/
theorem minute_thresholds_agree (parseDate : String → Option Int) (e : String)
    (end_ now : Int) (sid : Nat) (page : Page) (a : App) (v : View) (sess : Session)
    (ht : page.timerEl = true) (hp : page.progressEl = true)
    (hparse : parseDate (expiresAtUTC e) = some end_)
    (hc : truthyStr (getEntry a.localStorage sid).expires_at = some e)
    (hs : v.session = some sess) (hv : truthyStr sess.expires_at = some e)
    (hflag : a.notificationShown = v.notificationShown) (hpos : now < end_) :
    totalMinutesOf (end_ - now) = (end_ - now) / 60000 ∧
    (totalMinutesOf (end_ - now) < 10 ↔ end_ - now < 600000) ∧
    (totalMinutesOf (end_ - now) < 5 ↔ end_ - now < 300000) ∧
    (totalMinutesOf (end_ - now) < 1 ↔ end_ - now < 60000) ∧
    (App.updateTimer parseDate sid now page a).isBlinking =
      (CandidateView.tick parseDate now page v).isBlinking ∧
    (App.updateTimer parseDate sid now page a).notificationShown =
      (CandidateView.tick parseDate now page v).notificationShown ∧
    notificationCount (App.updateTimer parseDate sid now page a).effects +
        notificationCount v.effects =
      notificationCount (CandidateView.tick parseDate now page v).effects +
        notificationCount a.effects := by
  have hm : max 0 (end_ - now) = end_ - now := max_eq_right (by omega)
  have hd : diffOf (parseDate (expiresAtUTC e)) now = some (end_ - now) := by
    rw [hparse, diffOf_some, hm]
  have h0 : diffOf (parseDate (expiresAtUTC e)) now ≠ some 0 := by
    rw [hd]
    simp only [ne_eq, Option.some.injEq]
    omega
  have htm : totalMinutesOf (end_ - now) = (end_ - now) / 60000 :=
    totalMinutesOf_eq _ (by omega)
  obtain ⟨m1, m2, -, -⟩ := App.updateTimer_notify parseDate sid now page a e end_ ht hp hc hparse
  obtain ⟨c1, c2, c3⟩ := View.tick_thresholds parseDate now page v sess e (end_ - now) hs hv hd
    (by omega)
  have mb := App.updateTimer_isBlinking parseDate sid now page a e ht hp hc h0
  refine ⟨htm, ?_, ?_, ?_, ?_, ?_, ?_⟩
  · rw [htm]; constructor <;> intro h <;> omega
  · rw [htm]; constructor <;> intro h <;> omega
  · rw [htm]; constructor <;> intro h <;> omega
  · rw [CandidateView.tick, c1, mb, hd]
    simp only [Option.map_some', ltNum, htm]
    congr 1
    apply propext
    constructor <;> intro h <;> omega
  · rw [CandidateView.tick, c2, m2, hflag]
    have hiff : (0 < end_ - now ∧ end_ - now < 600000 ∧ v.notificationShown = false) ↔
        (end_ - now < 600000 ∧ v.notificationShown = false) :=
      ⟨fun h => h.2, fun h => ⟨by omega, h⟩⟩
    simp only [hiff]
  · rw [CandidateView.tick, c3, m1, hflag]
    have hiff : (0 < end_ - now ∧ end_ - now < 600000 ∧ v.notificationShown = false) ↔
        (end_ - now < 600000 ∧ v.notificationShown = false) :=
      ⟨fun h => h.2, fun h => ⟨by omega, h⟩⟩
    simp only [hiff]
    omega

/-- Witness of C28: four minutes before the expiry `2025-01-01T10:30:00Z`, in both views. -/
theorem minute_thresholds_agree_witness :
    totalMinutesOf (1735727400000 - 1735727160000) =
      (1735727400000 - 1735727160000) / 60000 ∧
    (totalMinutesOf (1735727400000 - 1735727160000) < 10 ↔
      (1735727400000 : Int) - 1735727160000 < 600000) ∧
    (totalMinutesOf (1735727400000 - 1735727160000) < 5 ↔
      (1735727400000 : Int) - 1735727160000 < 300000) ∧
    (totalMinutesOf (1735727400000 - 1735727160000) < 1 ↔
      (1735727400000 : Int) - 1735727160000 < 60000) ∧
    (App.updateTimer sampleDate 1 1735727160000 fullPage
      (App.bound "2025-01-01T10:30:00Z")).isBlinking =
      (CandidateView.tick sampleDate 1735727160000 fullPage
        (View.bound "2025-01-01T10:30:00Z")).isBlinking ∧
    (App.updateTimer sampleDate 1 1735727160000 fullPage
      (App.bound "2025-01-01T10:30:00Z")).notificationShown =
      (CandidateView.tick sampleDate 1735727160000 fullPage
        (View.bound "2025-01-01T10:30:00Z")).notificationShown ∧
    notificationCount (App.updateTimer sampleDate 1 1735727160000 fullPage
        (App.bound "2025-01-01T10:30:00Z")).effects +
        notificationCount (View.bound "2025-01-01T10:30:00Z").effects =
      notificationCount (CandidateView.tick sampleDate 1735727160000 fullPage
        (View.bound "2025-01-01T10:30:00Z")).effects +
        notificationCount (App.bound "2025-01-01T10:30:00Z").effects :=
  minute_thresholds_agree sampleDate "2025-01-01T10:30:00Z" 1735727400000 1735727160000 1
    fullPage (App.bound "2025-01-01T10:30:00Z") (View.bound "2025-01-01T10:30:00Z")
    { session_id := 1, expires_at := some "2025-01-01T10:30:00Z", created_at := none }
    rfl rfl (by decide) (by decide) rfl (by decide) rfl (by decide)

end Conversations
